import Mathlib

/-!
# SceneManager

A shallow embedding of `Source/SceneManager.cpp`: the texture registry, the
material registry, the transform composer and the shader-state bridge.

Scalars (`float` in the source) are values of a field `K`; the theorems about
matrices instantiate `K` with the real numbers.  Matrices are indexed
`m row column`; GLM stores them by column, so GLM's `m[c][r]` is `m r c` here.
-/

/-! ## Vectors, matrices and the GLM routines the source calls -/

/-- The `glm::vec2` of the source. -/
structure Vec2 (K : Type) where
  x : K
  y : K

/-- The `glm::vec3` of the source. -/
structure Vec3 (K : Type) where
  x : K
  y : K
  z : K

/-- The `glm::vec4` of the source, with the colour names of its components. -/
structure Vec4 (K : Type) where
  r : K
  g : K
  b : K
  a : K

/-- The `glm::mat4` of the source (row index first). -/
abbrev Mat4 (K : Type) := Matrix (Fin 4) (Fin 4) K

/-- The transcendental functions GLM takes from the C library, and the
constant pi behind `glm::radians`. -/
structure RealFns (K : Type) where
  cos : K → K
  sin : K → K
  inversesqrt : K → K
  pi : K

/-- GLM `radians`: degrees times pi / 180. -/
def glm.radians {K : Type} [Field K] (F : RealFns K) (degrees : K) : K :=
  degrees * (F.pi / 180)

/-- GLM `dot` on `vec3`. -/
def glm.dot {K : Type} [Field K] (a b : Vec3 K) : K :=
  a.x * b.x + a.y * b.y + a.z * b.z

/-- GLM `normalize` on `vec3`: `v * inversesqrt(dot(v, v))`. -/
def glm.normalize {K : Type} [Field K] (F : RealFns K) (v : Vec3 K) : Vec3 K :=
  let k := F.inversesqrt (glm.dot v v)
  { x := v.x * k, y := v.y * k, z := v.z * k }

/-- GLM `translate(m, v)`: the fourth column becomes
`m[0]*v[0] + m[1]*v[1] + m[2]*v[2] + m[3]`, the others are those of `m`. -/
def glm.translateM {K : Type} [Field K] (m : Mat4 K) (v : Vec3 K) : Mat4 K :=
  Matrix.of fun r c =>
    if c = 3 then m r 0 * v.x + m r 1 * v.y + m r 2 * v.z + m r 3 else m r c

/-- GLM `scale(m, v)`: columns 0, 1, 2 of `m` times `v[0]`, `v[1]`, `v[2]`;
the fourth column is that of `m`. -/
def glm.scaleM {K : Type} [Field K] (m : Mat4 K) (v : Vec3 K) : Mat4 K :=
  Matrix.of fun r c =>
    if c = 0 then m r 0 * v.x
    else if c = 1 then m r 1 * v.y
    else if c = 2 then m r 2 * v.z
    else m r 3

/-- The 3x3 block `Rotate` of GLM `rotate`, in GLM's own indexing
`Rotate[c][r]`, from the cosine, the sine and the normalized axis. -/
def glm.rotateBlock {K : Type} [Field K] (c s : K) (axis : Vec3 K) :
    Fin 3 → Fin 3 → K :=
  let temp : Vec3 K := { x := (1 - c) * axis.x, y := (1 - c) * axis.y, z := (1 - c) * axis.z }
  fun col row =>
    match col, row with
    | 0, 0 => c + temp.x * axis.x
    | 0, 1 => temp.x * axis.y + s * axis.z
    | 0, 2 => temp.x * axis.z - s * axis.y
    | 1, 0 => temp.y * axis.x - s * axis.z
    | 1, 1 => c + temp.y * axis.y
    | 1, 2 => temp.y * axis.z + s * axis.x
    | 2, 0 => temp.z * axis.x + s * axis.y
    | 2, 1 => temp.z * axis.y - s * axis.x
    | 2, 2 => c + temp.z * axis.z

/-- GLM `rotate(m, angle, v)`: column `j < 3` of the result is
`m[0]*Rotate[j][0] + m[1]*Rotate[j][1] + m[2]*Rotate[j][2]`, the fourth column
is that of `m`. -/
def glm.rotateM {K : Type} [Field K] (F : RealFns K) (m : Mat4 K) (angle : K)
    (v : Vec3 K) : Mat4 K :=
  let rot := glm.rotateBlock (F.cos angle) (F.sin angle) (glm.normalize F v)
  Matrix.of fun r c =>
    if c = 0 then m r 0 * rot 0 0 + m r 1 * rot 0 1 + m r 2 * rot 0 2
    else if c = 1 then m r 0 * rot 1 0 + m r 1 * rot 1 1 + m r 2 * rot 1 2
    else if c = 2 then m r 0 * rot 2 0 + m r 1 * rot 2 1 + m r 2 * rot 2 2
    else m r 3

/-- GLM `translate(v)` of `glm/gtx/transform.hpp`: `translate(mat4(1), v)`. -/
def glm.translate {K : Type} [Field K] (v : Vec3 K) : Mat4 K :=
  glm.translateM (1 : Mat4 K) v

/-- GLM `rotate(angle, v)` of `glm/gtx/transform.hpp`: `rotate(mat4(1), angle, v)`. -/
def glm.rotate {K : Type} [Field K] (F : RealFns K) (angle : K) (v : Vec3 K) : Mat4 K :=
  glm.rotateM F (1 : Mat4 K) angle v

/-- GLM `scale(v)` of `glm/gtx/transform.hpp`: `scale(mat4(1), v)`. -/
def glm.scale {K : Type} [Field K] (v : Vec3 K) : Mat4 K :=
  glm.scaleM (1 : Mat4 K) v

/-! ## The shader program's uniform table -/

/-- A value a named uniform can hold. -/
inductive UniformValue (K : Type) where
  | int (v : Int)
  | bool (b : Bool)
  | float (x : K)
  | vec2 (v : Vec2 K)
  | vec3 (v : Vec3 K)
  | vec4 (v : Vec4 K)
  | mat4 (m : Mat4 K)
  | sampler2D (unit : Int)

/-- Modelled from the spec: the `ShaderManager` class is not part of
`SceneManager.cpp`.  It is the shader program's named-uniform table; every
setter is an immediate write of one named entry. -/
structure ShaderManager (K : Type) where
  uniforms : String → Option (UniformValue K)

/-- Modelled from the spec: the one write every `ShaderManager` setter
performs, keyed by the uniform's name. -/
def ShaderManager.write {K : Type} (sh : ShaderManager K) (name : String)
    (v : UniformValue K) : ShaderManager K :=
  { uniforms := fun n => if n = name then some v else sh.uniforms n }

/-- Modelled from the spec: `ShaderManager::setMat4Value`. -/
def ShaderManager.setMat4Value {K : Type} (sh : ShaderManager K) (name : String)
    (m : Mat4 K) : ShaderManager K :=
  sh.write name (UniformValue.mat4 m)

/-- Modelled from the spec: `ShaderManager::setIntValue`. -/
def ShaderManager.setIntValue {K : Type} (sh : ShaderManager K) (name : String)
    (v : Int) : ShaderManager K :=
  sh.write name (UniformValue.int v)

/-- Modelled from the spec: `ShaderManager::setBoolValue`. -/
def ShaderManager.setBoolValue {K : Type} (sh : ShaderManager K) (name : String)
    (b : Bool) : ShaderManager K :=
  sh.write name (UniformValue.bool b)

/-- Modelled from the spec: `ShaderManager::setFloatValue`. -/
def ShaderManager.setFloatValue {K : Type} (sh : ShaderManager K) (name : String)
    (x : K) : ShaderManager K :=
  sh.write name (UniformValue.float x)

/-- Modelled from the spec: `ShaderManager::setVec2Value`. -/
def ShaderManager.setVec2Value {K : Type} (sh : ShaderManager K) (name : String)
    (v : Vec2 K) : ShaderManager K :=
  sh.write name (UniformValue.vec2 v)

/-- Modelled from the spec: `ShaderManager::setVec3Value`. -/
def ShaderManager.setVec3Value {K : Type} (sh : ShaderManager K) (name : String)
    (v : Vec3 K) : ShaderManager K :=
  sh.write name (UniformValue.vec3 v)

/-- Modelled from the spec: `ShaderManager::setVec4Value`. -/
def ShaderManager.setVec4Value {K : Type} (sh : ShaderManager K) (name : String)
    (v : Vec4 K) : ShaderManager K :=
  sh.write name (UniformValue.vec4 v)

/-- Modelled from the spec: `ShaderManager::setSampler2DValue`. -/
def ShaderManager.setSampler2DValue {K : Type} (sh : ShaderManager K) (name : String)
    (unit : Int) : ShaderManager K :=
  sh.write name (UniformValue.sampler2D unit)

/-- The uniform name `g_ModelName`. -/
def g_ModelName : String := "model"

/-- The uniform name `g_ColorValueName`. -/
def g_ColorValueName : String := "objectColor"

/-- The uniform name `g_TextureValueName`. -/
def g_TextureValueName : String := "objectTexture"

/-- The uniform name `g_UseTextureName`. -/
def g_UseTextureName : String := "bUseTexture"

/-- The uniform name `g_UseLightingName`. -/
def g_UseLightingName : String := "bUseLighting"

/-! ## Materials and textures -/

/-- Modelled from the spec: the `OBJECT_MATERIAL` record is declared in
`SceneManager.h`, which is not part of `SceneManager.cpp`; its fields are the
ones the source reads and writes. -/
structure OBJECT_MATERIAL (K : Type) where
  ambientColor : Vec3 K
  ambientStrength : K
  diffuseColor : Vec3 K
  specularColor : Vec3 K
  shininess : K
  tag : String

/-- OpenGL object names (`GLuint`). -/
abbrev GLuint := Nat

/-- Modelled from the spec: the `TEXTURE_INFO` record is declared in
`SceneManager.h`; it pairs a tag with the GPU handle of the texture. -/
structure TEXTURE_INFO where
  tag : String
  ID : GLuint
  deriving DecidableEq, Repr

/-- What `stbi_load` hands back for a readable file: the dimensions, the
channel count and the pixel bytes. -/
structure Image where
  width : Int
  height : Int
  colorChannels : Int
  pixels : List Nat
  deriving DecidableEq, Repr

/-! ## The OpenGL texture state the source acts on -/

/-- Values of the texture parameters and formats the source passes to OpenGL. -/
inductive GLenum where
  | GL_REPEAT
  | GL_LINEAR
  | GL_RGB
  | GL_RGBA
  | GL_RGB8
  | GL_RGBA8
  deriving DecidableEq, Repr

/-- The texture parameter names the source sets. -/
inductive TexParam where
  | GL_TEXTURE_WRAP_S
  | GL_TEXTURE_WRAP_T
  | GL_TEXTURE_MIN_FILTER
  | GL_TEXTURE_MAG_FILTER
  deriving DecidableEq, Repr

/-- The state of one texture object. -/
structure TexObject where
  wrapS : Option GLenum
  wrapT : Option GLenum
  minFilter : Option GLenum
  magFilter : Option GLenum
  internalFormat : Option GLenum
  format : Option GLenum
  image : Option Image
  mipmaps : Bool
  deriving DecidableEq, Repr

/-- The part of the OpenGL context the texture code touches: the texture names
that were generated and not deleted, the active texture unit (as an offset
from `GL_TEXTURE0`), the `GL_TEXTURE_2D` binding of every unit and the state
of every texture object. -/
structure GLState where
  textures : List GLuint
  activeUnit : Nat
  bound : Nat → GLuint
  objects : GLuint → TexObject

/-- OpenGL `glGenTextures(1, &id)`: hands out a non-zero name that is not in
use (here the successor of the largest live name) and records it as live. -/
def glGenTextures (gl : GLState) : GLuint × GLState :=
  let name := gl.textures.foldl max 0 + 1
  (name, { gl with textures := gl.textures ++ [name] })

/-- OpenGL `glActiveTexture(GL_TEXTURE0 + i)`. -/
def glActiveTexture (gl : GLState) (i : Nat) : GLState :=
  { gl with activeUnit := i }

/-- OpenGL `glBindTexture(GL_TEXTURE_2D, id)`: binds on the active unit. -/
def glBindTexture (gl : GLState) (id : GLuint) : GLState :=
  { gl with bound := fun u => if u = gl.activeUnit then id else gl.bound u }

/-- Applies `f` to the texture object bound to `GL_TEXTURE_2D` on the active unit. -/
def GLState.onBound (gl : GLState) (f : TexObject → TexObject) : GLState :=
  { gl with objects := fun n =>
      if n = gl.bound gl.activeUnit then f (gl.objects n) else gl.objects n }

/-- OpenGL `glTexParameteri(GL_TEXTURE_2D, pname, value)`. -/
def glTexParameteri (gl : GLState) (pname : TexParam) (value : GLenum) : GLState :=
  gl.onBound fun o =>
    match pname with
    | TexParam.GL_TEXTURE_WRAP_S => { o with wrapS := some value }
    | TexParam.GL_TEXTURE_WRAP_T => { o with wrapT := some value }
    | TexParam.GL_TEXTURE_MIN_FILTER => { o with minFilter := some value }
    | TexParam.GL_TEXTURE_MAG_FILTER => { o with magFilter := some value }

/-- OpenGL `glTexImage2D(GL_TEXTURE_2D, 0, internalFormat, width, height, 0,
format, GL_UNSIGNED_BYTE, image)`. -/
def glTexImage2D (gl : GLState) (internalFormat format : GLenum) (image : Image) :
    GLState :=
  gl.onBound fun o =>
    { o with internalFormat := some internalFormat, format := some format, image := some image }

/-- OpenGL `glGenerateMipmap(GL_TEXTURE_2D)`. -/
def glGenerateMipmap (gl : GLState) : GLState :=
  gl.onBound fun o => { o with mipmaps := true }

/-! ## The primitive mesh library -/

/-- The primitive shapes of the mesh library. -/
inductive Shape where
  | box
  | plane
  | cylinder
  | taperedCylinder
  | cone
  | sphere
  | torus
  deriving DecidableEq, Repr

/-- One submitted draw: the shape, and the uniform table the draw consumes
(`none` when no shader program is attached). -/
structure DrawCall (K : Type) where
  shape : Shape
  uniforms : Option (ShaderManager K)

/-- Modelled from the spec: the `ShapeMeshes` class is not part of
`SceneManager.cpp`.  It holds the shapes that were loaded and, in submission
order, the draws that were issued. -/
structure ShapeMeshes (K : Type) where
  loaded : List Shape
  drawn : List (DrawCall K)

/-- Modelled from the spec: `ShapeMeshes::Load<Shape>Mesh`, idempotent per shape. -/
def ShapeMeshes.load {K : Type} (m : ShapeMeshes K) (shape : Shape) : ShapeMeshes K :=
  if shape ∈ m.loaded then m else { m with loaded := m.loaded ++ [shape] }

/-- Modelled from the spec: `ShapeMeshes::Draw<Shape>Mesh`, which takes no
parameter and consumes the uniform state bound at the time of the call. -/
def ShapeMeshes.draw {K : Type} (m : ShapeMeshes K) (shape : Shape)
    (bound : Option (ShaderManager K)) : ShapeMeshes K :=
  { m with drawn := m.drawn ++ [{ shape := shape, uniforms := bound }] }

/-! ## The scene manager -/

/-- How a call of the source can leave defined behaviour. -/
inductive Fault where
  | outOfBounds (index : Nat)
  | nullShaderManager
  deriving DecidableEq, Repr

/-- Modelled from the spec: the members of `SceneManager` are declared in
`SceneManager.h`, which is not part of `SceneManager.cpp`.  The texture table
has the 16 slots the source's comments and the spec give it, and `inBounds`
says that the count indexes that table.  `m_pShaderManager` is the pointer
with its pointee (`none` is `NULL`).  The record also carries the process
state the methods act on: `gl` is the OpenGL texture state and `stbiBuffers`
the number of pixel buffers `stbi_load` returned that were not yet passed to
`stbi_image_free`.  `m_basicMeshes` is the pointer to the mesh library with
its pointee. -/
structure SceneManager (K : Type) where
  m_pShaderManager : Option (ShaderManager K)
  m_loadedTextures : Nat
  m_textureIDs : Fin 16 → TEXTURE_INFO
  inBounds : m_loadedTextures ≤ 16
  m_objectMaterials : List (OBJECT_MATERIAL K)
  gl : GLState
  stbiBuffers : Nat
  m_basicMeshes : ShapeMeshes K

/-- The tail of `CreateGLTexture` after the pixel upload left the OpenGL state
`gl`: `glGenerateMipmap`, `stbi_image_free(image)`, `glBindTexture(GL_TEXTURE_2D, 0)`,
then the registration `m_textureIDs[m_loadedTextures].ID = textureID`,
`.tag = tag`, `m_loadedTextures++` and `return true`.  The store has no
capacity check; with all 16 slots taken it lands one past the table. -/
def CreateGLTexture.finish {K : Type} (gl : GLState) (textureID : GLuint) (tag : String)
    (s : SceneManager K) : Except Fault (Bool × SceneManager K) :=
  let gl1 := glGenerateMipmap gl
  let stbiBuffers1 := s.stbiBuffers - 1
  let gl2 := glBindTexture gl1 0
  if h : s.m_loadedTextures < 16 then
    Except.ok (true,
      { s with
        gl := gl2
        stbiBuffers := stbiBuffers1
        m_textureIDs := Function.update s.m_textureIDs ⟨s.m_loadedTextures, h⟩
          { tag := tag, ID := textureID }
        m_loadedTextures := s.m_loadedTextures + 1
        inBounds := h })
  else
    Except.error (Fault.outOfBounds s.m_loadedTextures)

/-- The source's `SceneManager::CreateGLTexture`.  `stbi_load` is the image
decoder with the file system behind it (vertical flip included): `none` is the
null pointer it returns for a file it cannot read. -/
def CreateGLTexture {K : Type} (stbi_load : String → Option Image)
    (filename : String) (tag : String) (s : SceneManager K) :
    Except Fault (Bool × SceneManager K) :=
  match stbi_load filename with
  | some image =>
    let s0 : SceneManager K := { s with stbiBuffers := s.stbiBuffers + 1 }
    let gen := glGenTextures s0.gl
    let textureID := gen.1
    let gl1 := glBindTexture gen.2 textureID
    let gl2 := glTexParameteri gl1 TexParam.GL_TEXTURE_WRAP_S GLenum.GL_REPEAT
    let gl3 := glTexParameteri gl2 TexParam.GL_TEXTURE_WRAP_T GLenum.GL_REPEAT
    let gl4 := glTexParameteri gl3 TexParam.GL_TEXTURE_MIN_FILTER GLenum.GL_LINEAR
    let gl5 := glTexParameteri gl4 TexParam.GL_TEXTURE_MAG_FILTER GLenum.GL_LINEAR
    if image.colorChannels = 3 then
      CreateGLTexture.finish (glTexImage2D gl5 GLenum.GL_RGB8 GLenum.GL_RGB image)
        textureID tag s0
    else if image.colorChannels = 4 then
      CreateGLTexture.finish (glTexImage2D gl5 GLenum.GL_RGBA8 GLenum.GL_RGBA image)
        textureID tag s0
    else
      -- "Not implemented to handle image with ... channels": return false
      Except.ok (false, { s0 with gl := gl5 })
  | none =>
    -- "Could not load image": return false
    Except.ok (false, s)

/-- The loop of `BindGLTextures`, from index `i` on. -/
def BindGLTextures.loop {K : Type} (s : SceneManager K) (i : Nat) : SceneManager K :=
  if h : i < s.m_loadedTextures then
    let gl1 := glActiveTexture s.gl i
    let gl2 := glBindTexture gl1
      (s.m_textureIDs ⟨i, Nat.lt_of_lt_of_le h s.inBounds⟩).ID
    BindGLTextures.loop { s with gl := gl2 } (i + 1)
  else s
termination_by s.m_loadedTextures - i

/-- The source's `SceneManager::BindGLTextures`. -/
def BindGLTextures {K : Type} (s : SceneManager K) : SceneManager K :=
  BindGLTextures.loop s 0

/-- The loop of `DestroyGLTextures`, from index `i` on: each round is
`glGenTextures(1, &m_textureIDs[i].ID)`. -/
def DestroyGLTextures.loop {K : Type} (s : SceneManager K) (i : Nat) : SceneManager K :=
  if h : i < s.m_loadedTextures then
    let slot : Fin 16 := ⟨i, Nat.lt_of_lt_of_le h s.inBounds⟩
    let gen := glGenTextures s.gl
    DestroyGLTextures.loop
      { s with
        gl := gen.2
        m_textureIDs := Function.update s.m_textureIDs slot
          { s.m_textureIDs slot with ID := gen.1 } }
      (i + 1)
  else s
termination_by s.m_loadedTextures - i

/-- The source's `SceneManager::DestroyGLTextures`. -/
def DestroyGLTextures {K : Type} (s : SceneManager K) : SceneManager K :=
  DestroyGLTextures.loop s 0

/-- The conversion of a `GLuint` to the `int` that `FindTextureID` returns. -/
def GLuint.toInt (id : GLuint) : Int :=
  if id % 2 ^ 32 < 2 ^ 31 then (id % 2 ^ 32 : Nat) else ((id % 2 ^ 32 : Nat) : Int) - 2 ^ 32

/-- The `while` loop of `FindTextureID` from `index` on, with `bFound` false
on entry; a match sets `textureID`, raises `bFound` and so ends the loop. -/
def FindTextureID.loop {K : Type} (s : SceneManager K) (tag : String) (index : Nat) : Int :=
  if h : index < s.m_loadedTextures then
    if (s.m_textureIDs ⟨index, Nat.lt_of_lt_of_le h s.inBounds⟩).tag = tag then
      GLuint.toInt (s.m_textureIDs ⟨index, Nat.lt_of_lt_of_le h s.inBounds⟩).ID
    else FindTextureID.loop s tag (index + 1)
  else -1
termination_by s.m_loadedTextures - index

/-- The source's `SceneManager::FindTextureID`. -/
def FindTextureID {K : Type} (s : SceneManager K) (tag : String) : Int :=
  FindTextureID.loop s tag 0

/-- The `while` loop of `FindTextureSlot` from `index` on, with `bFound` false
on entry; a match sets `textureSlot = index`, raises `bFound` and so ends the
loop. -/
def FindTextureSlot.loop {K : Type} (s : SceneManager K) (tag : String) (index : Nat) : Int :=
  if h : index < s.m_loadedTextures then
    if (s.m_textureIDs ⟨index, Nat.lt_of_lt_of_le h s.inBounds⟩).tag = tag then
      (index : Int)
    else FindTextureSlot.loop s tag (index + 1)
  else -1
termination_by s.m_loadedTextures - index

/-- The source's `SceneManager::FindTextureSlot`. -/
def FindTextureSlot {K : Type} (s : SceneManager K) (tag : String) : Int :=
  FindTextureSlot.loop s tag 0

/-- The `while` loop of `FindMaterial` from `index` on, with `bFound` false on
entry: the final `bFound` and the output material. -/
def FindMaterial.loop {K : Type} (mats : List (OBJECT_MATERIAL K)) (tag : String)
    (index : Nat) (material : OBJECT_MATERIAL K) : Bool × OBJECT_MATERIAL K :=
  if h : index < mats.length then
    if (mats.get ⟨index, h⟩).tag = tag then
      (true,
        { material with
          ambientColor := (mats.get ⟨index, h⟩).ambientColor
          ambientStrength := (mats.get ⟨index, h⟩).ambientStrength
          diffuseColor := (mats.get ⟨index, h⟩).diffuseColor
          specularColor := (mats.get ⟨index, h⟩).specularColor
          shininess := (mats.get ⟨index, h⟩).shininess })
    else FindMaterial.loop mats tag (index + 1) material
  else (false, material)
termination_by mats.length - index

/-- The source's `SceneManager::FindMaterial`: the returned flag and the
output parameter `material` after the call.  After the loop the source
returns `true`, not `bFound`. -/
def FindMaterial {K : Type} (s : SceneManager K) (tag : String)
    (material : OBJECT_MATERIAL K) : Bool × OBJECT_MATERIAL K :=
  if s.m_objectMaterials.length = 0 then
    (false, material)
  else
    (true, (FindMaterial.loop s.m_objectMaterials tag 0 material).2)

/-- The model matrix `SetTransformations` composes:
`translation * rotationX * rotationY * rotationZ * scale`. -/
def SetTransformations.modelView {K : Type} [Field K] (F : RealFns K) (scaleXYZ : Vec3 K)
    (XrotationDegrees YrotationDegrees ZrotationDegrees : K) (positionXYZ : Vec3 K) :
    Mat4 K :=
  let scale := glm.scale scaleXYZ
  let rotationX := glm.rotate F (glm.radians F XrotationDegrees) { x := 1, y := 0, z := 0 }
  let rotationY := glm.rotate F (glm.radians F YrotationDegrees) { x := 0, y := 1, z := 0 }
  let rotationZ := glm.rotate F (glm.radians F ZrotationDegrees) { x := 0, y := 0, z := 1 }
  let translation := glm.translate positionXYZ
  translation * rotationX * rotationY * rotationZ * scale

/-- The source's `SceneManager::SetTransformations`. -/
def SetTransformations {K : Type} [Field K] (F : RealFns K) (scaleXYZ : Vec3 K)
    (XrotationDegrees YrotationDegrees ZrotationDegrees : K) (positionXYZ : Vec3 K)
    (s : SceneManager K) : SceneManager K :=
  let modelView := SetTransformations.modelView F scaleXYZ
    XrotationDegrees YrotationDegrees ZrotationDegrees positionXYZ
  match s.m_pShaderManager with
  | some sh => { s with m_pShaderManager := some (sh.setMat4Value g_ModelName modelView) }
  | none => s

/-- The source's `SceneManager::SetShaderColor`. -/
def SetShaderColor {K : Type} (redColorValue greenColorValue blueColorValue alphaValue : K)
    (s : SceneManager K) : SceneManager K :=
  let currentColor : Vec4 K :=
    { r := redColorValue, g := greenColorValue, b := blueColorValue, a := alphaValue }
  match s.m_pShaderManager with
  | some sh =>
    let sh1 := sh.setIntValue g_UseTextureName 0
    let sh2 := sh1.setVec4Value g_ColorValueName currentColor
    { s with m_pShaderManager := some sh2 }
  | none => s

/-- The source's `SceneManager::SetShaderTexture`. -/
def SetShaderTexture {K : Type} (textureTag : String) (s : SceneManager K) :
    SceneManager K :=
  match s.m_pShaderManager with
  | some sh =>
    let sh1 := sh.setIntValue g_UseTextureName 1
    let textureID := FindTextureSlot s textureTag
    let sh2 := sh1.setSampler2DValue g_TextureValueName textureID
    { s with m_pShaderManager := some sh2 }
  | none => s

/-- The source's `SceneManager::SetTextureUVScale`. -/
def SetTextureUVScale {K : Type} (u v : K) (s : SceneManager K) : SceneManager K :=
  match s.m_pShaderManager with
  | some sh =>
    { s with m_pShaderManager := some (sh.setVec2Value "UVscale" { x := u, y := v }) }
  | none => s

/-- The source's `SceneManager::SetShaderMaterial`.  `material` is the local
`OBJECT_MATERIAL material;` as it is before `FindMaterial` runs: the source
declares it without an initializer.  The uniform writes go through
`m_pShaderManager` without a null test. -/
def SetShaderMaterial {K : Type} (materialTag : String) (material : OBJECT_MATERIAL K)
    (s : SceneManager K) : Except Fault (SceneManager K) :=
  if s.m_objectMaterials.length > 0 then
    let found := FindMaterial s materialTag material
    let bReturn := found.1
    let material := found.2
    if bReturn = true then
      match s.m_pShaderManager with
      | some sh =>
        let sh1 := sh.setVec3Value "material.ambientColor" material.ambientColor
        let sh2 := sh1.setFloatValue "material.ambientStrength" material.ambientStrength
        let sh3 := sh2.setVec3Value "material.diffuseColor" material.diffuseColor
        let sh4 := sh3.setVec3Value "material.specularColor" material.specularColor
        let sh5 := sh4.setFloatValue "material.shininess" material.shininess
        Except.ok { s with m_pShaderManager := some sh5 }
      | none => Except.error Fault.nullShaderManager
    else Except.ok s
  else Except.ok s

/-! ## The scene assembler -/

/-- The local `normal_Material_shade` of `DefineObjectMaterials`. -/
def DefineObjectMaterials.normal_Material_shade {K : Type} [Field K] : OBJECT_MATERIAL K :=
  { ambientColor := { x := 0.02, y := 0.02, z := 0.02 }
    diffuseColor := { x := 0.5, y := 0.5, z := 0.5 }
    specularColor := { x := 0.2, y := 0.2, z := 0.2 }
    shininess := 32.0
    ambientStrength := 0.2
    tag := "NORMAL" }

/-- The local `glassMaterial` of `DefineObjectMaterials`. -/
def DefineObjectMaterials.glassMaterial {K : Type} [Field K] : OBJECT_MATERIAL K :=
  { ambientColor := { x := 0.0, y := 0.0, z := 0.0 }
    diffuseColor := { x := 0.2, y := 0.2, z := 0.2 }
    specularColor := { x := 1.0, y := 1.0, z := 1.0 }
    shininess := 128.0
    ambientStrength := 0.1
    tag := "GlassMaterial" }

/-- The local `waterMaterial` of `DefineObjectMaterials`. -/
def DefineObjectMaterials.waterMaterial {K : Type} [Field K] : OBJECT_MATERIAL K :=
  { ambientColor := { x := 0.0, y := 0.0, z := 0.4 }
    diffuseColor := { x := 0.3, y := 0.5, z := 0.8 }
    specularColor := { x := 0.6, y := 0.8, z := 1.0 }
    shininess := 64.0
    ambientStrength := 0.25
    tag := "WaterMaterial" }

/-- The local `rubberMaterial` of `DefineObjectMaterials`. -/
def DefineObjectMaterials.rubberMaterial {K : Type} [Field K] : OBJECT_MATERIAL K :=
  { ambientColor := { x := 0.1, y := 0.1, z := 0.1 }
    diffuseColor := { x := 0.6, y := 0.6, z := 0.6 }
    specularColor := { x := 0.2, y := 0.2, z := 0.2 }
    shininess := 8.0
    ambientStrength := 0.15
    tag := "RubberMaterial" }

/-- The local `plasticMaterial` of `DefineObjectMaterials`. -/
def DefineObjectMaterials.plasticMaterial {K : Type} [Field K] : OBJECT_MATERIAL K :=
  { ambientColor := { x := 0.2, y := 0.2, z := 0.2 }
    diffuseColor := { x := 0.8, y := 0.8, z := 0.8 }
    specularColor := { x := 0.5, y := 0.5, z := 0.5 }
    shininess := 32.0
    ambientStrength := 0.1
    tag := "PlasticMaterial" }

/-- The local `aluminumMaterial` of `DefineObjectMaterials`. -/
def DefineObjectMaterials.aluminumMaterial {K : Type} [Field K] : OBJECT_MATERIAL K :=
  { ambientColor := { x := 0.2, y := 0.2, z := 0.2 }
    diffuseColor := { x := 0.3, y := 0.3, z := 0.3 }
    specularColor := { x := 0.9, y := 0.9, z := 0.6 }
    shininess := 64.0
    ambientStrength := 0.5
    tag := "AluminumMaterial" }

/-- The materials `DefineObjectMaterials` appends, in the order of its
`push_back` calls: plastic, aluminum, normal, glass, water, rubber, and the
normal material a second time. -/
def DefineObjectMaterials.pushed {K : Type} [Field K] : List (OBJECT_MATERIAL K) :=
  [DefineObjectMaterials.plasticMaterial,
   DefineObjectMaterials.aluminumMaterial,
   DefineObjectMaterials.normal_Material_shade,
   DefineObjectMaterials.glassMaterial,
   DefineObjectMaterials.waterMaterial,
   DefineObjectMaterials.rubberMaterial,
   DefineObjectMaterials.normal_Material_shade]

/-- The source's `SceneManager::DefineObjectMaterials`. -/
def DefineObjectMaterials {K : Type} [Field K] (s : SceneManager K) : SceneManager K :=
  { s with m_objectMaterials := s.m_objectMaterials ++ DefineObjectMaterials.pushed }

/-- The uniform writes of `SetupSceneLights` on the shader program. -/
def SetupSceneLights.writes {K : Type} [Field K] (sh : ShaderManager K) : ShaderManager K :=
  let sh := sh.setBoolValue "bUseLighting" true
  let sh := sh.setBoolValue "lightSources[0].bActive" true
  let sh := sh.setVec3Value "lightSources[0].position" { x := -10.0, y := 5.0, z := 0.0 }
  let sh := sh.setVec3Value "lightSources[0].ambientColor" { x := 0.05, y := 0.05, z := 0.05 }
  let sh := sh.setVec3Value "lightSources[0].diffuseColor" { x := 0.25, y := 0.2, z := 0.15 }
  let sh := sh.setVec3Value "lightSources[0].specularColor" { x := 0.25, y := 0.225, z := 0.2 }
  let sh := sh.setBoolValue "lightSources[1].bActive" true
  let sh := sh.setVec3Value "lightSources[1].position" { x := -10.0, y := 8.0, z := -5.0 }
  let sh := sh.setVec3Value "lightSources[1].ambientColor" { x := 0.025, y := 0.025, z := 0.05 }
  let sh := sh.setVec3Value "lightSources[1].diffuseColor" { x := 0.15, y := 0.175, z := 0.25 }
  let sh := sh.setVec3Value "lightSources[1].specularColor" { x := 0.125, y := 0.15, z := 0.2 }
  let sh := sh.setBoolValue "lightSources[2].bActive" true
  let sh := sh.setVec3Value "lightSources[2].position" { x := -5.0, y := 12.0, z := 0.0 }
  let sh := sh.setVec3Value "lightSources[2].ambientColor" { x := 0.075, y := 0.075, z := 0.075 }
  let sh := sh.setVec3Value "lightSources[2].diffuseColor" { x := 0.25, y := 0.25, z := 0.25 }
  let sh := sh.setVec3Value "lightSources[2].specularColor" { x := 0.25, y := 0.25, z := 0.25 }
  -- for (int i = 3; i < 4; ++i): the single round i = 3
  sh.setBoolValue "lightSources[3].bActive" false

/-- The source's `SceneManager::SetupSceneLights`; it uses `m_pShaderManager`
without a null test. -/
def SetupSceneLights {K : Type} [Field K] (s : SceneManager K) :
    Except Fault (SceneManager K) :=
  match s.m_pShaderManager with
  | some sh => Except.ok { s with m_pShaderManager := some (SetupSceneLights.writes sh) }
  | none => Except.error Fault.nullShaderManager

/-- The source's `SceneManager::LoadSceneTextures`: ten registrations whose
return values are not looked at, then `BindGLTextures`. -/
def LoadSceneTextures {K : Type} (stbi_load : String → Option Image) (s : SceneManager K) :
    Except Fault (SceneManager K) := do
  let r ← CreateGLTexture stbi_load "textures/Wood.jpg" "Wood" s
  let r ← CreateGLTexture stbi_load "textures/mac.jpg" "laptop" r.2
  let r ← CreateGLTexture stbi_load "textures/white.jpg" "white" r.2
  let r ← CreateGLTexture stbi_load "textures/jotter.png" "jotter" r.2
  let r ← CreateGLTexture stbi_load "textures/pod.jpg" "Pod" r.2
  let r ← CreateGLTexture stbi_load "textures/pen.png" "pen" r.2
  let r ← CreateGLTexture stbi_load "textures/rubber.jpg" "rubber" r.2
  let r ← CreateGLTexture stbi_load "textures/glass.jpg" "glass" r.2
  let r ← CreateGLTexture stbi_load "textures/base.jpg" "base" r.2
  let r ← CreateGLTexture stbi_load "textures/case.png" "case" r.2
  pure (BindGLTextures r.2)

/-- A call `m_basicMeshes->Load<Shape>Mesh()`. -/
def SceneManager.loadMesh {K : Type} (s : SceneManager K) (shape : Shape) : SceneManager K :=
  { s with m_basicMeshes := s.m_basicMeshes.load shape }

/-- A call `m_basicMeshes->Draw<Shape>Mesh()`: the draw consumes the uniform
table as it is at this point. -/
def SceneManager.drawMesh {K : Type} (s : SceneManager K) (shape : Shape) : SceneManager K :=
  { s with m_basicMeshes := s.m_basicMeshes.draw shape s.m_pShaderManager }

/-- The source's `SceneManager::PrepareScene`. -/
def PrepareScene {K : Type} [Field K] (stbi_load : String → Option Image)
    (s : SceneManager K) : Except Fault (SceneManager K) := do
  let s := DefineObjectMaterials s
  let s ← SetupSceneLights s
  let s ← LoadSceneTextures stbi_load s
  let s := s.loadMesh Shape.box
  let s := s.loadMesh Shape.plane
  let s := s.loadMesh Shape.taperedCylinder
  let s := s.loadMesh Shape.torus
  let s := s.loadMesh Shape.cone
  let s := s.loadMesh Shape.cylinder
  let s := s.loadMesh Shape.sphere
  pure s

/-- The matrix `RenderScene` builds by hand for the AirPods case:
`glm::mat4(1.0f)`, then `glm::translate`, `glm::rotate` about X and
`glm::scale`, each applied to the matrix so far. -/
def RenderScene.modelMatrix {K : Type} [Field K] (F : RealFns K)
    (caseBasePosition : Vec3 K) (degrees : K) (sphereScale : Vec3 K) : Mat4 K :=
  let modelMatrix : Mat4 K := 1
  let modelMatrix := glm.translateM modelMatrix caseBasePosition
  let modelMatrix := glm.rotateM F modelMatrix (glm.radians F degrees) { x := 1, y := 0, z := 0 }
  let modelMatrix := glm.scaleM modelMatrix sphereScale
  modelMatrix

/-- The statement `m_pShaderManager->setMat4Value("model", modelMatrix)` of
`RenderScene`, which has no null test. -/
def RenderScene.sendModel {K : Type} (modelMatrix : Mat4 K) (s : SceneManager K) :
    Except Fault (SceneManager K) :=
  match s.m_pShaderManager with
  | some sh => Except.ok { s with m_pShaderManager := some (sh.setMat4Value "model" modelMatrix) }
  | none => Except.error Fault.nullShaderManager

/-- The source's `SceneManager::RenderScene`, statement by statement.
`material` is the content of the local `OBJECT_MATERIAL material;` of
`SetShaderMaterial` before each lookup. -/
def RenderScene {K : Type} [Field K] (F : RealFns K) (material : OBJECT_MATERIAL K)
    (s : SceneManager K) : Except Fault (SceneManager K) := do
  let mut s := s
  let mut XrotationDegrees : K := 0.0
  let mut YrotationDegrees : K := 0.0
  let mut ZrotationDegrees : K := 0.0
  -- table
  let mut scaleXYZ : Vec3 K := { x := 35.50, y := 9.0, z := 15.50 }
  XrotationDegrees := 0.0
  YrotationDegrees := 0.0
  ZrotationDegrees := 0.0
  let mut positionXYZ : Vec3 K := { x := 0.0, y := -10.0, z := 10.0 }
  s := SetTransformations F scaleXYZ XrotationDegrees YrotationDegrees ZrotationDegrees
    positionXYZ s
  s := SetShaderColor 0.1 0.1 0.1 1 s
  s ← SetShaderMaterial "NORMAL" material s
  s := SetShaderTexture "base" s
  s := s.drawMesh Shape.plane
  scaleXYZ := { x := 20.0, y := 1.0, z := 13.0 }
  XrotationDegrees := 0.0
  YrotationDegrees := 0.0
  ZrotationDegrees := 0.0
  positionXYZ := { x := 0.0, y := 0.0, z := 10.0 }
  s := SetTransformations F scaleXYZ XrotationDegrees YrotationDegrees ZrotationDegrees
    positionXYZ s
  s := SetShaderColor 0.8 0.8 0.8 1 s
  s ← SetShaderMaterial "NORMAL" material s
  s := SetShaderTexture "Wood" s
  s := s.drawMesh Shape.box
  -- legs
  scaleXYZ := { x := 0.50, y := 9.0, z := 0.50 }
  XrotationDegrees := 0.0
  YrotationDegrees := 0.0
  ZrotationDegrees := 0.0
  positionXYZ := { x := -9.0, y := -4.0, z := 4.5 }
  s := SetTransformations F scaleXYZ XrotationDegrees YrotationDegrees ZrotationDegrees
    positionXYZ s
  s := SetShaderColor 0.8 0.8 0.8 1 s
  s ← SetShaderMaterial "NORMAL" material s
  s := SetShaderTexture "Wood" s
  s := s.drawMesh Shape.box
  scaleXYZ := { x := 0.50, y := 9.0, z := 0.50 }
  XrotationDegrees := 0.0
  YrotationDegrees := 0.0
  ZrotationDegrees := 0.0
  positionXYZ := { x := 9.0, y := -4.0, z := 4.5 }
  s := SetTransformations F scaleXYZ XrotationDegrees YrotationDegrees ZrotationDegrees
    positionXYZ s
  s := SetShaderColor 0.8 0.8 0.8 1 s
  s ← SetShaderMaterial "NORMAL" material s
  s := SetShaderTexture "Wood" s
  s := s.drawMesh Shape.box
  scaleXYZ := { x := 0.50, y := 9.0, z := 0.50 }
  XrotationDegrees := 0.0
  YrotationDegrees := 0.0
  ZrotationDegrees := 0.0
  positionXYZ := { x := -9.0, y := -4.0, z := 15.5 }
  s := SetTransformations F scaleXYZ XrotationDegrees YrotationDegrees ZrotationDegrees
    positionXYZ s
  s := SetShaderColor 0.8 0.8 0.8 1 s
  s ← SetShaderMaterial "NORMAL" material s
  s := SetShaderTexture "Wood" s
  s := s.drawMesh Shape.box
  scaleXYZ := { x := 0.50, y := 9.0, z := 0.50 }
  XrotationDegrees := 0.0
  YrotationDegrees := 0.0
  ZrotationDegrees := 0.0
  positionXYZ := { x := 9.0, y := -4.0, z := 15.5 }
  s := SetTransformations F scaleXYZ XrotationDegrees YrotationDegrees ZrotationDegrees
    positionXYZ s
  s := SetShaderColor 0.8 0.8 0.8 1 s
  s ← SetShaderMaterial "NORMAL" material s
  s := SetShaderTexture "Wood" s
  s := s.drawMesh Shape.box
  -- Draw MacBook
  scaleXYZ := { x := 4.250, y := 0.050, z := 2.250 }
  XrotationDegrees := 0.0
  YrotationDegrees := 0.0
  ZrotationDegrees := 0.0
  positionXYZ := { x := 0.0, y := 0.5, z := 8.0 }
  s := SetTransformations F scaleXYZ XrotationDegrees YrotationDegrees ZrotationDegrees
    positionXYZ s
  s ← SetShaderMaterial "AluminumMaterial" material s
  s := SetShaderTexture "laptop" s
  s := s.drawMesh Shape.box
  -- draw Air Pods
  scaleXYZ := { x := 0.080, y := 0.080, z := 0.080 }
  -- First AirPod, Bud
  scaleXYZ := { x := 0.15, y := 0.15, z := 0.15 }
  positionXYZ := { x := 3.0, y := 0.66, z := 8.0 }
  XrotationDegrees := -5.0
  YrotationDegrees := 2.0
  ZrotationDegrees := -3.0
  s := SetTransformations F scaleXYZ XrotationDegrees YrotationDegrees ZrotationDegrees
    positionXYZ s
  s ← SetShaderMaterial "PlasticMaterial" material s
  s := SetShaderColor 1.0 1.0 1.0 1.0 s
  s := SetShaderTexture "Pod" s
  s := s.drawMesh Shape.sphere
  -- Ear Tip
  scaleXYZ := { x := 0.1, y := 0.1, z := 0.1 }
  positionXYZ := { x := 3.02, y := 0.64, z := 8.1 }
  s := SetTransformations F scaleXYZ XrotationDegrees YrotationDegrees ZrotationDegrees
    positionXYZ s
  s ← SetShaderMaterial "RubberMaterial" material s
  s := SetShaderTexture "rubber" s
  s := s.drawMesh Shape.sphere
  -- Stem
  scaleXYZ := { x := 0.05, y := 0.4, z := 0.05 }
  positionXYZ := { x := 3.0, y := 0.58, z := 7.92 }
  XrotationDegrees := 92.0
  YrotationDegrees := 5.0
  ZrotationDegrees := -2.0
  s := SetTransformations F scaleXYZ XrotationDegrees YrotationDegrees ZrotationDegrees
    positionXYZ s
  s ← SetShaderMaterial "PlasticMaterial" material s
  s := SetShaderColor 1.0 1.0 1.0 1.0 s
  s := SetShaderTexture "Pod" s
  s := s.drawMesh Shape.cylinder
  -- Second AirPod, Bud
  scaleXYZ := { x := 0.15, y := 0.15, z := 0.15 }
  positionXYZ := { x := 2.6, y := 0.65, z := 8.05 }
  XrotationDegrees := 25.0
  YrotationDegrees := -25.0
  ZrotationDegrees := 15.0
  s := SetTransformations F scaleXYZ XrotationDegrees YrotationDegrees ZrotationDegrees
    positionXYZ s
  s ← SetShaderMaterial "PlasticMaterial" material s
  s := SetShaderColor 1.0 1.0 1.0 1.0 s
  s := SetShaderTexture "Pod" s
  s := s.drawMesh Shape.sphere
  -- Ear Tip
  scaleXYZ := { x := 0.1, y := 0.1, z := 0.1 }
  positionXYZ := { x := 2.62, y := 0.63, z := 8.15 }
  s := SetTransformations F scaleXYZ XrotationDegrees YrotationDegrees ZrotationDegrees
    positionXYZ s
  s ← SetShaderMaterial "RubberMaterial" material s
  s := SetShaderTexture "rubber" s
  s := s.drawMesh Shape.sphere
  -- Stem
  scaleXYZ := { x := 0.05, y := 0.4, z := 0.05 }
  positionXYZ := { x := 2.58, y := 0.58, z := 8.0 }
  XrotationDegrees := 95.0
  YrotationDegrees := -30.0
  ZrotationDegrees := 10.0
  s := SetTransformations F scaleXYZ XrotationDegrees YrotationDegrees ZrotationDegrees
    positionXYZ s
  s ← SetShaderMaterial "PlasticMaterial" material s
  s := SetShaderColor 1.0 1.0 1.0 1.0 s
  s := SetShaderTexture "Pod" s
  s := s.drawMesh Shape.cylinder
  -- Draw Cup
  let tableTopY : K := -0.1
  let glassHeight : K := 2.17
  let cupBasePosition : Vec3 K := { x := 2.44, y := tableTopY + glassHeight / 2.0, z := 6.0 }
  -- Draw Glass Outer Cylinder
  let glassOuterPosition : Vec3 K := cupBasePosition
  scaleXYZ := { x := 0.503, y := glassHeight / 2.0, z := 0.503 }
  s := SetTransformations F scaleXYZ 0.0 0.0 0.0 glassOuterPosition s
  s ← SetShaderMaterial "GlassMaterial" material s
  s := SetShaderColor 1.0 1.0 1.0 0.3 s
  s := s.drawMesh Shape.cylinder
  -- Draw Glass Inner Cylinder
  let glassInnerPosition : Vec3 K := glassOuterPosition
  scaleXYZ := { x := 0.45, y := glassHeight / 2.0 - 0.025, z := 0.45 }
  s := SetTransformations F scaleXYZ 0.0 0.0 0.0 glassInnerPosition s
  s ← SetShaderMaterial "GlassMaterial" material s
  s := SetShaderColor 1.0 1.0 1.0 0.3 s
  s := s.drawMesh Shape.cylinder
  -- Draw Bottom
  let waterHeight : K := glassHeight * 0.75
  let waterPosition : Vec3 K :=
    { x := cupBasePosition.x, y := tableTopY + waterHeight / 2.0, z := cupBasePosition.z }
  scaleXYZ := { x := 0.45, y := waterHeight / 2.0, z := 0.45 }
  s := SetTransformations F scaleXYZ 0.0 0.0 0.0 waterPosition s
  s ← SetShaderMaterial "WaterMaterial" material s
  s := s.drawMesh Shape.cylinder
  -- Planner, combined books
  scaleXYZ := { x := 3.0, y := 0.01, z := 1.50 }
  XrotationDegrees := 0
  YrotationDegrees := 0.0
  ZrotationDegrees := 0.0
  positionXYZ := { x := -0.28, y := 0.5, z := 11.1 }
  s := SetTransformations F scaleXYZ XrotationDegrees YrotationDegrees ZrotationDegrees
    positionXYZ s
  s ← SetShaderMaterial "NORMAL" material s
  s := SetShaderTexture "jotter" s
  s := s.drawMesh Shape.box
  -- Draw the Pen Body
  scaleXYZ := { x := 0.05, y := 0.9, z := 0.05 }
  XrotationDegrees := 90.0
  YrotationDegrees := 0.0
  ZrotationDegrees := 180.0
  positionXYZ := { x := 0.44, y := 0.5, z := 11.19 }
  s := SetTransformations F scaleXYZ XrotationDegrees YrotationDegrees ZrotationDegrees
    positionXYZ s
  s := SetShaderColor 0.1 0.1 0.1 1.0 s
  s ← SetShaderMaterial "PlasticMaterial" material s
  s := SetShaderTexture "pen" s
  s := s.drawMesh Shape.taperedCylinder
  -- Draw the Pen Tip
  scaleXYZ := { x := 0.03, y := 0.1, z := 0.03 }
  positionXYZ := { x := 0.44, y := 0.49, z := 11.0 }
  s := SetTransformations F scaleXYZ XrotationDegrees YrotationDegrees ZrotationDegrees
    positionXYZ s
  s := SetShaderColor 0.6 0.6 0.6 1.0 s
  s ← SetShaderMaterial "AluminumMaterial" material s
  s := SetShaderTexture "pen" s
  s := s.drawMesh Shape.cone
  -- Draw the Pen Grip
  scaleXYZ := { x := 0.055, y := 0.15, z := 0.055 }
  positionXYZ := { x := 0.44, y := 0.49, z := 11.09 }
  s := SetTransformations F scaleXYZ XrotationDegrees YrotationDegrees ZrotationDegrees
    positionXYZ s
  s := SetShaderColor 0.2 0.2 0.2 1.0 s
  s ← SetShaderMaterial "RubberMaterial" material s
  s := SetShaderTexture "rubber" s
  s := s.drawMesh Shape.cylinder
  -- Draw the Pen Cap
  scaleXYZ := { x := 0.055, y := 0.3, z := 0.055 }
  positionXYZ := { x := 0.44, y := 0.51, z := 11.38 }
  s := SetTransformations F scaleXYZ XrotationDegrees YrotationDegrees ZrotationDegrees
    positionXYZ s
  s := SetShaderColor 0.1 0.1 0.1 1.0 s
  s ← SetShaderMaterial "PlasticMaterial" material s
  s := SetShaderTexture "pen" s
  s := s.drawMesh Shape.cylinder
  -- AirPods case
  let caseBasePosition : Vec3 K := { x := 3.5, y := 0.65, z := 9.2 }
  let caseWidth : K := 0.90
  let caseHeight : K := 0.50
  let caseDepth : K := 0.15
  let sphereScale : Vec3 K :=
    { x := caseWidth / 2.0, y := caseHeight / 2.0, z := caseDepth / 2.0 }
  let modelMatrix := RenderScene.modelMatrix F caseBasePosition 270.0 sphereScale
  s ← RenderScene.sendModel modelMatrix s
  s := SetTextureUVScale (-1.0) 1.0 s
  s ← SetShaderMaterial "PlasticMaterial" material s
  s := SetShaderColor 0.3 0.3 0.3 1.0 s
  s := SetShaderTexture "case" s
  s := s.drawMesh Shape.sphere
  return s

/-! ## `RenderScene` as a list of calls -/

/-- The calls `RenderScene` is made of. -/
inductive Cmd (K : Type) where
  | setTransformations (scaleXYZ : Vec3 K) (x y z : K) (positionXYZ : Vec3 K)
  | setShaderColor (r g b a : K)
  | setShaderMaterial (tag : String)
  | setShaderTexture (tag : String)
  | setTextureUVScale (u v : K)
  | sendModel (position : Vec3 K) (degrees : K) (scale : Vec3 K)
  | draw (shape : Shape)

/-- Runs one call of the list through the function of the source it names. -/
def Cmd.exec {K : Type} [Field K] (F : RealFns K) (material : OBJECT_MATERIAL K) :
    Cmd K → SceneManager K → Except Fault (SceneManager K)
  | Cmd.setTransformations scaleXYZ x y z positionXYZ, s =>
    Except.ok (SetTransformations F scaleXYZ x y z positionXYZ s)
  | Cmd.setShaderColor r g b a, s => Except.ok (SetShaderColor r g b a s)
  | Cmd.setShaderMaterial tag, s => SetShaderMaterial tag material s
  | Cmd.setShaderTexture tag, s => Except.ok (SetShaderTexture tag s)
  | Cmd.setTextureUVScale u v, s => Except.ok (SetTextureUVScale u v s)
  | Cmd.sendModel position degrees scale, s =>
    RenderScene.sendModel (RenderScene.modelMatrix F position degrees scale) s
  | Cmd.draw shape, s => Except.ok (s.drawMesh shape)

/-- Runs a list of calls in order, stopping at the first fault. -/
def runScript {K : Type} [Field K] (F : RealFns K) (material : OBJECT_MATERIAL K) :
    List (Cmd K) → SceneManager K → Except Fault (SceneManager K)
  | [], s => Except.ok s
  | c :: rest, s => (c.exec F material s).bind (runScript F material rest)

/-- The calls of `RenderScene` in the order of the source, with the values
its local variables hold at each call. -/
def RenderScene.script {K : Type} [Field K] : List (Cmd K) :=
  Cmd.setTransformations { x := 35.50, y := 9.0, z := 15.50 } 0.0 0.0 0.0
      { x := 0.0, y := -10.0, z := 10.0 } ::
  Cmd.setShaderColor 0.1 0.1 0.1 1 ::
  Cmd.setShaderMaterial "NORMAL" ::
  Cmd.setShaderTexture "base" ::
  Cmd.draw Shape.plane ::
  Cmd.setTransformations { x := 20.0, y := 1.0, z := 13.0 } 0.0 0.0 0.0
      { x := 0.0, y := 0.0, z := 10.0 } ::
  Cmd.setShaderColor 0.8 0.8 0.8 1 ::
  Cmd.setShaderMaterial "NORMAL" ::
  Cmd.setShaderTexture "Wood" ::
  Cmd.draw Shape.box ::
  Cmd.setTransformations { x := 0.50, y := 9.0, z := 0.50 } 0.0 0.0 0.0
      { x := -9.0, y := -4.0, z := 4.5 } ::
  Cmd.setShaderColor 0.8 0.8 0.8 1 ::
  Cmd.setShaderMaterial "NORMAL" ::
  Cmd.setShaderTexture "Wood" ::
  Cmd.draw Shape.box ::
  Cmd.setTransformations { x := 0.50, y := 9.0, z := 0.50 } 0.0 0.0 0.0
      { x := 9.0, y := -4.0, z := 4.5 } ::
  Cmd.setShaderColor 0.8 0.8 0.8 1 ::
  Cmd.setShaderMaterial "NORMAL" ::
  Cmd.setShaderTexture "Wood" ::
  Cmd.draw Shape.box ::
  Cmd.setTransformations { x := 0.50, y := 9.0, z := 0.50 } 0.0 0.0 0.0
      { x := -9.0, y := -4.0, z := 15.5 } ::
  Cmd.setShaderColor 0.8 0.8 0.8 1 ::
  Cmd.setShaderMaterial "NORMAL" ::
  Cmd.setShaderTexture "Wood" ::
  Cmd.draw Shape.box ::
  Cmd.setTransformations { x := 0.50, y := 9.0, z := 0.50 } 0.0 0.0 0.0
      { x := 9.0, y := -4.0, z := 15.5 } ::
  Cmd.setShaderColor 0.8 0.8 0.8 1 ::
  Cmd.setShaderMaterial "NORMAL" ::
  Cmd.setShaderTexture "Wood" ::
  Cmd.draw Shape.box ::
  Cmd.setTransformations { x := 4.250, y := 0.050, z := 2.250 } 0.0 0.0 0.0
      { x := 0.0, y := 0.5, z := 8.0 } ::
  Cmd.setShaderMaterial "AluminumMaterial" ::
  Cmd.setShaderTexture "laptop" ::
  Cmd.draw Shape.box ::
  Cmd.setTransformations { x := 0.15, y := 0.15, z := 0.15 } (-5.0) 2.0 (-3.0)
      { x := 3.0, y := 0.66, z := 8.0 } ::
  Cmd.setShaderMaterial "PlasticMaterial" ::
  Cmd.setShaderColor 1.0 1.0 1.0 1.0 ::
  Cmd.setShaderTexture "Pod" ::
  Cmd.draw Shape.sphere ::
  Cmd.setTransformations { x := 0.1, y := 0.1, z := 0.1 } (-5.0) 2.0 (-3.0)
      { x := 3.02, y := 0.64, z := 8.1 } ::
  Cmd.setShaderMaterial "RubberMaterial" ::
  Cmd.setShaderTexture "rubber" ::
  Cmd.draw Shape.sphere ::
  Cmd.setTransformations { x := 0.05, y := 0.4, z := 0.05 } 92.0 5.0 (-2.0)
      { x := 3.0, y := 0.58, z := 7.92 } ::
  Cmd.setShaderMaterial "PlasticMaterial" ::
  Cmd.setShaderColor 1.0 1.0 1.0 1.0 ::
  Cmd.setShaderTexture "Pod" ::
  Cmd.draw Shape.cylinder ::
  Cmd.setTransformations { x := 0.15, y := 0.15, z := 0.15 } 25.0 (-25.0) 15.0
      { x := 2.6, y := 0.65, z := 8.05 } ::
  Cmd.setShaderMaterial "PlasticMaterial" ::
  Cmd.setShaderColor 1.0 1.0 1.0 1.0 ::
  Cmd.setShaderTexture "Pod" ::
  Cmd.draw Shape.sphere ::
  Cmd.setTransformations { x := 0.1, y := 0.1, z := 0.1 } 25.0 (-25.0) 15.0
      { x := 2.62, y := 0.63, z := 8.15 } ::
  Cmd.setShaderMaterial "RubberMaterial" ::
  Cmd.setShaderTexture "rubber" ::
  Cmd.draw Shape.sphere ::
  Cmd.setTransformations { x := 0.05, y := 0.4, z := 0.05 } 95.0 (-30.0) 10.0
      { x := 2.58, y := 0.58, z := 8.0 } ::
  Cmd.setShaderMaterial "PlasticMaterial" ::
  Cmd.setShaderColor 1.0 1.0 1.0 1.0 ::
  Cmd.setShaderTexture "Pod" ::
  Cmd.draw Shape.cylinder ::
  Cmd.setTransformations { x := 0.503, y := 2.17 / 2.0, z := 0.503 } 0.0 0.0 0.0
      { x := 2.44, y := -0.1 + 2.17 / 2.0, z := 6.0 } ::
  Cmd.setShaderMaterial "GlassMaterial" ::
  Cmd.setShaderColor 1.0 1.0 1.0 0.3 ::
  Cmd.draw Shape.cylinder ::
  Cmd.setTransformations { x := 0.45, y := 2.17 / 2.0 - 0.025, z := 0.45 } 0.0 0.0 0.0
      { x := 2.44, y := -0.1 + 2.17 / 2.0, z := 6.0 } ::
  Cmd.setShaderMaterial "GlassMaterial" ::
  Cmd.setShaderColor 1.0 1.0 1.0 0.3 ::
  Cmd.draw Shape.cylinder ::
  Cmd.setTransformations { x := 0.45, y := 2.17 * 0.75 / 2.0, z := 0.45 } 0.0 0.0 0.0
      { x := 2.44, y := -0.1 + 2.17 * 0.75 / 2.0, z := 6.0 } ::
  Cmd.setShaderMaterial "WaterMaterial" ::
  Cmd.draw Shape.cylinder ::
  Cmd.setTransformations { x := 3.0, y := 0.01, z := 1.50 } 0 0.0 0.0
      { x := -0.28, y := 0.5, z := 11.1 } ::
  Cmd.setShaderMaterial "NORMAL" ::
  Cmd.setShaderTexture "jotter" ::
  Cmd.draw Shape.box ::
  Cmd.setTransformations { x := 0.05, y := 0.9, z := 0.05 } 90.0 0.0 180.0
      { x := 0.44, y := 0.5, z := 11.19 } ::
  Cmd.setShaderColor 0.1 0.1 0.1 1.0 ::
  Cmd.setShaderMaterial "PlasticMaterial" ::
  Cmd.setShaderTexture "pen" ::
  Cmd.draw Shape.taperedCylinder ::
  Cmd.setTransformations { x := 0.03, y := 0.1, z := 0.03 } 90.0 0.0 180.0
      { x := 0.44, y := 0.49, z := 11.0 } ::
  Cmd.setShaderColor 0.6 0.6 0.6 1.0 ::
  Cmd.setShaderMaterial "AluminumMaterial" ::
  Cmd.setShaderTexture "pen" ::
  Cmd.draw Shape.cone ::
  Cmd.setTransformations { x := 0.055, y := 0.15, z := 0.055 } 90.0 0.0 180.0
      { x := 0.44, y := 0.49, z := 11.09 } ::
  Cmd.setShaderColor 0.2 0.2 0.2 1.0 ::
  Cmd.setShaderMaterial "RubberMaterial" ::
  Cmd.setShaderTexture "rubber" ::
  Cmd.draw Shape.cylinder ::
  Cmd.setTransformations { x := 0.055, y := 0.3, z := 0.055 } 90.0 0.0 180.0
      { x := 0.44, y := 0.51, z := 11.38 } ::
  Cmd.setShaderColor 0.1 0.1 0.1 1.0 ::
  Cmd.setShaderMaterial "PlasticMaterial" ::
  Cmd.setShaderTexture "pen" ::
  Cmd.draw Shape.cylinder ::
  Cmd.sendModel { x := 3.5, y := 0.65, z := 9.2 } 270.0
      { x := 0.90 / 2.0, y := 0.50 / 2.0, z := 0.15 / 2.0 } ::
  Cmd.setTextureUVScale (-1.0) 1.0 ::
  Cmd.setShaderMaterial "PlasticMaterial" ::
  Cmd.setShaderColor 0.3 0.3 0.3 1.0 ::
  Cmd.setShaderTexture "case" ::
  Cmd.draw Shape.sphere :: []

/-! ## What a draw observes -/

/-- The value of the uniform `name` a draw observes (`none` when the uniform
was never written or no shader program is attached). -/
def DrawCall.observe {K : Type} (d : DrawCall K) (name : String) : Option (UniformValue K) :=
  d.uniforms.bind fun sh => sh.uniforms name

/-- The uniforms of an object's appearance other than the UV scale: the model
matrix, the colour, the texture-enabled flag, the sampler unit and the five
material fields. -/
def appearanceNames : List String :=
  ["model", "objectColor", "bUseTexture", "objectTexture", "material.ambientColor",
   "material.ambientStrength", "material.diffuseColor", "material.specularColor",
   "material.shininess"]

/-- Two draws submit the same shape and observe the same value of every
uniform named in `names`. -/
def DrawCall.agree {K : Type} (names : List String) (d1 d2 : DrawCall K) : Prop :=
  d1.shape = d2.shape ∧ ∀ n ∈ names, d1.observe n = d2.observe n

/-- The scene manager with the uniform table `t` in place of the current one. -/
def SceneManager.withTable {K : Type} (s : SceneManager K) (t : ShaderManager K) :
    SceneManager K :=
  { s with m_pShaderManager := some t }

/-- The five uniform writes of `SetShaderMaterial`, in its order, from the
fields of the material `e`. -/
def ShaderManager.withMaterial {K : Type} (t : ShaderManager K) (e : OBJECT_MATERIAL K) :
    ShaderManager K :=
  ((((t.write "material.ambientColor" (UniformValue.vec3 e.ambientColor)).write
      "material.ambientStrength" (UniformValue.float e.ambientStrength)).write
      "material.diffuseColor" (UniformValue.vec3 e.diffuseColor)).write
      "material.specularColor" (UniformValue.vec3 e.specularColor)).write
      "material.shininess" (UniformValue.float e.shininess)

/-- The uniform names a call of the list writes when a shader program is
attached and, for a material, the tag is found. -/
def Cmd.names {K : Type} : Cmd K → List String
  | Cmd.setTransformations _ _ _ _ _ => ["model"]
  | Cmd.setShaderColor _ _ _ _ => ["bUseTexture", "objectColor"]
  | Cmd.setShaderMaterial _ =>
    ["material.ambientColor", "material.ambientStrength", "material.diffuseColor",
     "material.specularColor", "material.shininess"]
  | Cmd.setShaderTexture _ => ["bUseTexture", "objectTexture"]
  | Cmd.setTextureUVScale _ _ => ["UVscale"]
  | Cmd.sendModel _ _ _ => ["model"]
  | Cmd.draw _ => []

/-- Adds to `known` the names of `names` it does not hold yet. -/
def addNames (names known : List String) : List String :=
  names.filter (fun n => !known.contains n) ++ known

/-- Whether a call can be replayed: a draw comes when each name of `observed`
is among the names `known` to be written, and a material tag is among `tags`. -/
def Cmd.admissible {K : Type} (tags observed known : List String) : Cmd K → Bool
  | Cmd.draw _ => observed.all fun n => known.contains n
  | Cmd.setShaderMaterial tag => tags.contains tag
  | _ => true

/-- Whether every call of a list can be replayed, `known` being the names
written before the list starts. -/
def replayable {K : Type} (tags observed : List String) :
    List String → List (Cmd K) → Bool
  | _, [] => true
  | known, c :: rest =>
    c.admissible tags observed known &&
      replayable tags observed (addNames c.names known) rest

/-- The value of `UVscale` each draw of a list of calls observes, when the
list starts with `UVscale` holding `current`. -/
def uvTrace {K : Type} (current : Option (UniformValue K)) :
    List (Cmd K) → List (Option (UniformValue K))
  | [] => []
  | Cmd.setTextureUVScale u v :: rest =>
    uvTrace (some (UniformValue.vec2 { x := u, y := v })) rest
  | Cmd.draw _ :: rest => current :: uvTrace current rest
  | _ :: rest => uvTrace current rest

/-- The value `UVscale` holds after a list of calls, when the list starts with
`UVscale` holding `current`. -/
def uvAfter {K : Type} (current : Option (UniformValue K)) :
    List (Cmd K) → Option (UniformValue K)
  | [] => current
  | Cmd.setTextureUVScale u v :: rest =>
    uvAfter (some (UniformValue.vec2 { x := u, y := v })) rest
  | _ :: rest => uvAfter current rest

/-- The draw a call submits, if it is a draw, with the table `t` bound. -/
def Cmd.drawCalls {K : Type} (t : ShaderManager K) : Cmd K → List (DrawCall K)
  | Cmd.draw shape => [{ shape := shape, uniforms := some t }]
  | _ => []

/-- The value of `UVscale` a call observes, if it is a draw, with `UVscale`
holding `current`. -/
def Cmd.uvSeen {K : Type} (current : Option (UniformValue K)) :
    Cmd K → List (Option (UniformValue K))
  | Cmd.draw _ => [current]
  | _ => []

/-- The shapes a list of calls draws, in order. -/
def drawnShapes {K : Type} : List (Cmd K) → List Shape
  | [] => []
  | Cmd.draw shape :: rest => shape :: drawnShapes rest
  | _ :: rest => drawnShapes rest

/-- The tags a list of calls passes to `SetShaderMaterial`, in order. -/
def materialTags {K : Type} : List (Cmd K) → List String
  | [] => []
  | Cmd.setShaderMaterial tag :: rest => tag :: materialTags rest
  | _ :: rest => materialTags rest

/-- The tags a list of calls passes to `SetShaderTexture`, in order. -/
def textureTags {K : Type} : List (Cmd K) → List String
  | [] => []
  | Cmd.setShaderTexture tag :: rest => tag :: textureTags rest
  | _ :: rest => textureTags rest

/-- Two scene managers in the middle of two runs of the same list of calls:
the registries are equal, both have a shader program whose tables agree on
the names `known`, and the draws submitted since the runs began (after the
logs `base1` and `base2`) agree pairwise on the names `observed`. -/
structure Replay {K : Type} (observed known : List String) (base1 base2 : List (DrawCall K))
    (s1 s2 : SceneManager K) : Prop where
  count : s1.m_loadedTextures = s2.m_loadedTextures
  ids : s1.m_textureIDs = s2.m_textureIDs
  mats : s1.m_objectMaterials = s2.m_objectMaterials
  tables : ∃ t1 t2, s1.m_pShaderManager = some t1 ∧ s2.m_pShaderManager = some t2 ∧
    ∀ n ∈ known, t1.uniforms n = t2.uniforms n
  draws : ∃ new1 new2, s1.m_basicMeshes.drawn = base1 ++ new1 ∧
    s2.m_basicMeshes.drawn = base2 ++ new2 ∧
    List.Forall₂ (DrawCall.agree observed) new1 new2

/-- The registry holds exactly the tags of the list, slot by slot: the count
is the length of the list and slot `i` carries the `i`-th tag. -/
def SceneManager.holdsTags {K : Type} (s : SceneManager K) (tags : List String) : Prop :=
  s.m_loadedTextures = tags.length ∧
  ∀ (i : Fin 16) (t : String), tags[i.val]? = some t → (s.m_textureIDs i).tag = t

/-! ## The transform composer as the specification words it -/

/-- The translation matrix `Translate(position)` of the specification. -/
def Spec.Translate {K : Type} [Field K] (position : Vec3 K) : Mat4 K :=
  !![1, 0, 0, position.x;
     0, 1, 0, position.y;
     0, 0, 1, position.z;
     0, 0, 0, 1]

/-- The scale matrix `Scale(scale)` of the specification. -/
def Spec.Scale {K : Type} [Field K] (scale : Vec3 K) : Mat4 K :=
  !![scale.x, 0, 0, 0;
     0, scale.y, 0, 0;
     0, 0, scale.z, 0;
     0, 0, 0, 1]

/-- The rotation `Rx` of the specification: about the X axis by `angle` radians. -/
def Spec.Rx {K : Type} [Field K] (cos sin : K → K) (angle : K) : Mat4 K :=
  !![1, 0, 0, 0;
     0, cos angle, -sin angle, 0;
     0, sin angle, cos angle, 0;
     0, 0, 0, 1]

/-- The rotation `Ry` of the specification: about the Y axis by `angle` radians. -/
def Spec.Ry {K : Type} [Field K] (cos sin : K → K) (angle : K) : Mat4 K :=
  !![cos angle, 0, sin angle, 0;
     0, 1, 0, 0;
     -sin angle, 0, cos angle, 0;
     0, 0, 0, 1]

/-- The rotation `Rz` of the specification: about the Z axis by `angle` radians. -/
def Spec.Rz {K : Type} [Field K] (cos sin : K → K) (angle : K) : Mat4 K :=
  !![cos angle, -sin angle, 0, 0;
     sin angle, cos angle, 0, 0;
     0, 0, 1, 0;
     0, 0, 0, 1]

/-- The specification's `M = T · Rx · Ry · Rz · S`, angles in radians. -/
def Spec.Compose {K : Type} [Field K] (cos sin : K → K) (scale : Vec3 K)
    (xRad yRad zRad : K) (position : Vec3 K) : Mat4 K :=
  Spec.Translate position * Spec.Rx cos sin xRad * Spec.Ry cos sin yRad *
    Spec.Rz cos sin zRad * Spec.Scale scale

/-- The composition with the rotation axes in the reversed order,
`T · Rz · Ry · Rx · S`, angles in radians. -/
def Spec.ComposeReversed {K : Type} [Field K] (cos sin : K → K) (scale : Vec3 K)
    (xRad yRad zRad : K) (position : Vec3 K) : Mat4 K :=
  Spec.Translate position * Spec.Rz cos sin zRad * Spec.Ry cos sin yRad *
    Spec.Rx cos sin xRad * Spec.Scale scale

/-- The composition with the three rotation factors in the order given,
`T · R1 · R2 · R3 · S`. -/
def Spec.ComposeOrdered {K : Type} [Field K] (R1 R2 R3 : Mat4 K) (scale position : Vec3 K) :
    Mat4 K :=
  Spec.Translate position * R1 * R2 * R3 * Spec.Scale scale

/-- An angle in degrees that is a whole number of full turns. -/
def Spec.wholeTurns (degrees : ℝ) : Prop :=
  ∃ k : ℤ, degrees = 360 * k

/-- An angle in degrees that is a half turn plus a whole number of full turns. -/
def Spec.halfTurn (degrees : ℝ) : Prop :=
  ∃ k : ℤ, degrees = 180 + 360 * k

/-- The angle triples, in degrees, at which the order of the rotations can be
swapped without changing their product: some angle is a whole number of full
turns, or two of the angles are half turns. -/
def Spec.orderInsensitive (x y z : ℝ) : Prop :=
  Spec.wholeTurns x ∨ Spec.wholeTurns y ∨ Spec.wholeTurns z ∨
    (Spec.halfTurn x ∧ Spec.halfTurn y) ∨ (Spec.halfTurn x ∧ Spec.halfTurn z) ∨
    (Spec.halfTurn y ∧ Spec.halfTurn z)

/-- A texture object nothing was set on. -/
def TexObject.blank : TexObject :=
  { wrapS := none, wrapT := none, minFilter := none, magFilter := none,
    internalFormat := none, format := none, image := none, mipmaps := false }

/-- An OpenGL context without any texture. -/
def GLState.initial : GLState :=
  { textures := [], activeUnit := 0, bound := fun _ => 0, objects := fun _ => TexObject.blank }

/-- A shader program none of whose uniforms was written yet. -/
def ShaderManager.unset (K : Type) : ShaderManager K :=
  { uniforms := fun _ => none }

/-- A scene manager with nothing registered: no texture, no material, no
pixel buffer outstanding. -/
def SceneManager.empty (K : Type) (shader : Option (ShaderManager K)) : SceneManager K :=
  { m_pShaderManager := shader
    m_loadedTextures := 0
    m_textureIDs := fun _ => { tag := "", ID := 0 }
    inBounds := Nat.zero_le 16
    m_objectMaterials := []
    gl := GLState.initial
    stbiBuffers := 0
    m_basicMeshes := { loaded := [], drawn := [] } }

/-- A material over the rationals with the given tag and shininess. -/
def sampleMaterial (tag : String) (shininess : ℚ) : OBJECT_MATERIAL ℚ :=
  { ambientColor := { x := 1 / 5, y := 1 / 5, z := 1 / 5 }
    ambientStrength := 1 / 2
    diffuseColor := { x := 3 / 10, y := 3 / 10, z := 3 / 10 }
    specularColor := { x := 9 / 10, y := 9 / 10, z := 3 / 5 }
    shininess := shininess
    tag := tag }

/-- A 1x1 image with the given channel count. -/
def sampleImage (colorChannels : Int) : Image :=
  { width := 1, height := 1, colorChannels := colorChannels, pixels := [255, 255, 255, 255] }

/-- A decoder that reads a 3-channel image from `textures/Wood.jpg`, a
4-channel image from `textures/case.png`, a 1-channel image from
`textures/gray.pgm`, and cannot read any other path. -/
def sampleDecoder (filename : String) : Option Image :=
  if filename = "textures/Wood.jpg" then some (sampleImage 3)
  else if filename = "textures/case.png" then some (sampleImage 4)
  else if filename = "textures/gray.pgm" then some (sampleImage 1)
  else none

/-- A decoder that reads a 3-channel image from every path. -/
def sceneDecoder (_filename : String) : Option Image :=
  some (sampleImage 3)

/-- A scene manager whose material list holds the single material `A`. -/
def sceneWithMaterialA : SceneManager ℚ :=
  { SceneManager.empty ℚ (some (ShaderManager.unset ℚ)) with
    m_objectMaterials := [sampleMaterial "A" 64] }

/-- A scene manager with all 16 texture slots taken: slot `i` holds the handle
`i + 1` under the tag `tex`. -/
def sceneFull : SceneManager ℚ :=
  { SceneManager.empty ℚ (some (ShaderManager.unset ℚ)) with
    m_loadedTextures := 16
    inBounds := Nat.le_refl 16
    m_textureIDs := fun i => { tag := "tex", ID := i.val + 1 }
    gl := { GLState.initial with textures := List.range' 1 16 } }

/-- A scene manager with one texture registered: handle 1 under the tag `Wood`. -/
def sceneOneTexture : SceneManager ℚ :=
  { SceneManager.empty ℚ (some (ShaderManager.unset ℚ)) with
    m_loadedTextures := 1
    inBounds := by decide
    m_textureIDs := Function.update (fun _ => { tag := "", ID := 0 }) 0 { tag := "Wood", ID := 1 }
    gl := { GLState.initial with textures := [1] } }

/-- A scene manager after two registrations under the same tag `Wood`:
handle 1 in slot 0, handle 2 in slot 1. -/
def sceneTwoWood : SceneManager ℚ :=
  { SceneManager.empty ℚ (some (ShaderManager.unset ℚ)) with
    m_loadedTextures := 2
    inBounds := by decide
    m_textureIDs := fun i =>
      if i = 0 then { tag := "Wood", ID := 1 }
      else if i = 1 then { tag := "Wood", ID := 2 }
      else { tag := "", ID := 0 }
    gl := { GLState.initial with textures := [1, 2] } }

/-- A scene manager with one texture registered under the tag `Wood` whose
handle is the largest `GLuint`, 4294967295. -/
def sceneHighHandle : SceneManager ℚ :=
  { SceneManager.empty ℚ (some (ShaderManager.unset ℚ)) with
    m_loadedTextures := 1
    inBounds := by decide
    m_textureIDs := fun _ => { tag := "Wood", ID := 4294967295 }
    gl := { GLState.initial with textures := [4294967295] } }

/-! ## Unfolding the loops one round at a time -/

theorem DestroyGLTextures_loop_lt {K : Type} (s : SceneManager K) (i : Nat)
    (h : i < s.m_loadedTextures) :
    DestroyGLTextures.loop s i =
      DestroyGLTextures.loop
        { s with
          gl := (glGenTextures s.gl).2
          m_textureIDs := Function.update s.m_textureIDs ⟨i, Nat.lt_of_lt_of_le h s.inBounds⟩
            { s.m_textureIDs ⟨i, Nat.lt_of_lt_of_le h s.inBounds⟩ with
              ID := (glGenTextures s.gl).1 } }
        (i + 1) := by
  rw [DestroyGLTextures.loop]
  simp [h]

theorem DestroyGLTextures_loop_ge {K : Type} (s : SceneManager K) (i : Nat)
    (h : s.m_loadedTextures ≤ i) : DestroyGLTextures.loop s i = s := by
  rw [DestroyGLTextures.loop]
  simp [Nat.not_lt.mpr h]

theorem DestroyGLTextures_one {K : Type} (s : SceneManager K) (h : s.m_loadedTextures = 1) :
    DestroyGLTextures s =
      { s with
        gl := (glGenTextures s.gl).2
        m_textureIDs := Function.update s.m_textureIDs 0
          { s.m_textureIDs 0 with ID := (glGenTextures s.gl).1 } } := by
  have h0 : 0 < s.m_loadedTextures := by omega
  rw [DestroyGLTextures, DestroyGLTextures_loop_lt s 0 h0, DestroyGLTextures_loop_ge]
  · rfl
  · show s.m_loadedTextures ≤ 0 + 1
    omega

theorem FindTextureSlot_loop_ge {K : Type} (s : SceneManager K) (tag : String) (index : Nat)
    (h : s.m_loadedTextures ≤ index) : FindTextureSlot.loop s tag index = -1 := by
  rw [FindTextureSlot.loop]
  simp [Nat.not_lt.mpr h]

theorem FindTextureSlot_loop_hit {K : Type} (s : SceneManager K) (tag : String) (index : Nat)
    (h : index < s.m_loadedTextures)
    (ht : (s.m_textureIDs ⟨index, Nat.lt_of_lt_of_le h s.inBounds⟩).tag = tag) :
    FindTextureSlot.loop s tag index = (index : Int) := by
  rw [FindTextureSlot.loop]
  simp [h, ht]

theorem FindTextureSlot_loop_miss {K : Type} (s : SceneManager K) (tag : String) (index : Nat)
    (h : index < s.m_loadedTextures)
    (ht : (s.m_textureIDs ⟨index, Nat.lt_of_lt_of_le h s.inBounds⟩).tag ≠ tag) :
    FindTextureSlot.loop s tag index = FindTextureSlot.loop s tag (index + 1) := by
  rw [FindTextureSlot.loop]
  simp [h, ht]

/-- What the loop of `FindTextureSlot` returns when entered at `index`: the first
matching slot from `index` on, or `-1` when none of them matches. -/
theorem FindTextureSlot_loop_spec {K : Type} (s : SceneManager K) (tag : String) :
    ∀ (n index : Nat), s.m_loadedTextures - index = n →
      (∃ i : Fin 16, FindTextureSlot.loop s tag index = (i.val : Int) ∧ index ≤ i.val ∧
          i.val < s.m_loadedTextures ∧ (s.m_textureIDs i).tag = tag ∧
          ∀ j : Fin 16, index ≤ j.val → j.val < i.val → (s.m_textureIDs j).tag ≠ tag) ∨
      (FindTextureSlot.loop s tag index = -1 ∧
        ∀ j : Fin 16, index ≤ j.val → j.val < s.m_loadedTextures →
          (s.m_textureIDs j).tag ≠ tag) := by
  intro n
  induction n with
  | zero =>
    intro index hn
    right
    refine ⟨FindTextureSlot_loop_ge s tag index (by omega), ?_⟩
    intro j h1 h2
    omega
  | succ n ih =>
    intro index hn
    have hlt : index < s.m_loadedTextures := by omega
    by_cases ht : (s.m_textureIDs ⟨index, Nat.lt_of_lt_of_le hlt s.inBounds⟩).tag = tag
    · left
      refine ⟨⟨index, Nat.lt_of_lt_of_le hlt s.inBounds⟩,
        FindTextureSlot_loop_hit s tag index hlt ht, Nat.le_refl _, hlt, ht, ?_⟩
      intro j h1 h2
      exact absurd h2 (by simpa using h1)
    · rw [FindTextureSlot_loop_miss s tag index hlt ht]
      have hmiss : ∀ j : Fin 16, index ≤ j.val → ¬ index + 1 ≤ j.val →
          (s.m_textureIDs j).tag ≠ tag := by
        intro j h1 h2
        have hj : j = ⟨index, Nat.lt_of_lt_of_le hlt s.inBounds⟩ := Fin.ext (by simp; omega)
        rw [hj]
        exact ht
      rcases ih (index + 1) (by omega) with ⟨i, h1, h2, h3, h4, h5⟩ | ⟨h1, h2⟩
      · left
        refine ⟨i, h1, by omega, h3, h4, ?_⟩
        intro j hj1 hj2
        by_cases hj : index + 1 ≤ j.val
        · exact h5 j hj hj2
        · exact hmiss j hj1 hj
      · right
        refine ⟨h1, ?_⟩
        intro j hj1 hj2
        by_cases hj : index + 1 ≤ j.val
        · exact h2 j hj hj2
        · exact hmiss j hj1 hj

/-- With no matching tag in the list the loop of `FindMaterial` ends with
`bFound` false and the output material untouched. -/
theorem FindMaterial_loop_unmatched {K : Type} (mats : List (OBJECT_MATERIAL K)) (tag : String)
    (material : OBJECT_MATERIAL K) (hno : ∀ m ∈ mats, m.tag ≠ tag) :
    ∀ (n index : Nat), mats.length - index = n →
      FindMaterial.loop mats tag index material = (false, material) := by
  intro n
  induction n with
  | zero =>
    intro index hn
    rw [FindMaterial.loop]
    simp [Nat.not_lt.mpr (show mats.length ≤ index by omega)]
  | succ n ih =>
    intro index hn
    have hlt : index < mats.length := by omega
    rw [FindMaterial.loop]
    have hne : (mats.get ⟨index, hlt⟩).tag ≠ tag := hno _ (List.get_mem mats index hlt)
    simp only [hlt, hne, dite_true, if_false]
    exact ih (index + 1) (by omega)

/-! ## The material registry -/

/-- On an empty material list `FindMaterial` returns `false`. -/
theorem FindMaterial_empty {K : Type} (s : SceneManager K) (tag : String)
    (material : OBJECT_MATERIAL K) (h : s.m_objectMaterials = []) :
    FindMaterial s tag material = (false, material) := by
  simp [FindMaterial, h]

/-- On every non-empty material list without a matching tag `FindMaterial`
returns `true` and leaves the output material untouched. -/
theorem FindMaterial_unmatched_nonempty {K : Type} (s : SceneManager K) (tag : String)
    (material : OBJECT_MATERIAL K) (hne : s.m_objectMaterials ≠ [])
    (hno : ∀ m ∈ s.m_objectMaterials, m.tag ≠ tag) :
    FindMaterial s tag material = (true, material) := by
  have hlen : s.m_objectMaterials.length ≠ 0 := by
    simpa [List.length_eq_zero] using hne
  simp only [FindMaterial, hlen, if_false,
    FindMaterial_loop_unmatched s.m_objectMaterials tag material hno _ 0 rfl]

/-- C1 (defect in the code): with the single material `A` registered and the
tag `B` asked for, no entry matches, yet `FindMaterial` returns `true`; the
output material is left as it was. -/
theorem C1_FindMaterial_unmatched_tag_returns_true :
    (∀ m ∈ sceneWithMaterialA.m_objectMaterials, m.tag ≠ "B") ∧
    FindMaterial sceneWithMaterialA "B" (sampleMaterial "X" 1)
      = (true, sampleMaterial "X" 1) := by
  constructor
  · simp [sceneWithMaterialA, sampleMaterial]
  · simp [FindMaterial, FindMaterial.loop, sceneWithMaterialA, sampleMaterial]

/-- C2 (defect in the code): with the single material `A` registered and no
uniform written yet, `SetShaderMaterial "B"` matches no entry and still writes
the material uniforms, from the local material that was never filled in:
`material.shininess` goes from unset to that material's shininess. -/
theorem C2_SetShaderMaterial_unmatched_tag_writes_uniforms :
    (∀ m ∈ sceneWithMaterialA.m_objectMaterials, m.tag ≠ "B") ∧
    sceneWithMaterialA.m_pShaderManager = some (ShaderManager.unset ℚ) ∧
    ∃ sh, (SetShaderMaterial "B" (sampleMaterial "X" 1) sceneWithMaterialA).map
        (fun s => s.m_pShaderManager) = Except.ok (some sh) ∧
      (ShaderManager.unset ℚ).uniforms "material.shininess" = none ∧
      sh.uniforms "material.shininess" = some (UniformValue.float 1) ∧
      sh.uniforms "material.ambientStrength" = some (UniformValue.float (1 / 2)) := by
  refine ⟨?_, rfl, ?_⟩
  · simp [sceneWithMaterialA, sampleMaterial]
  · simp [SetShaderMaterial, FindMaterial, FindMaterial.loop, sceneWithMaterialA,
      sampleMaterial, SceneManager.empty, Except.map, ShaderManager.unset,
      ShaderManager.setVec3Value, ShaderManager.setFloatValue, ShaderManager.write]

/-! ## The texture registry: lookup -/

/-- C4: `FindTextureSlot` returns the least index below the count whose entry
carries the tag, and `-1` exactly when no entry below the count carries it; so
of two entries with the same tag the earlier one is the result. -/
theorem C4_FindTextureSlot_least_match {K : Type} (s : SceneManager K) (tag : String) :
    ((∃ i : Fin 16, FindTextureSlot s tag = (i.val : Int) ∧ i.val < s.m_loadedTextures ∧
        (s.m_textureIDs i).tag = tag ∧
        ∀ j : Fin 16, j.val < i.val → (s.m_textureIDs j).tag ≠ tag) ∨
      (FindTextureSlot s tag = -1 ∧
        ∀ j : Fin 16, j.val < s.m_loadedTextures → (s.m_textureIDs j).tag ≠ tag)) ∧
    (FindTextureSlot s tag = -1 ↔
      ∀ j : Fin 16, j.val < s.m_loadedTextures → (s.m_textureIDs j).tag ≠ tag) ∧
    (∀ i j : Fin 16, i.val < j.val → j.val < s.m_loadedTextures →
      (s.m_textureIDs i).tag = tag → (s.m_textureIDs j).tag = tag →
      (∀ k : Fin 16, k.val < i.val → (s.m_textureIDs k).tag ≠ tag) →
      FindTextureSlot s tag = (i.val : Int) ∧ FindTextureSlot s tag ≠ (j.val : Int)) := by
  have key := FindTextureSlot_loop_spec s tag s.m_loadedTextures 0 rfl
  have main : (∃ i : Fin 16, FindTextureSlot s tag = (i.val : Int) ∧
        i.val < s.m_loadedTextures ∧ (s.m_textureIDs i).tag = tag ∧
        ∀ j : Fin 16, j.val < i.val → (s.m_textureIDs j).tag ≠ tag) ∨
      (FindTextureSlot s tag = -1 ∧
        ∀ j : Fin 16, j.val < s.m_loadedTextures → (s.m_textureIDs j).tag ≠ tag) := by
    rcases key with ⟨i, h1, _, h3, h4, h5⟩ | ⟨h1, h2⟩
    · exact Or.inl ⟨i, h1, h3, h4, fun j hj => h5 j (Nat.zero_le _) hj⟩
    · exact Or.inr ⟨h1, fun j hj => h2 j (Nat.zero_le _) hj⟩
  refine ⟨main, ?_, ?_⟩
  · constructor
    · intro hneg
      rcases main with ⟨i, h1, _, _, _⟩ | ⟨_, h2⟩
      · rw [h1] at hneg
        omega
      · exact h2
    · intro hnone
      rcases main with ⟨i, _, h3, h4, _⟩ | ⟨h1, _⟩
      · exact absurd h4 (hnone i h3)
      · exact h1
  · intro i j hij hj hi hjt hfirst
    rcases main with ⟨m, h1, h3, h4, h5⟩ | ⟨_, h2⟩
    · have hmi : m.val = i.val := by
        rcases Nat.lt_trichotomy m.val i.val with h | h | h
        · exact absurd h4 (hfirst m h)
        · exact h
        · exact absurd hi (h5 i h)
      rw [h1, hmi]
      refine ⟨rfl, ?_⟩
      omega
    · exact absurd hi (h2 i (by omega))

/-- C4 at a registry holding the tag `Wood` twice: the slot found is 0, the
unit of the first registration, not 1. -/
theorem C4_FindTextureSlot_least_match_witness :
    FindTextureSlot sceneTwoWood "Wood" = 0 ∧ FindTextureSlot sceneTwoWood "Wood" ≠ 1 :=
  (C4_FindTextureSlot_least_match sceneTwoWood "Wood").2.2 0 1 (by decide) (by decide)
    rfl rfl (fun k hk => absurd hk (Nat.not_lt_zero k.val))

/-! ## The texture registry: registration -/

theorem foldl_max_ge (l : List Nat) : ∀ a : Nat,
    a ≤ l.foldl max a ∧ ∀ x ∈ l, x ≤ l.foldl max a := by
  induction l with
  | nil => intro a; simp
  | cons y l ih =>
    intro a
    have h := ih (max a y)
    simp only [List.foldl_cons, List.mem_cons]
    refine ⟨le_trans (le_max_left a y) h.1, ?_⟩
    intro x hx
    rcases hx with rfl | hx
    · exact le_trans (le_max_right a x) h.1
    · exact h.2 x hx

theorem glGenTextures_fresh (gl : GLState) : (glGenTextures gl).1 ∉ gl.textures := by
  intro h
  have := (foldl_max_ge gl.textures 0).2 _ h
  simp [glGenTextures] at this

theorem glGenTextures_live (gl : GLState) :
    (glGenTextures gl).2.textures = gl.textures ++ [(glGenTextures gl).1] := rfl

theorem CreateGLTexture_finish_ok {K : Type} (gl : GLState) (textureID : GLuint)
    (tag : String) (s : SceneManager K) (h : s.m_loadedTextures < 16) :
    CreateGLTexture.finish gl textureID tag s =
      Except.ok (true,
        { s with
          gl := glBindTexture (glGenerateMipmap gl) 0
          stbiBuffers := s.stbiBuffers - 1
          m_textureIDs := Function.update s.m_textureIDs ⟨s.m_loadedTextures, h⟩
            { tag := tag, ID := textureID }
          m_loadedTextures := s.m_loadedTextures + 1
          inBounds := h }) := by
  simp [CreateGLTexture.finish, h]

theorem CreateGLTexture_finish_full {K : Type} (gl : GLState) (textureID : GLuint)
    (tag : String) (s : SceneManager K) (h : s.m_loadedTextures = 16) :
    CreateGLTexture.finish gl textureID tag s = Except.error (Fault.outOfBounds 16) := by
  simp [CreateGLTexture.finish, h]

theorem CreateGLTexture_rejects {K : Type} (stbi_load : String → Option Image)
    (filename tag : String) (image : Image) (s : SceneManager K)
    (hread : stbi_load filename = some image)
    (h3 : image.colorChannels ≠ 3) (h4 : image.colorChannels ≠ 4) :
    ∃ gl, CreateGLTexture stbi_load filename tag s =
      Except.ok (false, { s with stbiBuffers := s.stbiBuffers + 1, gl := gl }) := by
  simp only [CreateGLTexture, hread, h3, h4, if_false]
  exact ⟨_, rfl⟩

/-- The success path of `CreateGLTexture` below the capacity. -/
theorem CreateGLTexture_registers {K : Type}
    (stbi_load : String → Option Image) (filename tag : String) (image : Image)
    (s : SceneManager K) (hn : s.m_loadedTextures < 16)
    (hread : stbi_load filename = some image)
    (hch : image.colorChannels = 3 ∨ image.colorChannels = 4) :
    ∃ s1, CreateGLTexture stbi_load filename tag s = Except.ok (true, s1) ∧
      s1.m_loadedTextures = s.m_loadedTextures + 1 ∧
      s1.m_textureIDs ⟨s.m_loadedTextures, hn⟩
        = { tag := tag, ID := (glGenTextures s.gl).1 } ∧
      (glGenTextures s.gl).1 ∉ s.gl.textures ∧
      (glGenTextures s.gl).1 ∈ s1.gl.textures ∧
      (∀ i : Fin 16, i.val ≠ s.m_loadedTextures → s1.m_textureIDs i = s.m_textureIDs i) ∧
      (s1.gl.objects (glGenTextures s.gl).1).mipmaps = true ∧
      s1.stbiBuffers = s.stbiBuffers := by
  have hupd : ∀ (f : Fin 16 → TEXTURE_INFO) (v : TEXTURE_INFO) (i : Fin 16),
      i.val ≠ s.m_loadedTextures →
      Function.update f ⟨s.m_loadedTextures, hn⟩ v i = f i := by
    intro f v i hi
    have hne : i ≠ ⟨s.m_loadedTextures, hn⟩ := fun h => hi (congrArg Fin.val h)
    exact Function.update_noteq hne v f
  have hfin := fun gl => CreateGLTexture_finish_ok gl (glGenTextures s.gl).1 tag
    { s with stbiBuffers := s.stbiBuffers + 1 } hn
  rcases hch with h3 | h4
  · simp only [CreateGLTexture, hread, h3, if_true, hfin]
    refine ⟨_, rfl, rfl, ?_, glGenTextures_fresh s.gl, ?_, ?_, ?_, ?_⟩
    · simp
    · simp [glBindTexture, glGenerateMipmap, glTexImage2D, glTexParameteri,
        GLState.onBound, glGenTextures]
    · intro i hi
      exact hupd _ _ i hi
    · simp [glBindTexture, glGenerateMipmap, glTexImage2D, glTexParameteri,
        GLState.onBound, glGenTextures]
    · simp
  · have h3 : image.colorChannels ≠ 3 := by rw [h4]; decide
    simp only [CreateGLTexture, hread, h3, h4, if_true, if_false, hfin]
    refine ⟨_, rfl, rfl, ?_, glGenTextures_fresh s.gl, ?_, ?_, ?_, ?_⟩
    · simp
    · simp [glBindTexture, glGenerateMipmap, glTexImage2D, glTexParameteri,
        GLState.onBound, glGenTextures]
    · intro i hi
      exact hupd _ _ i hi
    · simp [glBindTexture, glGenerateMipmap, glTexImage2D, glTexParameteri,
        GLState.onBound, glGenTextures]
    · simp

/-- With all 16 slots taken every readable 3- or 4-channel image drives
`CreateGLTexture` to the store past the table. -/
theorem CreateGLTexture_full_faults {K : Type} (stbi_load : String → Option Image)
    (filename tag : String) (image : Image) (s : SceneManager K)
    (hfull : s.m_loadedTextures = 16) (hread : stbi_load filename = some image)
    (hch : image.colorChannels = 3 ∨ image.colorChannels = 4) :
    CreateGLTexture stbi_load filename tag s = Except.error (Fault.outOfBounds 16) := by
  have hfin := fun gl => CreateGLTexture_finish_full gl (glGenTextures s.gl).1 tag
    ({ s with stbiBuffers := s.stbiBuffers + 1 } : SceneManager K) hfull
  rcases hch with h3 | h4
  · simp only [CreateGLTexture, hread, h3, if_true, hfin]
  · have h3 : image.colorChannels ≠ 3 := by rw [h4]; decide
    simp only [CreateGLTexture, hread, h3, h4, if_true, if_false, hfin, ite_self]

/-- On every image with an unsupported channel count `CreateGLTexture` returns
`false` with one more live texture name and one more unreleased pixel buffer. -/
theorem CreateGLTexture_rejects_leaks {K : Type} (stbi_load : String → Option Image)
    (filename tag : String) (image : Image) (s : SceneManager K)
    (hread : stbi_load filename = some image)
    (h3 : image.colorChannels ≠ 3) (h4 : image.colorChannels ≠ 4) :
    ∃ s1, CreateGLTexture stbi_load filename tag s = Except.ok (false, s1) ∧
      s1.gl.textures = s.gl.textures ++ [(glGenTextures s.gl).1] ∧
      s1.stbiBuffers = s.stbiBuffers + 1 := by
  simp only [CreateGLTexture, hread, h3, h4, if_false]
  exact ⟨_, rfl, rfl, rfl⟩

/-- C3 (defect in the code): with all 16 slots taken and a readable 3-channel
image, `CreateGLTexture` does not return failure: it reaches the store to
`m_textureIDs[16]`, one past the table. -/
theorem C3_CreateGLTexture_full_table_stores_past_the_end :
    sceneFull.m_loadedTextures = 16 ∧
    sampleDecoder "textures/Wood.jpg" = some (sampleImage 3) ∧
    CreateGLTexture sampleDecoder "textures/Wood.jpg" "Wood" sceneFull
      = Except.error (Fault.outOfBounds 16) := by
  refine ⟨rfl, rfl, rfl⟩

/-- C5: with fewer than 16 textures registered and an image the decoder reads
with 3 or 4 channels, `CreateGLTexture` returns `true`, raises the count by
one and stores the tag with the handle `glGenTextures` just created (a handle
that was not live before) in the slot numbered by the old count; every other
slot, so each of the entries below the old count, is unchanged, mipmaps were
generated for the new texture and the pixel buffer was released. -/
theorem C5_CreateGLTexture_registers_at_count {K : Type}
    (stbi_load : String → Option Image) (filename tag : String) (image : Image)
    (s : SceneManager K) (hn : s.m_loadedTextures < 16)
    (hread : stbi_load filename = some image)
    (hch : image.colorChannels = 3 ∨ image.colorChannels = 4) :
    ∃ s1, CreateGLTexture stbi_load filename tag s = Except.ok (true, s1) ∧
      s1.m_loadedTextures = s.m_loadedTextures + 1 ∧
      s1.m_textureIDs ⟨s.m_loadedTextures, hn⟩
        = { tag := tag, ID := (glGenTextures s.gl).1 } ∧
      (glGenTextures s.gl).1 ∉ s.gl.textures ∧
      (glGenTextures s.gl).1 ∈ s1.gl.textures ∧
      (∀ i : Fin 16, i.val ≠ s.m_loadedTextures → s1.m_textureIDs i = s.m_textureIDs i) ∧
      (s1.gl.objects (glGenTextures s.gl).1).mipmaps = true ∧
      s1.stbiBuffers = s.stbiBuffers :=
  CreateGLTexture_registers stbi_load filename tag image s hn hread hch

/-- C5 at the empty registry and the 3-channel image read from
`textures/Wood.jpg`: the registration succeeds and `Wood` lands in slot 0
with handle 1. -/
theorem C5_CreateGLTexture_registers_at_count_witness :
    (SceneManager.empty ℚ none).m_loadedTextures < 16 ∧
    sampleDecoder "textures/Wood.jpg" = some (sampleImage 3) ∧
    ((sampleImage 3).colorChannels = 3 ∨ (sampleImage 3).colorChannels = 4) ∧
    ∃ s1, CreateGLTexture sampleDecoder "textures/Wood.jpg" "Wood" (SceneManager.empty ℚ none)
        = Except.ok (true, s1) ∧
      s1.m_loadedTextures = 1 ∧ s1.m_textureIDs 0 = { tag := "Wood", ID := 1 } :=
  ⟨by decide, rfl, Or.inl rfl,
    (C5_CreateGLTexture_registers_at_count sampleDecoder "textures/Wood.jpg" "Wood"
      (sampleImage 3) (SceneManager.empty ℚ none) (by decide) rfl (Or.inl rfl)).imp
      fun _ h => ⟨h.1, h.2.1, h.2.2.1⟩⟩

/-- C6: when the decoder cannot read the path, or reads an image whose
channel count is neither 3 nor 4, `CreateGLTexture` returns `false` with the
count and every slot of the table as before (with nothing at all changed when
the path is unreadable); a later successful registration therefore still
lands in the slot numbered by that count. -/
theorem C6_CreateGLTexture_failure_keeps_registry {K : Type}
    (stbi_load : String → Option Image) (filename tag : String) (s : SceneManager K)
    (hfail : stbi_load filename = none ∨
      ∃ image, stbi_load filename = some image ∧
        image.colorChannels ≠ 3 ∧ image.colorChannels ≠ 4) :
    ∃ s1, CreateGLTexture stbi_load filename tag s = Except.ok (false, s1) ∧
      s1.m_loadedTextures = s.m_loadedTextures ∧
      s1.m_textureIDs = s.m_textureIDs ∧
      (stbi_load filename = none → s1 = s) ∧
      ∀ (filename2 tag2 : String) (image2 : Image) (hn : s.m_loadedTextures < 16),
        stbi_load filename2 = some image2 →
        image2.colorChannels = 3 ∨ image2.colorChannels = 4 →
        ∃ s2, CreateGLTexture stbi_load filename2 tag2 s1 = Except.ok (true, s2) ∧
          s2.m_loadedTextures = s.m_loadedTextures + 1 ∧
          (s2.m_textureIDs ⟨s.m_loadedTextures, hn⟩).tag = tag2 ∧
          ∀ i : Fin 16, i.val ≠ s.m_loadedTextures → s2.m_textureIDs i = s.m_textureIDs i := by
  rcases hfail with hnone | ⟨image, hread, h3, h4⟩
  · refine ⟨s, ?_, rfl, rfl, fun _ => rfl, ?_⟩
    · simp only [CreateGLTexture, hnone]
    · intro filename2 tag2 image2 hn hread2 hch2
      obtain ⟨s2, h1, h2, h5, _, _, h6, _⟩ :=
        CreateGLTexture_registers stbi_load filename2 tag2 image2 s hn hread2 hch2
      exact ⟨s2, h1, h2, by rw [h5], h6⟩
  · have hsome : stbi_load filename ≠ none := by rw [hread]; simp
    obtain ⟨gl, hrun⟩ := CreateGLTexture_rejects stbi_load filename tag image s hread h3 h4
    rw [hrun]
    refine ⟨_, rfl, rfl, rfl, fun hnone => absurd hnone hsome, ?_⟩
    intro filename2 tag2 image2 hn hread2 hch2
    obtain ⟨s2, h1, h2, h5, _, _, h6, _⟩ :=
      CreateGLTexture_registers stbi_load filename2 tag2 image2
        ({ s with stbiBuffers := s.stbiBuffers + 1, gl := gl } : SceneManager K)
        hn hread2 hch2
    exact ⟨s2, h1, h2, by rw [h5], h6⟩

/-- C6 at the empty registry with the unreadable path `textures/none.jpg`:
the call returns `false` and the count stays 0. -/
theorem C6_CreateGLTexture_failure_keeps_registry_witness :
    (sampleDecoder "textures/none.jpg" = none ∨
      ∃ image, sampleDecoder "textures/none.jpg" = some image ∧
        image.colorChannels ≠ 3 ∧ image.colorChannels ≠ 4) ∧
    ∃ s1, CreateGLTexture sampleDecoder "textures/none.jpg" "none" (SceneManager.empty ℚ none)
        = Except.ok (false, s1) ∧
      s1.m_loadedTextures = 0 :=
  ⟨Or.inl rfl,
    (C6_CreateGLTexture_failure_keeps_registry sampleDecoder "textures/none.jpg" "none"
      (SceneManager.empty ℚ none) (Or.inl rfl)).imp fun _ h => ⟨h.1, h.2.1⟩⟩

/-- C7 (defect in the code): for a readable 1-channel image `CreateGLTexture`
returns `false` with the texture object it generated still live and still
bound, and with the decoded pixel buffer not released. -/
theorem C7_CreateGLTexture_unsupported_channels_leaks :
    sampleDecoder "textures/gray.pgm" = some (sampleImage 1) ∧
    ∃ s, CreateGLTexture sampleDecoder "textures/gray.pgm" "gray"
        (SceneManager.empty ℚ none) = Except.ok (false, s) ∧
      (SceneManager.empty ℚ none).gl.textures = [] ∧ s.gl.textures = [1] ∧
      s.gl.bound s.gl.activeUnit = 1 ∧
      (SceneManager.empty ℚ none).stbiBuffers = 0 ∧ s.stbiBuffers = 1 := by
  refine ⟨rfl, _, rfl, rfl, rfl, rfl, rfl, rfl⟩

/-! ## The texture registry: teardown -/

theorem DestroyGLTextures_loop_effect {K : Type} :
    ∀ (n : Nat) (s : SceneManager K) (i : Nat), s.m_loadedTextures - i = n →
      (DestroyGLTextures.loop s i).m_loadedTextures = s.m_loadedTextures ∧
      (∀ t ∈ s.gl.textures, t ∈ (DestroyGLTextures.loop s i).gl.textures) ∧
      (DestroyGLTextures.loop s i).gl.textures.length = s.gl.textures.length + n := by
  intro n
  induction n with
  | zero =>
    intro s i hn
    rw [DestroyGLTextures_loop_ge s i (by omega)]
    exact ⟨rfl, fun t ht => ht, rfl⟩
  | succ n ih =>
    intro s i hn
    have hlt : i < s.m_loadedTextures := by omega
    rw [DestroyGLTextures_loop_lt s i hlt]
    obtain ⟨h1, h2, h3⟩ := ih
      ({ s with
          gl := (glGenTextures s.gl).2
          m_textureIDs := Function.update s.m_textureIDs
            ⟨i, Nat.lt_of_lt_of_le hlt s.inBounds⟩
            { s.m_textureIDs ⟨i, Nat.lt_of_lt_of_le hlt s.inBounds⟩ with
              ID := (glGenTextures s.gl).1 } } : SceneManager K)
      (i + 1) (by show s.m_loadedTextures - (i + 1) = n; omega)
    refine ⟨h1, ?_, ?_⟩
    · intro t ht
      apply h2
      show t ∈ (glGenTextures s.gl).2.textures
      rw [glGenTextures_live]
      exact List.mem_append_left _ ht
    · rw [h3]
      show (glGenTextures s.gl).2.textures.length + n = s.gl.textures.length + (n + 1)
      rw [glGenTextures_live, List.length_append]
      simp
      omega

/-- For every state `DestroyGLTextures` keeps the count, keeps every live
texture name live and adds as many new names as there are registered textures. -/
theorem DestroyGLTextures_effect {K : Type} (s : SceneManager K) :
    (DestroyGLTextures s).m_loadedTextures = s.m_loadedTextures ∧
    (∀ t ∈ s.gl.textures, t ∈ (DestroyGLTextures s).gl.textures) ∧
    (DestroyGLTextures s).gl.textures.length = s.gl.textures.length + s.m_loadedTextures :=
  DestroyGLTextures_loop_effect s.m_loadedTextures s 0 rfl

/-- C8 (defect in the code): with one texture registered under handle 1,
`DestroyGLTextures` releases nothing and empties nothing: the count is still
1, handle 1 is still live, a new handle 2 was generated and stored in the
entry; a second call generates a third handle. -/
theorem C8_DestroyGLTextures_generates_instead_of_releasing :
    sceneOneTexture.m_loadedTextures = 1 ∧ sceneOneTexture.gl.textures = [1] ∧
    (DestroyGLTextures sceneOneTexture).m_loadedTextures = 1 ∧
    (DestroyGLTextures sceneOneTexture).gl.textures = [1, 2] ∧
    ((DestroyGLTextures sceneOneTexture).m_textureIDs 0).ID = 2 ∧
    (DestroyGLTextures (DestroyGLTextures sceneOneTexture)).gl.textures = [1, 2, 3] := by
  have e1 := DestroyGLTextures_one sceneOneTexture rfl
  have e2 := DestroyGLTextures_one (DestroyGLTextures sceneOneTexture) (by rw [e1]; rfl)
  refine ⟨rfl, rfl, ?_, ?_, ?_, ?_⟩
  · rw [e1]; rfl
  · rw [e1]; rfl
  · rw [e1]; rfl
  · rw [e2, e1]; rfl

/-! ## The transform composer -/

theorem glm_translate_eq {K : Type} [Field K] (v : Vec3 K) :
    glm.translate v = Spec.Translate v := by
  ext i j
  fin_cases i <;> fin_cases j <;>
    simp [glm.translate, glm.translateM, Spec.Translate, Matrix.one_apply, Matrix.vecHead, Matrix.vecTail]

theorem glm_scale_eq {K : Type} [Field K] (v : Vec3 K) :
    glm.scale v = Spec.Scale v := by
  ext i j
  fin_cases i <;> fin_cases j <;>
    simp [glm.scale, glm.scaleM, Spec.Scale, Matrix.one_apply, Matrix.vecHead, Matrix.vecTail]

theorem glm_rotate_x_eq {K : Type} [Field K] (F : RealFns K) (h : F.inversesqrt 1 = 1)
    (angle : K) :
    glm.rotate F angle { x := 1, y := 0, z := 0 } = Spec.Rx F.cos F.sin angle := by
  ext i j
  fin_cases i <;> fin_cases j <;>
    simp [glm.rotate, glm.rotateM, glm.rotateBlock, glm.normalize, glm.dot, Spec.Rx,
      Matrix.one_apply, Matrix.vecHead, Matrix.vecTail, h]

theorem glm_rotate_y_eq {K : Type} [Field K] (F : RealFns K) (h : F.inversesqrt 1 = 1)
    (angle : K) :
    glm.rotate F angle { x := 0, y := 1, z := 0 } = Spec.Ry F.cos F.sin angle := by
  ext i j
  fin_cases i <;> fin_cases j <;>
    simp [glm.rotate, glm.rotateM, glm.rotateBlock, glm.normalize, glm.dot, Spec.Ry,
      Matrix.one_apply, Matrix.vecHead, Matrix.vecTail, h]

theorem glm_rotate_z_eq {K : Type} [Field K] (F : RealFns K) (h : F.inversesqrt 1 = 1)
    (angle : K) :
    glm.rotate F angle { x := 0, y := 0, z := 1 } = Spec.Rz F.cos F.sin angle := by
  ext i j
  fin_cases i <;> fin_cases j <;>
    simp [glm.rotate, glm.rotateM, glm.rotateBlock, glm.normalize, glm.dot, Spec.Rz,
      Matrix.one_apply, Matrix.vecHead, Matrix.vecTail, h]

/-- The matrix `SetTransformations` composes is the `T · Rx · Ry · Rz · S` of the
specification, as soon as `inversesqrt 1 = 1`. -/
theorem modelView_eq_Compose {K : Type} [Field K] (F : RealFns K) (h : F.inversesqrt 1 = 1)
    (scaleXYZ : Vec3 K) (x y z : K) (positionXYZ : Vec3 K) :
    SetTransformations.modelView F scaleXYZ x y z positionXYZ =
      Spec.Compose F.cos F.sin scaleXYZ (x * F.pi / 180) (y * F.pi / 180) (z * F.pi / 180)
        positionXYZ := by
  simp only [SetTransformations.modelView, Spec.Compose, glm_translate_eq, glm_scale_eq,
    glm_rotate_x_eq F h, glm_rotate_y_eq F h, glm_rotate_z_eq F h, glm.radians, mul_div_assoc]

theorem real_inversesqrt_one :
    (⟨Real.cos, Real.sin, fun t => (Real.sqrt t)⁻¹, Real.pi⟩ : RealFns ℝ).inversesqrt 1 = 1 := by
  simp

/-- C9: over the real numbers, for every scale, every three angles in degrees
and every position, `SetTransformations` writes to the uniform `model` exactly
`Translate(position) · Rx(x·π/180) · Ry(y·π/180) · Rz(z·π/180) · Scale(scale)`
with the factors in this order, and changes nothing else: every other uniform
and every other part of the state is as before (with no shader program
attached there is no uniform to write and the state is unchanged). -/
theorem C9_SetTransformations_writes_model_matrix (scaleXYZ : Vec3 ℝ)
    (XrotationDegrees YrotationDegrees ZrotationDegrees : ℝ) (positionXYZ : Vec3 ℝ)
    (s : SceneManager ℝ) :
    SetTransformations ⟨Real.cos, Real.sin, fun t => (Real.sqrt t)⁻¹, Real.pi⟩ scaleXYZ
        XrotationDegrees YrotationDegrees ZrotationDegrees positionXYZ s =
      { s with
        m_pShaderManager := s.m_pShaderManager.map fun sh =>
          { uniforms := fun name =>
              if name = "model" then
                some (UniformValue.mat4
                  (Spec.Translate positionXYZ *
                    Spec.Rx Real.cos Real.sin (XrotationDegrees * Real.pi / 180) *
                    Spec.Ry Real.cos Real.sin (YrotationDegrees * Real.pi / 180) *
                    Spec.Rz Real.cos Real.sin (ZrotationDegrees * Real.pi / 180) *
                    Spec.Scale scaleXYZ))
              else sh.uniforms name } } := by
  have hcore := modelView_eq_Compose
    (⟨Real.cos, Real.sin, fun t => (Real.sqrt t)⁻¹, Real.pi⟩ : RealFns ℝ)
    real_inversesqrt_one scaleXYZ XrotationDegrees YrotationDegrees ZrotationDegrees
    positionXYZ
  obtain ⟨sh, n, ids, hb, mats, gl, bufs, meshes⟩ := s
  cases sh with
  | none => rfl
  | some sh =>
    simp only [SetTransformations, hcore, Spec.Compose, ShaderManager.setMat4Value,
      ShaderManager.write, g_ModelName, Option.map_some']

/-! ## Order of the rotations -/

theorem Compose_entry_02 {K : Type} [Field K] (cos sin : K → K) (scale : Vec3 K)
    (a b c : K) (position : Vec3 K) :
    Spec.Compose cos sin scale a b c position 0 2 = sin b * scale.z := by
  simp [-mul_eq_mul_right_iff, Spec.Compose, Spec.Translate, Spec.Rx, Spec.Ry, Spec.Rz,
    Spec.Scale, Matrix.mul_apply, Fin.sum_univ_four, Matrix.vecHead, Matrix.vecTail]

theorem Compose_entry_20 {K : Type} [Field K] (cos sin : K → K) (scale : Vec3 K)
    (a b c : K) (position : Vec3 K) :
    Spec.Compose cos sin scale a b c position 2 0 =
      (sin a * sin c - cos a * sin b * cos c) * scale.x := by
  simp [-mul_eq_mul_right_iff, Spec.Compose, Spec.Translate, Spec.Rx, Spec.Ry, Spec.Rz,
    Spec.Scale, Matrix.mul_apply, Fin.sum_univ_four, Matrix.vecHead, Matrix.vecTail]
  ring

theorem ComposeReversed_entry_02 {K : Type} [Field K] (cos sin : K → K) (scale : Vec3 K)
    (a b c : K) (position : Vec3 K) :
    Spec.ComposeReversed cos sin scale a b c position 0 2 =
      (cos c * sin b * cos a + sin c * sin a) * scale.z := by
  simp [-mul_eq_mul_right_iff, Spec.ComposeReversed, Spec.Translate, Spec.Rx, Spec.Ry,
    Spec.Rz, Spec.Scale, Matrix.mul_apply, Fin.sum_univ_four, Matrix.vecHead, Matrix.vecTail]
  ring

theorem ComposeReversed_entry_20 {K : Type} [Field K] (cos sin : K → K) (scale : Vec3 K)
    (a b c : K) (position : Vec3 K) :
    Spec.ComposeReversed cos sin scale a b c position 2 0 = -sin b * scale.x := by
  simp [-mul_eq_mul_right_iff, Spec.ComposeReversed, Spec.Translate, Spec.Rx, Spec.Ry,
    Spec.Rz, Spec.Scale, Matrix.mul_apply, Fin.sum_univ_four, Matrix.vecHead, Matrix.vecTail]

/-- The reversed rotation order changes the matrix when the sines of the X and Z
angles and the X and Z scale factors are all non-zero. -/
theorem ComposeReversed_ne_Compose (cos sin : ℝ → ℝ) (scale : Vec3 ℝ)
    (a b c : ℝ) (position : Vec3 ℝ) (ha : sin a ≠ 0) (hc : sin c ≠ 0)
    (hsx : scale.x ≠ 0) (hsz : scale.z ≠ 0) :
    Spec.ComposeReversed cos sin scale a b c position ≠
      Spec.Compose cos sin scale a b c position := by
  intro h
  have e1 := congrFun (congrFun h 0) 2
  have e2 := congrFun (congrFun h 2) 0
  rw [ComposeReversed_entry_02, Compose_entry_02] at e1
  rw [ComposeReversed_entry_20, Compose_entry_20] at e2
  have e1' := mul_right_cancel₀ hsz e1
  have e2' := mul_right_cancel₀ hsx e2
  have hzero : sin a * sin c = 0 := by
    linear_combination (e1' - e2') / 2
  exact mul_ne_zero ha hc hzero

theorem Spec_Rx_full_turn {K : Type} [Field K] (cos sin : K → K) (a : K)
    (h1 : cos a = 1) (h2 : sin a = 0) : Spec.Rx cos sin a = 1 := by
  ext i j
  fin_cases i <;> fin_cases j <;>
    simp [Spec.Rx, Matrix.one_apply, Matrix.vecHead, Matrix.vecTail, h1, h2]

theorem Spec_Ry_full_turn {K : Type} [Field K] (cos sin : K → K) (a : K)
    (h1 : cos a = 1) (h2 : sin a = 0) : Spec.Ry cos sin a = 1 := by
  ext i j
  fin_cases i <;> fin_cases j <;>
    simp [Spec.Ry, Matrix.one_apply, Matrix.vecHead, Matrix.vecTail, h1, h2]

theorem Spec_Rz_full_turn {K : Type} [Field K] (cos sin : K → K) (a : K)
    (h1 : cos a = 1) (h2 : sin a = 0) : Spec.Rz cos sin a = 1 := by
  ext i j
  fin_cases i <;> fin_cases j <;>
    simp [Spec.Rz, Matrix.one_apply, Matrix.vecHead, Matrix.vecTail, h1, h2]

theorem Compose_full_turns {K : Type} [Field K] (cos sin : K → K) (scale : Vec3 K)
    (a b c : K) (position : Vec3 K)
    (ha : cos a = 1 ∧ sin a = 0) (hb : cos b = 1 ∧ sin b = 0) (hc : cos c = 1 ∧ sin c = 0) :
    Spec.ComposeReversed cos sin scale a b c position =
      Spec.Compose cos sin scale a b c position := by
  simp only [Spec.ComposeReversed, Spec.Compose, Spec_Rx_full_turn cos sin a ha.1 ha.2,
    Spec_Ry_full_turn cos sin b hb.1 hb.2, Spec_Rz_full_turn cos sin c hc.1 hc.2]

theorem Rx_mul_Ry {K : Type} [Field K] (cos sin : K → K) (a b : K) :
    Spec.Rx cos sin a * Spec.Ry cos sin b =
      !![cos b, 0, sin b, 0;
         sin a * sin b, cos a, -(sin a * cos b), 0;
         -(cos a * sin b), sin a, cos a * cos b, 0;
         0, 0, 0, 1] := by
  ext i j
  fin_cases i <;> fin_cases j <;>
    simp [Spec.Rx, Spec.Ry, Matrix.mul_apply, Fin.sum_univ_four, Matrix.vecHead,
      Matrix.vecTail]

theorem Ry_mul_Rx {K : Type} [Field K] (cos sin : K → K) (a b : K) :
    Spec.Ry cos sin b * Spec.Rx cos sin a =
      !![cos b, sin b * sin a, sin b * cos a, 0;
         0, cos a, -sin a, 0;
         -sin b, cos b * sin a, cos b * cos a, 0;
         0, 0, 0, 1] := by
  ext i j
  fin_cases i <;> fin_cases j <;>
    simp [Spec.Rx, Spec.Ry, Matrix.mul_apply, Fin.sum_univ_four, Matrix.vecHead,
      Matrix.vecTail]

/-- With only the X scale factor non-zero, a half turn about X and a quarter
turn about Z, the order `Ry · Rx · Rz` gives the same model matrix as
`Rx · Ry · Rz`, whatever the Y angle. -/
theorem single_axis_scale_X {K : Type} [Field K] (cos sin : K → K) (a b c s : K)
    (position : Vec3 K) (h1 : cos a = -1) (h2 : sin a = 0) (h3 : cos c = 0)
    (h4 : sin c = 1) :
    Spec.ComposeOrdered (Spec.Ry cos sin b) (Spec.Rx cos sin a) (Spec.Rz cos sin c)
        { x := s, y := 0, z := 0 } position =
      Spec.ComposeOrdered (Spec.Rx cos sin a) (Spec.Ry cos sin b) (Spec.Rz cos sin c)
        { x := s, y := 0, z := 0 } position := by
  have key : Spec.Ry cos sin b * Spec.Rx cos sin a *
        (Spec.Rz cos sin c * Spec.Scale ({ x := s, y := 0, z := 0 } : Vec3 K)) =
      Spec.Rx cos sin a * Spec.Ry cos sin b *
        (Spec.Rz cos sin c * Spec.Scale ({ x := s, y := 0, z := 0 } : Vec3 K)) := by
    rw [Ry_mul_Rx, Rx_mul_Ry]
    ext i j
    fin_cases i <;> fin_cases j <;>
      simp [Spec.Rz, Spec.Scale, Matrix.mul_apply, Fin.sum_univ_four, Matrix.vecHead,
        Matrix.vecTail, h1, h2, h3, h4]
  simp only [Spec.ComposeOrdered, Matrix.mul_assoc] at key ⊢
  rw [key]

theorem Ry_mul_Scale_Y {K : Type} [Field K] (cos sin : K → K) (b s : K) :
    Spec.Ry cos sin b * Spec.Scale ({ x := 0, y := s, z := 0 } : Vec3 K) =
      Spec.Scale { x := 0, y := s, z := 0 } := by
  ext i j
  fin_cases i <;> fin_cases j <;>
    simp [Spec.Ry, Spec.Scale, Matrix.mul_apply, Fin.sum_univ_four, Matrix.vecHead,
      Matrix.vecTail]

theorem Rz_mul_Scale_Z {K : Type} [Field K] (cos sin : K → K) (c s : K) :
    Spec.Rz cos sin c * Spec.Scale ({ x := 0, y := 0, z := s } : Vec3 K) =
      Spec.Scale { x := 0, y := 0, z := s } := by
  ext i j
  fin_cases i <;> fin_cases j <;>
    simp [Spec.Rz, Spec.Scale, Matrix.mul_apply, Fin.sum_univ_four, Matrix.vecHead,
      Matrix.vecTail]

theorem Rz_half_turn_mul_Scale_Y {K : Type} [Field K] (cos sin : K → K) (c s : K)
    (h1 : cos c = -1) (h2 : sin c = 0) :
    Spec.Rz cos sin c * Spec.Scale ({ x := 0, y := s, z := 0 } : Vec3 K) =
      Spec.Scale { x := 0, y := -s, z := 0 } := by
  ext i j
  fin_cases i <;> fin_cases j <;>
    simp [Spec.Rz, Spec.Scale, Matrix.mul_apply, Fin.sum_univ_four, Matrix.vecHead,
      Matrix.vecTail, h1, h2]

theorem Ry_half_turn_mul_Scale_Z {K : Type} [Field K] (cos sin : K → K) (b s : K)
    (h1 : cos b = -1) (h2 : sin b = 0) :
    Spec.Ry cos sin b * Spec.Scale ({ x := 0, y := 0, z := s } : Vec3 K) =
      Spec.Scale { x := 0, y := 0, z := -s } := by
  ext i j
  fin_cases i <;> fin_cases j <;>
    simp [Spec.Ry, Spec.Scale, Matrix.mul_apply, Fin.sum_univ_four, Matrix.vecHead,
      Matrix.vecTail, h1, h2]

/-- With only the Y scale factor non-zero and a half turn about Z, the order
`Rx · Rz · Ry` gives the same model matrix as `Rx · Ry · Rz`, whatever the X
and Y angles. -/
theorem single_axis_scale_Y {K : Type} [Field K] (cos sin : K → K) (a b c s : K)
    (position : Vec3 K) (h1 : cos c = -1) (h2 : sin c = 0) :
    Spec.ComposeOrdered (Spec.Rx cos sin a) (Spec.Rz cos sin c) (Spec.Ry cos sin b)
        { x := 0, y := s, z := 0 } position =
      Spec.ComposeOrdered (Spec.Rx cos sin a) (Spec.Ry cos sin b) (Spec.Rz cos sin c)
        { x := 0, y := s, z := 0 } position := by
  simp only [Spec.ComposeOrdered, Matrix.mul_assoc]
  rw [Ry_mul_Scale_Y, Rz_half_turn_mul_Scale_Y cos sin c s h1 h2, Ry_mul_Scale_Y]

/-- With only the Z scale factor non-zero and a half turn about Y, the order
`Rx · Rz · Ry` gives the same model matrix as `Rx · Ry · Rz`, whatever the X
and Z angles. -/
theorem single_axis_scale_Z {K : Type} [Field K] (cos sin : K → K) (a b c s : K)
    (position : Vec3 K) (h1 : cos b = -1) (h2 : sin b = 0) :
    Spec.ComposeOrdered (Spec.Rx cos sin a) (Spec.Rz cos sin c) (Spec.Ry cos sin b)
        { x := 0, y := 0, z := s } position =
      Spec.ComposeOrdered (Spec.Rx cos sin a) (Spec.Ry cos sin b) (Spec.Rz cos sin c)
        { x := 0, y := 0, z := s } position := by
  simp only [Spec.ComposeOrdered, Matrix.mul_assoc]
  rw [Ry_half_turn_mul_Scale_Z cos sin b s h1 h2, Rz_mul_Scale_Z, Rz_mul_Scale_Z,
    Ry_half_turn_mul_Scale_Z cos sin b s h1 h2]

theorem not_wholeTurns_int (n : ℤ) (h : n % 360 ≠ 0) : ¬ Spec.wholeTurns (n : ℝ) := by
  rintro ⟨k, hk⟩
  have h2 : n = 360 * k := by exact_mod_cast hk
  omega

theorem not_halfTurn_int (n : ℤ) (h : n % 360 ≠ 180) : ¬ Spec.halfTurn (n : ℝ) := by
  rintro ⟨k, hk⟩
  have h2 : n = 180 + 360 * k := by exact_mod_cast hk
  omega

/-- Over the real numbers, for each scale with a single non-zero component
there are non-zero, pairwise unequal angles, none a whole number of turns and
only one a half turn, at which a swapped order gives the model matrix
`T · Rx · Ry · Rz · S`: 180, 30, 90 for a scale along X; 30, 60, 180 for a
scale along Y; 30, 180, 60 for a scale along Z. -/
theorem single_axis_scales_lose_the_order (s : ℝ) (position : Vec3 ℝ) :
    (¬ Spec.orderInsensitive 180 30 90 ∧
      Spec.ComposeOrdered (Spec.Ry Real.cos Real.sin (30 * Real.pi / 180))
          (Spec.Rx Real.cos Real.sin (180 * Real.pi / 180))
          (Spec.Rz Real.cos Real.sin (90 * Real.pi / 180)) { x := s, y := 0, z := 0 }
          position =
        Spec.Compose Real.cos Real.sin { x := s, y := 0, z := 0 } (180 * Real.pi / 180)
          (30 * Real.pi / 180) (90 * Real.pi / 180) position) ∧
    (¬ Spec.orderInsensitive 30 60 180 ∧
      Spec.ComposeOrdered (Spec.Rx Real.cos Real.sin (30 * Real.pi / 180))
          (Spec.Rz Real.cos Real.sin (180 * Real.pi / 180))
          (Spec.Ry Real.cos Real.sin (60 * Real.pi / 180)) { x := 0, y := s, z := 0 }
          position =
        Spec.Compose Real.cos Real.sin { x := 0, y := s, z := 0 } (30 * Real.pi / 180)
          (60 * Real.pi / 180) (180 * Real.pi / 180) position) ∧
    (¬ Spec.orderInsensitive 30 180 60 ∧
      Spec.ComposeOrdered (Spec.Rx Real.cos Real.sin (30 * Real.pi / 180))
          (Spec.Rz Real.cos Real.sin (60 * Real.pi / 180))
          (Spec.Ry Real.cos Real.sin (180 * Real.pi / 180)) { x := 0, y := 0, z := s }
          position =
        Spec.Compose Real.cos Real.sin { x := 0, y := 0, z := s } (30 * Real.pi / 180)
          (180 * Real.pi / 180) (60 * Real.pi / 180) position) := by
  have e180 : (180 : ℝ) * Real.pi / 180 = Real.pi := by ring
  have e90 : (90 : ℝ) * Real.pi / 180 = Real.pi / 2 := by ring
  have c180 : Real.cos (180 * Real.pi / 180) = -1 := by rw [e180, Real.cos_pi]
  have s180 : Real.sin (180 * Real.pi / 180) = 0 := by rw [e180, Real.sin_pi]
  have c90 : Real.cos (90 * Real.pi / 180) = 0 := by rw [e90, Real.cos_pi_div_two]
  have s90 : Real.sin (90 * Real.pi / 180) = 1 := by rw [e90, Real.sin_pi_div_two]
  refine ⟨⟨?_, ?_⟩, ⟨?_, ?_⟩, ⟨?_, ?_⟩⟩
  · rintro (h | h | h | ⟨-, h⟩ | ⟨-, h⟩ | ⟨h, -⟩)
    · exact not_wholeTurns_int 180 (by decide) (by simpa using h)
    · exact not_wholeTurns_int 30 (by decide) (by simpa using h)
    · exact not_wholeTurns_int 90 (by decide) (by simpa using h)
    · exact not_halfTurn_int 30 (by decide) (by simpa using h)
    · exact not_halfTurn_int 90 (by decide) (by simpa using h)
    · exact not_halfTurn_int 30 (by decide) (by simpa using h)
  · exact single_axis_scale_X Real.cos Real.sin _ _ _ s position c180 s180 c90 s90
  · rintro (h | h | h | ⟨h, -⟩ | ⟨h, -⟩ | ⟨h, -⟩)
    · exact not_wholeTurns_int 30 (by decide) (by simpa using h)
    · exact not_wholeTurns_int 60 (by decide) (by simpa using h)
    · exact not_wholeTurns_int 180 (by decide) (by simpa using h)
    · exact not_halfTurn_int 30 (by decide) (by simpa using h)
    · exact not_halfTurn_int 30 (by decide) (by simpa using h)
    · exact not_halfTurn_int 60 (by decide) (by simpa using h)
  · exact single_axis_scale_Y Real.cos Real.sin _ _ _ s position c180 s180
  · rintro (h | h | h | ⟨h, -⟩ | ⟨h, -⟩ | ⟨-, h⟩)
    · exact not_wholeTurns_int 30 (by decide) (by simpa using h)
    · exact not_wholeTurns_int 180 (by decide) (by simpa using h)
    · exact not_wholeTurns_int 60 (by decide) (by simpa using h)
    · exact not_halfTurn_int 30 (by decide) (by simpa using h)
    · exact not_halfTurn_int 30 (by decide) (by simpa using h)
    · exact not_halfTurn_int 60 (by decide) (by simpa using h)
  · exact single_axis_scale_Z Real.cos Real.sin _ _ _ s position c180 s180

theorem RenderScene_eq_runScript {K : Type} [Field K] (F : RealFns K)
    (material : OBJECT_MATERIAL K) (s : SceneManager K) :
    RenderScene F material s = runScript F material RenderScene.script s := by
  simp only [RenderScene, RenderScene.script, runScript, Cmd.exec, bind, Except.bind, pure,
    Except.pure]

/-! ## The effect of each call on the uniform table -/

theorem SetTransformations_withTable {K : Type} [Field K] (F : RealFns K) (scaleXYZ : Vec3 K)
    (x y z : K) (positionXYZ : Vec3 K) (s : SceneManager K) (t : ShaderManager K)
    (h : s.m_pShaderManager = some t) :
    SetTransformations F scaleXYZ x y z positionXYZ s =
      s.withTable (t.write "model"
        (UniformValue.mat4 (SetTransformations.modelView F scaleXYZ x y z positionXYZ))) := by
  simp only [SetTransformations, h, SceneManager.withTable, ShaderManager.setMat4Value,
    g_ModelName]

theorem SetShaderColor_withTable {K : Type} (r g b a : K) (s : SceneManager K)
    (t : ShaderManager K) (h : s.m_pShaderManager = some t) :
    SetShaderColor r g b a s =
      s.withTable ((t.write "bUseTexture" (UniformValue.int 0)).write "objectColor"
        (UniformValue.vec4 { r := r, g := g, b := b, a := a })) := by
  simp only [SetShaderColor, h, SceneManager.withTable, ShaderManager.setIntValue,
    ShaderManager.setVec4Value, g_UseTextureName, g_ColorValueName]

theorem SetShaderTexture_withTable {K : Type} (tag : String) (s : SceneManager K)
    (t : ShaderManager K) (h : s.m_pShaderManager = some t) :
    SetShaderTexture tag s =
      s.withTable ((t.write "bUseTexture" (UniformValue.int 1)).write "objectTexture"
        (UniformValue.sampler2D (FindTextureSlot s tag))) := by
  simp only [SetShaderTexture, h, SceneManager.withTable, ShaderManager.setIntValue,
    ShaderManager.setSampler2DValue, g_UseTextureName, g_TextureValueName]

theorem SetTextureUVScale_withTable {K : Type} (u v : K) (s : SceneManager K)
    (t : ShaderManager K) (h : s.m_pShaderManager = some t) :
    SetTextureUVScale u v s =
      s.withTable (t.write "UVscale" (UniformValue.vec2 { x := u, y := v })) := by
  simp only [SetTextureUVScale, h, SceneManager.withTable, ShaderManager.setVec2Value]

theorem sendModel_withTable {K : Type} (modelMatrix : Mat4 K) (s : SceneManager K)
    (t : ShaderManager K) (h : s.m_pShaderManager = some t) :
    RenderScene.sendModel modelMatrix s =
      Except.ok (s.withTable (t.write "model" (UniformValue.mat4 modelMatrix))) := by
  simp only [RenderScene.sendModel, h, SceneManager.withTable, ShaderManager.setMat4Value]

/-- The five writes of `SetShaderMaterial`, from the material `m`. -/
theorem SetShaderMaterial_withTable {K : Type} (tag : String) (material : OBJECT_MATERIAL K)
    (s : SceneManager K) (t : ShaderManager K) (h : s.m_pShaderManager = some t)
    (hne : s.m_objectMaterials ≠ []) :
    SetShaderMaterial tag material s =
      Except.ok (s.withTable
        (((((t.write "material.ambientColor"
              (UniformValue.vec3 (FindMaterial s tag material).2.ambientColor)).write
            "material.ambientStrength"
              (UniformValue.float (FindMaterial s tag material).2.ambientStrength)).write
            "material.diffuseColor"
              (UniformValue.vec3 (FindMaterial s tag material).2.diffuseColor)).write
            "material.specularColor"
              (UniformValue.vec3 (FindMaterial s tag material).2.specularColor)).write
            "material.shininess"
              (UniformValue.float (FindMaterial s tag material).2.shininess))) := by
  have hlen : s.m_objectMaterials.length > 0 := List.length_pos.mpr hne
  have hlen0 : s.m_objectMaterials.length ≠ 0 := Nat.pos_iff_ne_zero.mp hlen
  have hfound : (FindMaterial s tag material).1 = true := by
    simp only [FindMaterial, hlen0, if_false]
  simp only [SetShaderMaterial, hlen, hfound, h, if_true, SceneManager.withTable,
    ShaderManager.setVec3Value, ShaderManager.setFloatValue]

/-! ## Lookups read the registries only -/

theorem FindTextureSlot_loop_congr {K : Type} (s1 s2 : SceneManager K) (tag : String)
    (hc : s1.m_loadedTextures = s2.m_loadedTextures) (hi : s1.m_textureIDs = s2.m_textureIDs) :
    ∀ (n index : Nat), s1.m_loadedTextures - index = n →
      FindTextureSlot.loop s1 tag index = FindTextureSlot.loop s2 tag index := by
  intro n
  induction n with
  | zero =>
    intro index hn
    rw [FindTextureSlot_loop_ge s1 tag index (by omega),
      FindTextureSlot_loop_ge s2 tag index (by omega)]
  | succ n ih =>
    intro index hn
    have h1 : index < s1.m_loadedTextures := by omega
    have h2 : index < s2.m_loadedTextures := by omega
    by_cases ht : (s1.m_textureIDs ⟨index, Nat.lt_of_lt_of_le h1 s1.inBounds⟩).tag = tag
    · have ht2 : (s2.m_textureIDs ⟨index, Nat.lt_of_lt_of_le h2 s2.inBounds⟩).tag = tag := by
        rw [← hi]; exact ht
      rw [FindTextureSlot_loop_hit s1 tag index h1 ht,
        FindTextureSlot_loop_hit s2 tag index h2 ht2]
    · have ht2 : (s2.m_textureIDs ⟨index, Nat.lt_of_lt_of_le h2 s2.inBounds⟩).tag ≠ tag := by
        rw [← hi]; exact ht
      rw [FindTextureSlot_loop_miss s1 tag index h1 ht,
        FindTextureSlot_loop_miss s2 tag index h2 ht2]
      exact ih (index + 1) (by omega)

/-- `FindTextureSlot` depends on the count and the table only. -/
theorem FindTextureSlot_congr {K : Type} (s1 s2 : SceneManager K) (tag : String)
    (hc : s1.m_loadedTextures = s2.m_loadedTextures) (hi : s1.m_textureIDs = s2.m_textureIDs) :
    FindTextureSlot s1 tag = FindTextureSlot s2 tag :=
  FindTextureSlot_loop_congr s1 s2 tag hc hi _ 0 rfl

/-- The loop of `FindMaterial` finds the first entry of the list that carries
the tag, and copies its five fields. -/
theorem FindMaterial_loop_find {K : Type} (mats : List (OBJECT_MATERIAL K)) (tag : String)
    (material : OBJECT_MATERIAL K) :
    ∀ (n index : Nat), mats.length - index = n →
      FindMaterial.loop mats tag index material =
        match (mats.drop index).find? (fun m => decide (m.tag = tag)) with
        | some e =>
          (true,
            { material with
              ambientColor := e.ambientColor
              ambientStrength := e.ambientStrength
              diffuseColor := e.diffuseColor
              specularColor := e.specularColor
              shininess := e.shininess })
        | none => (false, material) := by
  intro n
  induction n with
  | zero =>
    intro index hn
    rw [FindMaterial.loop]
    have hge : mats.length ≤ index := by omega
    simp [Nat.not_lt.mpr hge, List.drop_eq_nil_of_le hge]
  | succ n ih =>
    intro index hn
    have hlt : index < mats.length := by omega
    rw [FindMaterial.loop]
    have hdrop : mats.drop index = mats.get ⟨index, hlt⟩ :: mats.drop (index + 1) := by
      simp
    by_cases ht : (mats.get ⟨index, hlt⟩).tag = tag
    · simp only [hlt, ht, dite_true, if_true, hdrop, List.find?_cons, decide_True]
    · simp only [hlt, ht, dite_true, if_false, hdrop, List.find?_cons, decide_False]
      exact ih (index + 1) (by omega)

/-! ## Two runs of one list of calls -/

theorem mem_addNames (names known : List String) (n : String) :
    n ∈ addNames names known ↔ n ∈ names ∨ n ∈ known := by
  simp only [addNames, List.mem_append, List.mem_filter, Bool.not_eq_true',
    List.contains_eq_any_beq, List.any_eq_false, beq_iff_eq]
  constructor
  · rintro (⟨h, _⟩ | h)
    · exact Or.inl h
    · exact Or.inr h
  · rintro (h | h)
    · by_cases hk : n ∈ known
      · exact Or.inr hk
      · refine Or.inl ⟨h, ?_⟩
        intro x hx hxn
        exact hk (by rw [hxn]; exact hx)
    · exact Or.inr h

theorem write_agree {K : Type} (t1 t2 : ShaderManager K) (name : String)
    (v : UniformValue K) (P : String → Prop)
    (h : ∀ n, P n → t1.uniforms n = t2.uniforms n) :
    ∀ n, n = name ∨ P n →
      (t1.write name v).uniforms n = (t2.write name v).uniforms n := by
  intro n hn
  by_cases hname : n = name
  · simp [ShaderManager.write, hname]
  · rcases hn with hn | hn
    · exact absurd hn hname
    · simp [ShaderManager.write, hname, h n hn]

theorem Replay_withTable {K : Type} (observed known known1 : List String)
    (base1 base2 : List (DrawCall K)) (s1 s2 : SceneManager K) (t1 t2 : ShaderManager K)
    (h : Replay observed known base1 base2 s1 s2)
    (ht : ∀ n ∈ known1, t1.uniforms n = t2.uniforms n) :
    Replay observed known1 base1 base2 (s1.withTable t1) (s2.withTable t2) :=
  { count := h.count
    ids := h.ids
    mats := h.mats
    tables := ⟨t1, t2, rfl, rfl, ht⟩
    draws := h.draws }

theorem Replay_draw {K : Type} (observed known : List String)
    (base1 base2 : List (DrawCall K)) (s1 s2 : SceneManager K) (shape : Shape)
    (h : Replay observed known base1 base2 s1 s2)
    (hobs : ∀ n ∈ observed, n ∈ known) :
    Replay observed known base1 base2 (s1.drawMesh shape) (s2.drawMesh shape) := by
  obtain ⟨t1, t2, h1, h2, ht⟩ := h.tables
  obtain ⟨new1, new2, e1, e2, hf⟩ := h.draws
  refine
    { count := h.count
      ids := h.ids
      mats := h.mats
      tables := ⟨t1, t2, h1, h2, ht⟩
      draws := ⟨new1 ++ [{ shape := shape, uniforms := some t1 }],
        new2 ++ [{ shape := shape, uniforms := some t2 }], ?_, ?_, ?_⟩ }
  · simp [SceneManager.drawMesh, ShapeMeshes.draw, e1, h1]
  · simp [SceneManager.drawMesh, ShapeMeshes.draw, e2, h2]
  · refine List.rel_append hf (List.Forall₂.cons ⟨rfl, ?_⟩ List.Forall₂.nil)
    intro n hn
    simp [DrawCall.observe, ht n (hobs n hn)]

/-- With the tag found, what `FindMaterial` puts in the five fields is read
from the list alone. -/
theorem FindMaterial_fields_of_mem {K : Type} (s1 s2 : SceneManager K) (tag : String)
    (m1 m2 : OBJECT_MATERIAL K) (hm : s1.m_objectMaterials = s2.m_objectMaterials)
    (hmem : tag ∈ s1.m_objectMaterials.map fun m => m.tag) :
    (FindMaterial s1 tag m1).2.ambientColor = (FindMaterial s2 tag m2).2.ambientColor ∧
    (FindMaterial s1 tag m1).2.ambientStrength = (FindMaterial s2 tag m2).2.ambientStrength ∧
    (FindMaterial s1 tag m1).2.diffuseColor = (FindMaterial s2 tag m2).2.diffuseColor ∧
    (FindMaterial s1 tag m1).2.specularColor = (FindMaterial s2 tag m2).2.specularColor ∧
    (FindMaterial s1 tag m1).2.shininess = (FindMaterial s2 tag m2).2.shininess := by
  obtain ⟨e, he, hetag⟩ := List.mem_map.mp hmem
  have hne : s1.m_objectMaterials.length ≠ 0 := by
    intro h0
    rw [List.length_eq_zero] at h0
    rw [h0] at he
    exact absurd he (List.not_mem_nil e)
  have hsome : ∃ f, s1.m_objectMaterials.find? (fun m => decide (m.tag = tag)) = some f := by
    cases hf : s1.m_objectMaterials.find? (fun m => decide (m.tag = tag)) with
    | some f => exact ⟨f, rfl⟩
    | none =>
      have := List.find?_eq_none.mp hf e he
      simp [hetag] at this
  obtain ⟨f, hf⟩ := hsome
  have l1 := FindMaterial_loop_find s1.m_objectMaterials tag m1 _ 0 rfl
  have l2 := FindMaterial_loop_find s1.m_objectMaterials tag m2 _ 0 rfl
  rw [List.drop_zero, hf] at l1 l2
  simp only [FindMaterial, ← hm, hne, if_false, l1, l2, and_self]

theorem exec_replay {K : Type} [Field K] (F : RealFns K) (m1 m2 : OBJECT_MATERIAL K)
    (tags observed known : List String) (base1 base2 : List (DrawCall K))
    (s1 s2 : SceneManager K) (c : Cmd K)
    (h : Replay observed known base1 base2 s1 s2)
    (htags : (s1.m_objectMaterials.map fun m => m.tag) = tags)
    (hc : c.admissible tags observed known = true) :
    ∃ r1 r2, c.exec F m1 s1 = Except.ok r1 ∧ c.exec F m2 s2 = Except.ok r2 ∧
      Replay observed (addNames c.names known) base1 base2 r1 r2 ∧
      r1.m_objectMaterials = s1.m_objectMaterials ∧
      r1.m_loadedTextures = s1.m_loadedTextures ∧ r1.m_textureIDs = s1.m_textureIDs := by
  obtain ⟨t1, t2, h1, h2, ht⟩ := h.tables
  have hP : ∀ n, n ∈ known → t1.uniforms n = t2.uniforms n := ht
  cases c with
  | setTransformations scaleXYZ x y z positionXYZ =>
    refine ⟨_, _, rfl, rfl, ?_, ?_⟩
    · rw [SetTransformations_withTable F scaleXYZ x y z positionXYZ s1 t1 h1,
        SetTransformations_withTable F scaleXYZ x y z positionXYZ s2 t2 h2]
      refine Replay_withTable _ _ _ _ _ _ _ _ _ h ?_
      intro n hn
      rw [mem_addNames] at hn
      exact write_agree t1 t2 _ _ _ hP n (by simpa [Cmd.names] using hn)
    · rw [SetTransformations_withTable F scaleXYZ x y z positionXYZ s1 t1 h1]
      exact ⟨rfl, rfl, rfl⟩
  | setShaderColor r g b a =>
    refine ⟨_, _, rfl, rfl, ?_, ?_⟩
    · rw [SetShaderColor_withTable r g b a s1 t1 h1, SetShaderColor_withTable r g b a s2 t2 h2]
      refine Replay_withTable _ _ _ _ _ _ _ _ _ h ?_
      intro n hn
      rw [mem_addNames] at hn
      refine write_agree _ _ _ _ (fun n => n = "bUseTexture" ∨ n ∈ known)
        (write_agree t1 t2 _ _ _ hP) n ?_
      simp only [Cmd.names, List.mem_cons, List.mem_singleton, List.not_mem_nil, or_false] at hn
      tauto
    · rw [SetShaderColor_withTable r g b a s1 t1 h1]
      exact ⟨rfl, rfl, rfl⟩
  | setShaderMaterial tag =>
    have hmem : tag ∈ s1.m_objectMaterials.map fun m => m.tag := by
      rw [htags]
      simpa [Cmd.admissible] using hc
    have hne1 : s1.m_objectMaterials ≠ [] := by
      intro h0
      rw [h0] at hmem
      simp at hmem
    have hne2 : s2.m_objectMaterials ≠ [] := by
      rw [← h.mats]; exact hne1
    obtain ⟨f1, f2, f3, f4, f5⟩ := FindMaterial_fields_of_mem s1 s2 tag m1 m2 h.mats hmem
    refine ⟨_, _, SetShaderMaterial_withTable tag m1 s1 t1 h1 hne1,
      SetShaderMaterial_withTable tag m2 s2 t2 h2 hne2, ?_, rfl, rfl, rfl⟩
    rw [f1, f2, f3, f4, f5]
    refine Replay_withTable _ _ _ _ _ _ _ _ _ h ?_
    intro n hn
    rw [mem_addNames] at hn
    refine write_agree _ _ _ _
      (fun n => n = "material.specularColor" ∨ n = "material.diffuseColor" ∨
        n = "material.ambientStrength" ∨ n = "material.ambientColor" ∨ n ∈ known)
      (write_agree _ _ _ _
        (fun n => n = "material.diffuseColor" ∨
          n = "material.ambientStrength" ∨ n = "material.ambientColor" ∨ n ∈ known)
        (write_agree _ _ _ _
          (fun n => n = "material.ambientStrength" ∨ n = "material.ambientColor" ∨ n ∈ known)
          (write_agree _ _ _ _ (fun n => n = "material.ambientColor" ∨ n ∈ known)
            (write_agree t1 t2 _ _ _ hP)))) n ?_
    simp only [Cmd.names, List.mem_cons, List.mem_singleton, List.not_mem_nil, or_false] at hn
    tauto
  | setShaderTexture tag =>
    refine ⟨_, _, rfl, rfl, ?_, ?_⟩
    · rw [SetShaderTexture_withTable tag s1 t1 h1, SetShaderTexture_withTable tag s2 t2 h2,
        FindTextureSlot_congr s1 s2 tag h.count h.ids]
      refine Replay_withTable _ _ _ _ _ _ _ _ _ h ?_
      intro n hn
      rw [mem_addNames] at hn
      refine write_agree _ _ _ _ (fun n => n = "bUseTexture" ∨ n ∈ known)
        (write_agree t1 t2 _ _ _ hP) n ?_
      simp only [Cmd.names, List.mem_cons, List.mem_singleton, List.not_mem_nil, or_false] at hn
      tauto
    · rw [SetShaderTexture_withTable tag s1 t1 h1]
      exact ⟨rfl, rfl, rfl⟩
  | setTextureUVScale u v =>
    refine ⟨_, _, rfl, rfl, ?_, ?_⟩
    · rw [SetTextureUVScale_withTable u v s1 t1 h1, SetTextureUVScale_withTable u v s2 t2 h2]
      refine Replay_withTable _ _ _ _ _ _ _ _ _ h ?_
      intro n hn
      rw [mem_addNames] at hn
      exact write_agree t1 t2 _ _ _ hP n (by simpa [Cmd.names] using hn)
    · rw [SetTextureUVScale_withTable u v s1 t1 h1]
      exact ⟨rfl, rfl, rfl⟩
  | sendModel position degrees scale =>
    refine ⟨_, _, sendModel_withTable _ s1 t1 h1, sendModel_withTable _ s2 t2 h2, ?_, rfl, rfl, rfl⟩
    refine Replay_withTable _ _ _ _ _ _ _ _ _ h ?_
    intro n hn
    rw [mem_addNames] at hn
    exact write_agree t1 t2 _ _ _ hP n (by simpa [Cmd.names] using hn)
  | draw shape =>
    refine ⟨_, _, rfl, rfl, ?_, rfl, rfl, rfl⟩
    have hk : addNames (Cmd.draw shape : Cmd K).names known = known := by
      simp [addNames, Cmd.names]
    rw [hk]
    refine Replay_draw _ _ _ _ _ _ shape h ?_
    intro n hn
    have := hc
    simp only [Cmd.admissible, List.all_eq_true] at this
    simpa using this n hn

theorem runScript_replay {K : Type} [Field K] (F : RealFns K) (m1 m2 : OBJECT_MATERIAL K)
    (tags observed : List String) (base1 base2 : List (DrawCall K)) (script : List (Cmd K)) :
    ∀ (known : List String) (s1 s2 : SceneManager K),
      Replay observed known base1 base2 s1 s2 →
      (s1.m_objectMaterials.map fun m => m.tag) = tags →
      replayable tags observed known script = true →
      ∃ r1 r2 known1, runScript F m1 script s1 = Except.ok r1 ∧
        runScript F m2 script s2 = Except.ok r2 ∧
        Replay observed known1 base1 base2 r1 r2 ∧
        (∀ n ∈ known, n ∈ known1) ∧
        r1.m_objectMaterials = s1.m_objectMaterials ∧
        r1.m_loadedTextures = s1.m_loadedTextures ∧ r1.m_textureIDs = s1.m_textureIDs := by
  induction script with
  | nil =>
    intro known s1 s2 h _ _
    exact ⟨s1, s2, known, rfl, rfl, h, fun n hn => hn, rfl, rfl, rfl⟩
  | cons c rest ih =>
    intro known s1 s2 h htags hrep
    simp only [replayable, Bool.and_eq_true] at hrep
    obtain ⟨q1, q2, e1, e2, hq, hm, hcnt, hids⟩ :=
      exec_replay F m1 m2 tags observed known base1 base2 s1 s2 c h htags hrep.1
    obtain ⟨r1, r2, known1, g1, g2, hr, hk, hm2, hcnt2, hids2⟩ :=
      ih (addNames c.names known) q1 q2 hq (by rw [hm]; exact htags) hrep.2
    refine ⟨r1, r2, known1, ?_, ?_, hr, ?_, by rw [hm2, hm], by rw [hcnt2, hcnt],
      by rw [hids2, hids]⟩
    · simp only [runScript, e1, Except.bind]
      exact g1
    · simp only [runScript, e2, Except.bind]
      exact g2
    · intro n hn
      exact hk n ((mem_addNames _ _ _).mpr (Or.inr hn))

/-! ## The UV scale along a run -/

theorem exec_uv {K : Type} [Field K] (F : RealFns K) (material : OBJECT_MATERIAL K)
    (c : Cmd K) (s r : SceneManager K) (t : ShaderManager K)
    (h : s.m_pShaderManager = some t) (hrun : c.exec F material s = Except.ok r) :
    ∃ t1, r.m_pShaderManager = some t1 ∧
      t1.uniforms "UVscale" = uvAfter (t.uniforms "UVscale") [c] ∧
      r.m_basicMeshes.drawn = s.m_basicMeshes.drawn ++ c.drawCalls t := by
  cases c with
  | setTransformations scaleXYZ x y z positionXYZ =>
    simp only [Cmd.exec, Except.ok.injEq] at hrun
    subst hrun
    rw [SetTransformations_withTable F scaleXYZ x y z positionXYZ s t h]
    exact ⟨_, rfl, by simp [ShaderManager.write, uvAfter], by simp [SceneManager.withTable, Cmd.drawCalls]⟩
  | setShaderColor r g b a =>
    simp only [Cmd.exec, Except.ok.injEq] at hrun
    subst hrun
    rw [SetShaderColor_withTable r g b a s t h]
    exact ⟨_, rfl, by simp [ShaderManager.write, uvAfter], by simp [SceneManager.withTable, Cmd.drawCalls]⟩
  | setShaderMaterial tag =>
    simp only [Cmd.exec] at hrun
    by_cases hne : s.m_objectMaterials = []
    · have hr : r = s := by
        simp [SetShaderMaterial, hne] at hrun
        exact hrun.symm
      subst hr
      exact ⟨t, h, by simp [uvAfter], by simp [Cmd.drawCalls]⟩
    · rw [SetShaderMaterial_withTable tag material s t h hne] at hrun
      simp only [Except.ok.injEq] at hrun
      subst hrun
      exact ⟨_, rfl, by simp [ShaderManager.write, uvAfter], by simp [SceneManager.withTable, Cmd.drawCalls]⟩
  | setShaderTexture tag =>
    simp only [Cmd.exec, Except.ok.injEq] at hrun
    subst hrun
    rw [SetShaderTexture_withTable tag s t h]
    exact ⟨_, rfl, by simp [ShaderManager.write, uvAfter], by simp [SceneManager.withTable, Cmd.drawCalls]⟩
  | setTextureUVScale u v =>
    simp only [Cmd.exec, Except.ok.injEq] at hrun
    subst hrun
    rw [SetTextureUVScale_withTable u v s t h]
    exact ⟨_, rfl, by simp [ShaderManager.write, uvAfter], by simp [SceneManager.withTable, Cmd.drawCalls]⟩
  | sendModel position degrees scale =>
    simp only [Cmd.exec] at hrun
    rw [sendModel_withTable _ s t h] at hrun
    simp only [Except.ok.injEq] at hrun
    subst hrun
    exact ⟨_, rfl, by simp [ShaderManager.write, uvAfter], by simp [SceneManager.withTable, Cmd.drawCalls]⟩
  | draw shape =>
    simp only [Cmd.exec, Except.ok.injEq] at hrun
    subst hrun
    exact ⟨t, h, by simp [uvAfter], by simp [SceneManager.drawMesh, ShapeMeshes.draw, h, Cmd.drawCalls]⟩

theorem uvTrace_cons {K : Type} (current : Option (UniformValue K)) (c : Cmd K)
    (rest : List (Cmd K)) :
    uvTrace current (c :: rest) = c.uvSeen current ++ uvTrace (uvAfter current [c]) rest := by
  cases c <;> simp [uvTrace, uvAfter, Cmd.uvSeen]

theorem uvAfter_cons {K : Type} (current : Option (UniformValue K)) (c : Cmd K)
    (rest : List (Cmd K)) :
    uvAfter current (c :: rest) = uvAfter (uvAfter current [c]) rest := by
  cases c <;> simp [uvAfter]

/-- Along every run that ends without fault, the draws submitted observe the
values of `UVscale` that `uvTrace` lists, and the table ends with the value
`uvAfter` gives. -/
theorem runScript_uv {K : Type} [Field K] (F : RealFns K) (material : OBJECT_MATERIAL K)
    (script : List (Cmd K)) :
    ∀ (s r : SceneManager K) (t : ShaderManager K), s.m_pShaderManager = some t →
      runScript F material script s = Except.ok r →
      ∃ t1 new, r.m_pShaderManager = some t1 ∧
        t1.uniforms "UVscale" = uvAfter (t.uniforms "UVscale") script ∧
        r.m_basicMeshes.drawn = s.m_basicMeshes.drawn ++ new ∧
        (new.map fun d => d.observe "UVscale") = uvTrace (t.uniforms "UVscale") script := by
  induction script with
  | nil =>
    intro s r t h hrun
    simp only [runScript, Except.ok.injEq] at hrun
    subst hrun
    exact ⟨t, [], h, rfl, by simp, rfl⟩
  | cons c rest ih =>
    intro s r t h hrun
    simp only [runScript] at hrun
    cases hq : c.exec F material s with
    | error e =>
      rw [hq] at hrun
      simp [Except.bind] at hrun
    | ok q =>
      rw [hq] at hrun
      simp only [Except.bind] at hrun
      obtain ⟨tq, htq, huv, hdr⟩ := exec_uv F material c s q t h hq
      obtain ⟨t1, new, ht1, huv1, hdr1, hobs⟩ := ih q r tq htq hrun
      refine ⟨t1, c.drawCalls t ++ new, ht1, ?_, ?_, ?_⟩
      · rw [huv1, huv, ← uvAfter_cons]
      · rw [hdr1, hdr, List.append_assoc]
      · rw [uvTrace_cons, List.map_append, hobs, huv]
        congr 1
        cases c <;> simp [DrawCall.observe, Cmd.drawCalls, Cmd.uvSeen]

theorem pushed_tags {K : Type} [Field K] :
    ((DefineObjectMaterials.pushed : List (OBJECT_MATERIAL K)).map fun m => m.tag) =
      ["PlasticMaterial", "AluminumMaterial", "NORMAL", "GlassMaterial", "WaterMaterial",
       "RubberMaterial", "NORMAL"] :=
  rfl

theorem RenderScene_replayable {K : Type} [Field K] :
    replayable
      ["PlasticMaterial", "AluminumMaterial", "NORMAL", "GlassMaterial", "WaterMaterial",
       "RubberMaterial", "NORMAL"] appearanceNames []
      (RenderScene.script : List (Cmd K)) = true := by
  simp [replayable, RenderScene.script, Cmd.admissible, addNames, Cmd.names, appearanceNames]

theorem RenderScene_replayable_uv {K : Type} [Field K] :
    replayable
      ["PlasticMaterial", "AluminumMaterial", "NORMAL", "GlassMaterial", "WaterMaterial",
       "RubberMaterial", "NORMAL"] ("UVscale" :: appearanceNames) ["UVscale"]
      (RenderScene.script : List (Cmd K)) = true := by
  simp [replayable, RenderScene.script, Cmd.admissible, addNames, Cmd.names, appearanceNames]

/-- Two runs of `RenderScene` from states with the same registries, the
material list being the one `DefineObjectMaterials` builds, and with a shader
program attached whose tables agree on `known`: both end without fault, keep
the registries, and submit draws that agree on `observed`. -/
theorem RenderScene_replay {K : Type} [Field K] (F : RealFns K) (m1 m2 : OBJECT_MATERIAL K)
    (observed known : List String) (s1 s2 : SceneManager K) (t1 t2 : ShaderManager K)
    (hmats : s1.m_objectMaterials = DefineObjectMaterials.pushed)
    (hm : s1.m_objectMaterials = s2.m_objectMaterials)
    (hc : s1.m_loadedTextures = s2.m_loadedTextures) (hi : s1.m_textureIDs = s2.m_textureIDs)
    (h1 : s1.m_pShaderManager = some t1) (h2 : s2.m_pShaderManager = some t2)
    (ht : ∀ n ∈ known, t1.uniforms n = t2.uniforms n)
    (hrep : replayable
      ["PlasticMaterial", "AluminumMaterial", "NORMAL", "GlassMaterial", "WaterMaterial",
       "RubberMaterial", "NORMAL"] observed known (RenderScene.script : List (Cmd K)) = true) :
    ∃ r1 r2 new1 new2, RenderScene F m1 s1 = Except.ok r1 ∧
      RenderScene F m2 s2 = Except.ok r2 ∧
      r1.m_basicMeshes.drawn = s1.m_basicMeshes.drawn ++ new1 ∧
      r2.m_basicMeshes.drawn = s2.m_basicMeshes.drawn ++ new2 ∧
      List.Forall₂ (DrawCall.agree observed) new1 new2 ∧
      r1.m_objectMaterials = s1.m_objectMaterials ∧
      r1.m_loadedTextures = s1.m_loadedTextures ∧ r1.m_textureIDs = s1.m_textureIDs ∧
      ∃ u1, r1.m_pShaderManager = some u1 := by
  have h0 : Replay observed known s1.m_basicMeshes.drawn s2.m_basicMeshes.drawn s1 s2 :=
    { count := hc
      ids := hi
      mats := hm
      tables := ⟨t1, t2, h1, h2, ht⟩
      draws := ⟨[], [], by simp, by simp, List.Forall₂.nil⟩ }
  obtain ⟨r1, r2, known1, e1, e2, hr, _, g1, g2, g3⟩ :=
    runScript_replay F m1 m2 _ observed _ _ RenderScene.script known s1 s2 h0
      (by rw [hmats]; exact pushed_tags) hrep
  obtain ⟨new1, new2, d1, d2, hf⟩ := hr.draws
  obtain ⟨u1, _, hu1, _, _⟩ := hr.tables
  exact ⟨r1, r2, new1, new2, by rw [RenderScene_eq_runScript]; exact e1,
    by rw [RenderScene_eq_runScript]; exact e2, d1, d2, hf, g1, g2, g3, u1, hu1⟩

/-- C17 (as amended): with the material list as `DefineObjectMaterials` builds
it, any texture registry and a shader program attached, two runs of
`RenderScene` from any two uniform tables both end without fault and submit
the same sequence of shapes, and each draw observes in both runs the same
model matrix, colour, texture-enabled flag, sampler unit and material fields;
so does each draw of a second consecutive run compared with the first run; and
when the two initial tables hold the same `UVscale`, each draw observes the
same UV scale as well. -/
theorem C17_RenderScene_replays_appearance {K : Type} [Field K] (F : RealFns K)
    (s : SceneManager K) (t1 t2 : ShaderManager K) (m1 m2 m3 : OBJECT_MATERIAL K)
    (hmats : s.m_objectMaterials = DefineObjectMaterials.pushed) :
    ∃ r1 r2 r3 new1 new2 new3,
      RenderScene F m1 (s.withTable t1) = Except.ok r1 ∧
      RenderScene F m2 (s.withTable t2) = Except.ok r2 ∧
      RenderScene F m3 r1 = Except.ok r3 ∧
      r1.m_basicMeshes.drawn = s.m_basicMeshes.drawn ++ new1 ∧
      r2.m_basicMeshes.drawn = s.m_basicMeshes.drawn ++ new2 ∧
      r3.m_basicMeshes.drawn = r1.m_basicMeshes.drawn ++ new3 ∧
      List.Forall₂ (DrawCall.agree appearanceNames) new1 new2 ∧
      List.Forall₂ (DrawCall.agree appearanceNames) new1 new3 ∧
      (t1.uniforms "UVscale" = t2.uniforms "UVscale" →
        List.Forall₂ (DrawCall.agree ("UVscale" :: appearanceNames)) new1 new2) := by
  obtain ⟨r1, r2, new1, new2, e1, e2, d1, d2, hf, g1, g2, g3, u1, hu1⟩ :=
    RenderScene_replay F m1 m2 appearanceNames [] (s.withTable t1) (s.withTable t2) t1 t2
      hmats rfl rfl rfl rfl rfl (fun n hn => absurd hn (List.not_mem_nil n))
      RenderScene_replayable
  obtain ⟨q1, r3, new1b, new3, f1, f3, c1, c3, hf3, _⟩ :=
    RenderScene_replay F m1 m3 appearanceNames [] (s.withTable t1) r1 t1 u1
      hmats g1.symm g2.symm g3.symm rfl hu1 (fun n hn => absurd hn (List.not_mem_nil n))
      RenderScene_replayable
  have hq : q1 = r1 := by
    rw [e1] at f1
    exact (Except.ok.inj f1).symm
  subst hq
  have hnew : new1b = new1 := by
    rw [d1] at c1
    exact (List.append_cancel_left c1).symm
  subst hnew
  refine ⟨q1, r2, r3, new1b, new2, new3, e1, e2, f3, d1, d2, c3, hf, hf3, ?_⟩
  intro huv
  obtain ⟨p1, p2, n1, n2, a1, a2, b1, b2, hfu, _⟩ :=
    RenderScene_replay F m1 m2 ("UVscale" :: appearanceNames) ["UVscale"]
      (s.withTable t1) (s.withTable t2) t1 t2
      hmats rfl rfl rfl rfl rfl
      (fun n hn => by
        rw [List.mem_singleton] at hn
        rw [hn]
        exact huv)
      RenderScene_replayable_uv
  have hp1 : p1 = q1 := by
    rw [e1] at a1
    exact (Except.ok.inj a1).symm
  have hp2 : p2 = r2 := by
    rw [e2] at a2
    exact (Except.ok.inj a2).symm
  subst hp1 hp2
  have hn1 : n1 = new1b := by
    rw [d1] at b1
    exact (List.append_cancel_left b1).symm
  have hn2 : n2 = new2 := by
    rw [d2] at b2
    exact (List.append_cancel_left b2).symm
  subst hn1 hn2
  exact hfu

theorem uvTrace_RenderScene {K : Type} [Field K] (current : Option (UniformValue K)) :
    uvTrace current (RenderScene.script : List (Cmd K)) =
      List.replicate 21 current ++ [some (UniformValue.vec2 ({ x := -1.0, y := 1.0 } : Vec2 K))] := by
  rfl

theorem uvAfter_RenderScene {K : Type} [Field K] (current : Option (UniformValue K)) :
    uvAfter current (RenderScene.script : List (Cmd K)) =
      some (UniformValue.vec2 ({ x := -1.0, y := 1.0 } : Vec2 K)) := by
  rfl

/-- The values of `UVscale` the draws of one run of `RenderScene` observe: the
first 21 draws see the value the table held when the run began, the last one
sees (-1, 1), which is also what the table holds afterwards. -/
theorem RenderScene_uv {K : Type} [Field K] (F : RealFns K) (material : OBJECT_MATERIAL K)
    (s r : SceneManager K) (t : ShaderManager K) (h : s.m_pShaderManager = some t)
    (hrun : RenderScene F material s = Except.ok r) :
    ∃ t1 new, r.m_pShaderManager = some t1 ∧
      t1.uniforms "UVscale" = some (UniformValue.vec2 ({ x := -1.0, y := 1.0 } : Vec2 K)) ∧
      r.m_basicMeshes.drawn = s.m_basicMeshes.drawn ++ new ∧
      (new.map fun d => d.observe "UVscale") =
        List.replicate 21 (t.uniforms "UVscale") ++
          [some (UniformValue.vec2 ({ x := -1.0, y := 1.0 } : Vec2 K))] := by
  rw [RenderScene_eq_runScript] at hrun
  obtain ⟨t1, new, h1, h2, h3, h4⟩ := runScript_uv F material RenderScene.script s r t h hrun
  exact ⟨t1, new, h1, by rw [h2, uvAfter_RenderScene], h3, by rw [h4, uvTrace_RenderScene]⟩

/-- C17 as stated fails on the UV scale: starting from the material list of
`DefineObjectMaterials` and a uniform table with nothing written, the first
21 draws of `RenderScene` observe an unset `UVscale` and only the last one
observes (-1, 1); in a second consecutive run all 22 draws observe (-1, 1). -/
theorem C17_UVscale_counterexample :
    ∃ r1 r2 : SceneManager ℝ,
      RenderScene ⟨Real.cos, Real.sin, fun t => (Real.sqrt t)⁻¹, Real.pi⟩
        DefineObjectMaterials.normal_Material_shade
        ((DefineObjectMaterials (SceneManager.empty ℝ none)).withTable (ShaderManager.unset ℝ))
        = Except.ok r1 ∧
      RenderScene ⟨Real.cos, Real.sin, fun t => (Real.sqrt t)⁻¹, Real.pi⟩
        DefineObjectMaterials.normal_Material_shade r1 = Except.ok r2 ∧
      (r1.m_basicMeshes.drawn.map fun d => d.observe "UVscale") =
        List.replicate 21 none ++ [some (UniformValue.vec2 ({ x := -1.0, y := 1.0 } : Vec2 ℝ))] ∧
      ((r2.m_basicMeshes.drawn.drop 22).map fun d => d.observe "UVscale") =
        List.replicate 22 (some (UniformValue.vec2 ({ x := -1.0, y := 1.0 } : Vec2 ℝ))) := by
  obtain ⟨r1, _, _, _, e1, _, _, _, _, g1, g2, g3, u1, hu1⟩ :=
    RenderScene_replay (⟨Real.cos, Real.sin, fun t => (Real.sqrt t)⁻¹, Real.pi⟩ : RealFns ℝ)
      DefineObjectMaterials.normal_Material_shade DefineObjectMaterials.normal_Material_shade
      appearanceNames []
      ((DefineObjectMaterials (SceneManager.empty ℝ none)).withTable (ShaderManager.unset ℝ))
      ((DefineObjectMaterials (SceneManager.empty ℝ none)).withTable (ShaderManager.unset ℝ))
      (ShaderManager.unset ℝ) (ShaderManager.unset ℝ) rfl rfl rfl rfl rfl rfl
      (fun n hn => absurd hn (List.not_mem_nil n)) RenderScene_replayable
  obtain ⟨r2, _, _, _, e2, _, _, _, _, _⟩ :=
    RenderScene_replay (⟨Real.cos, Real.sin, fun t => (Real.sqrt t)⁻¹, Real.pi⟩ : RealFns ℝ)
      DefineObjectMaterials.normal_Material_shade DefineObjectMaterials.normal_Material_shade
      appearanceNames [] r1 r1 u1 u1 (g1.trans rfl) rfl rfl rfl hu1 hu1
      (fun n hn => absurd hn (List.not_mem_nil n)) RenderScene_replayable
  obtain ⟨t1, new1, ht1, huv1, hd1, ho1⟩ := RenderScene_uv _ _ _ r1 (ShaderManager.unset ℝ) rfl e1
  obtain ⟨_, new2, _, _, hd2, ho2⟩ := RenderScene_uv _ _ r1 r2 t1 ht1 e2
  have hd1b : r1.m_basicMeshes.drawn = new1 := by
    rw [hd1]
    rfl
  have hlen : r1.m_basicMeshes.drawn.length = 22 := by
    rw [hd1b, ← List.length_map new1 fun d => d.observe "UVscale", ho1]
    rfl
  refine ⟨r1, r2, e1, e2, ?_, ?_⟩
  · rw [hd1b, ho1]
    rfl
  · rw [hd2, List.drop_left' hlen, ho2, huv1]
    rfl

/-- C17 (as amended) at the material list of `DefineObjectMaterials` with no
texture registered, once from a table with nothing written and once from a
table holding `UVscale = (1, 1)`: both runs end without fault and their draws
agree on shape, model matrix, colour, texture flag, sampler and material. -/
theorem C17_RenderScene_replays_appearance_witness :
    (DefineObjectMaterials (SceneManager.empty ℝ none)).m_objectMaterials =
      DefineObjectMaterials.pushed ∧
    ∃ r1 r2 : SceneManager ℝ,
      RenderScene ⟨Real.cos, Real.sin, fun t => (Real.sqrt t)⁻¹, Real.pi⟩
        DefineObjectMaterials.normal_Material_shade
        ((DefineObjectMaterials (SceneManager.empty ℝ none)).withTable (ShaderManager.unset ℝ))
        = Except.ok r1 ∧
      RenderScene ⟨Real.cos, Real.sin, fun t => (Real.sqrt t)⁻¹, Real.pi⟩
        DefineObjectMaterials.glassMaterial
        ((DefineObjectMaterials (SceneManager.empty ℝ none)).withTable
          ((ShaderManager.unset ℝ).write "UVscale"
            (UniformValue.vec2 ({ x := 1, y := 1 } : Vec2 ℝ))))
        = Except.ok r2 ∧
      List.Forall₂ (DrawCall.agree appearanceNames) r1.m_basicMeshes.drawn
        r2.m_basicMeshes.drawn := by
  refine ⟨rfl, ?_⟩
  obtain ⟨r1, r2, _, new1, new2, _, e1, e2, _, d1, d2, _, hf, _, _⟩ :=
    C17_RenderScene_replays_appearance
      (⟨Real.cos, Real.sin, fun t => (Real.sqrt t)⁻¹, Real.pi⟩ : RealFns ℝ)
      (DefineObjectMaterials (SceneManager.empty ℝ none)) (ShaderManager.unset ℝ)
      ((ShaderManager.unset ℝ).write "UVscale"
        (UniformValue.vec2 ({ x := 1, y := 1 } : Vec2 ℝ)))
      DefineObjectMaterials.normal_Material_shade DefineObjectMaterials.glassMaterial
      DefineObjectMaterials.normal_Material_shade rfl
  refine ⟨r1, r2, e1, e2, ?_⟩
  have h1 : r1.m_basicMeshes.drawn = new1 := by rw [d1]; rfl
  have h2 : r2.m_basicMeshes.drawn = new2 := by rw [d2]; rfl
  rw [h1, h2]
  exact hf

/-! ## The identity transform and the matrix built by hand -/

theorem Spec_Translate_zero {K : Type} [Field K] :
    Spec.Translate ({ x := 0, y := 0, z := 0 } : Vec3 K) = 1 := by
  ext i j
  fin_cases i <;> fin_cases j <;>
    simp [Spec.Translate, Matrix.one_apply, Matrix.vecHead, Matrix.vecTail]

theorem Spec_Scale_one {K : Type} [Field K] :
    Spec.Scale ({ x := 1, y := 1, z := 1 } : Vec3 K) = 1 := by
  ext i j
  fin_cases i <;> fin_cases j <;>
    simp [Spec.Scale, Matrix.one_apply, Matrix.vecHead, Matrix.vecTail]

/-- With `cos 0 = 1`, `sin 0 = 0` and `inversesqrt 1 = 1`, which hold exactly,
the matrix composed for unit scale, zero rotation and zero position is the
identity. -/
theorem modelView_identity {K : Type} [Field K] (F : RealFns K)
    (hs : F.inversesqrt 1 = 1) (hc : F.cos 0 = 1) (hn : F.sin 0 = 0) :
    SetTransformations.modelView F { x := 1, y := 1, z := 1 } 0 0 0 { x := 0, y := 0, z := 0 }
      = 1 := by
  rw [modelView_eq_Compose F hs]
  simp only [Spec.Compose, zero_mul, zero_div, Spec_Translate_zero, Spec_Scale_one,
    Spec_Rx_full_turn F.cos F.sin 0 hc hn, Spec_Ry_full_turn F.cos F.sin 0 hc hn,
    Spec_Rz_full_turn F.cos F.sin 0 hc hn, mul_one]

/-- C11: over the real numbers `SetTransformations` with scale (1, 1, 1),
rotation (0, 0, 0) degrees and position (0, 0, 0) writes exactly the 4x4
identity matrix to the uniform `model` (and nothing else). -/
theorem C11_SetTransformations_identity (s : SceneManager ℝ) :
    SetTransformations ⟨Real.cos, Real.sin, fun t => (Real.sqrt t)⁻¹, Real.pi⟩
        { x := 1, y := 1, z := 1 } 0 0 0 { x := 0, y := 0, z := 0 } s =
      { s with
        m_pShaderManager := s.m_pShaderManager.map fun sh =>
          { uniforms := fun name =>
              if name = "model" then some (UniformValue.mat4 (1 : Mat4 ℝ))
              else sh.uniforms name } } := by
  have hcore := modelView_identity
    (⟨Real.cos, Real.sin, fun t => (Real.sqrt t)⁻¹, Real.pi⟩ : RealFns ℝ)
    real_inversesqrt_one Real.cos_zero Real.sin_zero
  obtain ⟨sh, n, ids, hb, mats, gl, bufs, meshes⟩ := s
  cases sh with
  | none => rfl
  | some sh =>
    simp only [SetTransformations, hcore, ShaderManager.setMat4Value,
      ShaderManager.write, g_ModelName, Option.map_some']

theorem glm_scaleM_eq {K : Type} [Field K] (m : Mat4 K) (v : Vec3 K) :
    glm.scaleM m v = m * Spec.Scale v := by
  ext i j
  fin_cases j <;>
    simp [glm.scaleM, Spec.Scale, Matrix.mul_apply, Fin.sum_univ_four, Matrix.vecHead,
      Matrix.vecTail]

theorem glm_rotateM_eq {K : Type} [Field K] (F : RealFns K) (m : Mat4 K) (angle : K)
    (v : Vec3 K) : glm.rotateM F m angle v = m * glm.rotate F angle v := by
  ext i j
  fin_cases j <;>
    simp [glm.rotateM, glm.rotate, Matrix.mul_apply, Fin.sum_univ_four, Matrix.one_apply]

/-- The matrix `RenderScene` builds by hand is `T · Rx · S`. -/
theorem modelMatrix_eq {K : Type} [Field K] (F : RealFns K) (hs : F.inversesqrt 1 = 1)
    (position : Vec3 K) (degrees : K) (scale : Vec3 K) :
    RenderScene.modelMatrix F position degrees scale =
      Spec.Translate position * Spec.Rx F.cos F.sin (degrees * F.pi / 180) *
        Spec.Scale scale := by
  simp only [RenderScene.modelMatrix, glm_scaleM_eq, glm_rotateM_eq, glm_rotate_x_eq F hs,
    glm.radians, mul_div_assoc]
  rw [show glm.translateM (1 : Mat4 K) position = glm.translate position from rfl,
    glm_translate_eq]

/-- C20: over the real numbers the matrix `RenderScene` builds by hand for the
AirPods case (identity, `glm::translate`, `glm::rotate` about X, `glm::scale`)
is the matrix `SetTransformations` composes for the same scale, the same
angle about X with zero angles about Y and Z, and the same position; both are
`T · Rx · S`.  This holds for every position, angle and scale, in particular
for `caseBasePosition`, 270 degrees and `sphereScale`. -/
theorem C20_hand_built_matrix_equals_SetTransformations (position : Vec3 ℝ) (degrees : ℝ)
    (scale : Vec3 ℝ) :
    RenderScene.modelMatrix ⟨Real.cos, Real.sin, fun t => (Real.sqrt t)⁻¹, Real.pi⟩
        position degrees scale =
      SetTransformations.modelView ⟨Real.cos, Real.sin, fun t => (Real.sqrt t)⁻¹, Real.pi⟩
        scale degrees 0 0 position ∧
    RenderScene.modelMatrix ⟨Real.cos, Real.sin, fun t => (Real.sqrt t)⁻¹, Real.pi⟩
        { x := 3.5, y := 0.65, z := 9.2 } 270.0
        { x := 0.90 / 2.0, y := 0.50 / 2.0, z := 0.15 / 2.0 } =
      Spec.Translate ({ x := 3.5, y := 0.65, z := 9.2 } : Vec3 ℝ) *
        Spec.Rx Real.cos Real.sin (270.0 * Real.pi / 180) *
        Spec.Scale ({ x := 0.90 / 2.0, y := 0.50 / 2.0, z := 0.15 / 2.0 } : Vec3 ℝ) := by
  have key : ∀ (p : Vec3 ℝ) (d : ℝ) (sc : Vec3 ℝ),
      RenderScene.modelMatrix ⟨Real.cos, Real.sin, fun t => (Real.sqrt t)⁻¹, Real.pi⟩ p d sc =
        Spec.Translate p * Spec.Rx Real.cos Real.sin (d * Real.pi / 180) * Spec.Scale sc :=
    fun p d sc => modelMatrix_eq
      (⟨Real.cos, Real.sin, fun t => (Real.sqrt t)⁻¹, Real.pi⟩ : RealFns ℝ)
      real_inversesqrt_one p d sc
  refine ⟨?_, key _ _ _⟩
  rw [key, modelView_eq_Compose
    (⟨Real.cos, Real.sin, fun t => (Real.sqrt t)⁻¹, Real.pi⟩ : RealFns ℝ)
    real_inversesqrt_one]
  simp only [Spec.Compose, zero_mul, zero_div,
    Spec_Ry_full_turn Real.cos Real.sin 0 Real.cos_zero Real.sin_zero,
    Spec_Rz_full_turn Real.cos Real.sin 0 Real.cos_zero Real.sin_zero, mul_one]

/-! ## The shader-state bridge -/

/-- C12: with a shader program attached, `SetShaderTexture tag` writes 1
(`true`) to `bUseTexture` and the slot `FindTextureSlot tag`, the unit index,
to the sampler `objectTexture`; every other uniform and every other part of
the state, the registry included, is as before.  The value written is `-1`
when no registered entry carries the tag, and otherwise the index of an entry
that carries it, not that entry's handle. -/
theorem C12_SetShaderTexture_writes_flag_and_unit {K : Type} (tag : String)
    (s : SceneManager K) (sh : ShaderManager K) :
    SetShaderTexture tag { s with m_pShaderManager := some sh } =
      { s with
        m_pShaderManager := some
          { uniforms := fun name =>
              if name = "objectTexture" then
                some (UniformValue.sampler2D (FindTextureSlot s tag))
              else if name = "bUseTexture" then some (UniformValue.int 1)
              else sh.uniforms name } } ∧
    ((∀ j : Fin 16, j.val < s.m_loadedTextures → (s.m_textureIDs j).tag ≠ tag) →
      FindTextureSlot s tag = -1) ∧
    (FindTextureSlot s tag ≠ -1 →
      ∃ i : Fin 16, FindTextureSlot s tag = (i.val : Int) ∧ i.val < s.m_loadedTextures ∧
        (s.m_textureIDs i).tag = tag) := by
  have hslot : FindTextureSlot ({ s with m_pShaderManager := some sh } : SceneManager K) tag =
      FindTextureSlot s tag :=
    FindTextureSlot_congr _ s tag rfl rfl
  have key := FindTextureSlot_loop_spec s tag s.m_loadedTextures 0 rfl
  refine ⟨?_, ?_, ?_⟩
  · rw [SetShaderTexture_withTable tag _ sh rfl, hslot]
    rfl
  · intro hnone
    rcases key with ⟨i, _, _, h3, h4, _⟩ | ⟨h1, _⟩
    · exact absurd h4 (hnone i h3)
    · exact h1
  · intro hne
    rcases key with ⟨i, h1, _, h3, h4, _⟩ | ⟨h1, _⟩
    · exact ⟨i, h1, h3, h4⟩
    · exact absurd h1 hne

/-- C13: with a shader program attached, `SetShaderColor r g b a` writes 0
(`false`) to `bUseTexture` and exactly (r, g, b, a) to `objectColor`; every
other uniform and every other part of the state is as before.  So after
`SetShaderTexture tag` followed by `SetShaderColor r g b a` the texture flag
is 0 while the sampler still holds `FindTextureSlot tag`. -/
theorem C13_SetShaderColor_writes_flag_and_color {K : Type} (r g b a : K) (tag : String)
    (s : SceneManager K) (sh : ShaderManager K) :
    SetShaderColor r g b a { s with m_pShaderManager := some sh } =
      { s with
        m_pShaderManager := some
          { uniforms := fun name =>
              if name = "objectColor" then
                some (UniformValue.vec4 { r := r, g := g, b := b, a := a })
              else if name = "bUseTexture" then some (UniformValue.int 0)
              else sh.uniforms name } } ∧
    ∃ sh1, (SetShaderColor r g b a
        (SetShaderTexture tag { s with m_pShaderManager := some sh })).m_pShaderManager =
        some sh1 ∧
      sh1.uniforms "bUseTexture" = some (UniformValue.int 0) ∧
      sh1.uniforms "objectTexture" = some (UniformValue.sampler2D (FindTextureSlot s tag)) ∧
      sh1.uniforms "objectColor" =
        some (UniformValue.vec4 { r := r, g := g, b := b, a := a }) := by
  have hslot : FindTextureSlot ({ s with m_pShaderManager := some sh } : SceneManager K) tag =
      FindTextureSlot s tag :=
    FindTextureSlot_congr _ s tag rfl rfl
  refine ⟨?_, ?_⟩
  · rw [SetShaderColor_withTable r g b a _ sh rfl]
    rfl
  · rw [SetShaderTexture_withTable tag _ sh rfl, SetShaderColor_withTable r g b a _ _ rfl,
      hslot]
    refine ⟨_, rfl, ?_, ?_, ?_⟩ <;> simp [ShaderManager.write]

/-! ## First match in the material list -/

/-- `FindMaterial` on a non-empty list: `true`, with the five fields of the
first entry carrying the tag when there is one, and the output untouched
otherwise. -/
theorem FindMaterial_eq_find {K : Type} (s : SceneManager K) (tag : String)
    (material : OBJECT_MATERIAL K) (hne : s.m_objectMaterials ≠ []) :
    FindMaterial s tag material =
      (true,
        match s.m_objectMaterials.find? (fun m => decide (m.tag = tag)) with
        | some e =>
          { material with
            ambientColor := e.ambientColor
            ambientStrength := e.ambientStrength
            diffuseColor := e.diffuseColor
            specularColor := e.specularColor
            shininess := e.shininess }
        | none => material) := by
  have hlen : s.m_objectMaterials.length ≠ 0 := by
    simpa [List.length_eq_zero] using hne
  have l := FindMaterial_loop_find s.m_objectMaterials tag material _ 0 rfl
  rw [List.drop_zero] at l
  simp only [FindMaterial, hlen, if_false, l]
  cases s.m_objectMaterials.find? (fun m => decide (m.tag = tag)) <;> rfl

/-- C14: when at least one entry of the material list carries the requested
tag, `FindMaterial` returns `true` and sets the five fields of the output to
those of the first such entry in insertion order (its tag field is left as it
was); and appending a material whose tag is already present changes the
result of `FindMaterial` for no tag and no output material. -/
theorem C14_FindMaterial_first_match {K : Type} (s : SceneManager K) (tag : String)
    (material : OBJECT_MATERIAL K)
    (h : ∃ m ∈ s.m_objectMaterials, m.tag = tag) :
    (∃ before e after, s.m_objectMaterials = before ++ e :: after ∧
      (∀ m ∈ before, m.tag ≠ tag) ∧ e.tag = tag ∧
      FindMaterial s tag material =
        (true,
          { material with
            ambientColor := e.ambientColor
            ambientStrength := e.ambientStrength
            diffuseColor := e.diffuseColor
            specularColor := e.specularColor
            shininess := e.shininess })) ∧
    (∀ dup : OBJECT_MATERIAL K, dup.tag = tag →
      ∀ (tag2 : String) (material2 : OBJECT_MATERIAL K),
        FindMaterial { s with m_objectMaterials := s.m_objectMaterials ++ [dup] } tag2 material2
          = FindMaterial s tag2 material2) := by
  obtain ⟨m0, hm0, hm0tag⟩ := h
  have hne : s.m_objectMaterials ≠ [] := by
    intro h0
    rw [h0] at hm0
    exact absurd hm0 (List.not_mem_nil m0)
  constructor
  · cases hf : s.m_objectMaterials.find? (fun m => decide (m.tag = tag)) with
    | none =>
      have := List.find?_eq_none.mp hf m0 hm0
      simp [hm0tag] at this
    | some e =>
      obtain ⟨he, before, after, hsplit, hbefore⟩ := List.find?_eq_some.mp hf
      refine ⟨before, e, after, hsplit, ?_, by simpa using he, ?_⟩
      · intro m hm
        simpa using hbefore m hm
      · rw [FindMaterial_eq_find s tag material hne, hf]
  · intro dup hdup tag2 material2
    have hne2 : s.m_objectMaterials ++ [dup] ≠ [] := by simp
    rw [FindMaterial_eq_find s tag2 material2 hne,
      FindMaterial_eq_find { s with m_objectMaterials := s.m_objectMaterials ++ [dup] }
        tag2 material2 hne2]
    have hfind : (s.m_objectMaterials ++ [dup]).find? (fun m => decide (m.tag = tag2)) =
        s.m_objectMaterials.find? (fun m => decide (m.tag = tag2)) := by
      rw [List.find?_append]
      cases hf : s.m_objectMaterials.find? (fun m => decide (m.tag = tag2)) with
      | some e => rfl
      | none =>
        have hno := List.find?_eq_none.mp hf m0 hm0
        have hne12 : ¬ dup.tag = tag2 := by
          rw [hdup, ← hm0tag]
          simpa using hno
        simp [List.find?, hne12]
    show (true, _) = (true, _)
    rw [hfind]

/-- C14 at the list `DefineObjectMaterials` builds and the tag `NORMAL`, which
it pushes twice: the lookup succeeds. -/
theorem C14_FindMaterial_first_match_witness :
    (∃ m ∈ (DefineObjectMaterials (SceneManager.empty ℚ none)).m_objectMaterials,
      m.tag = "NORMAL") ∧
    (FindMaterial (DefineObjectMaterials (SceneManager.empty ℚ none)) "NORMAL"
      (sampleMaterial "X" 1)).1 = true :=
  ⟨⟨DefineObjectMaterials.normal_Material_shade, by
      simp [DefineObjectMaterials, DefineObjectMaterials.pushed, SceneManager.empty], rfl⟩,
    by
      obtain ⟨_, _, _, _, _, _, h⟩ :=
        (C14_FindMaterial_first_match (DefineObjectMaterials (SceneManager.empty ℚ none))
          "NORMAL" (sampleMaterial "X" 1)
          ⟨DefineObjectMaterials.normal_Material_shade, by
            simp [DefineObjectMaterials, DefineObjectMaterials.pushed, SceneManager.empty],
            rfl⟩).1
      rw [h]⟩

/-! ## The materials `RenderScene` asks for -/

/-- With a shader program attached and the tag found, `SetShaderMaterial`
writes the five fields of the first entry carrying the tag, whatever the
local material held. -/
theorem SetShaderMaterial_of_find {K : Type} (tag : String) (material : OBJECT_MATERIAL K)
    (s : SceneManager K) (t : ShaderManager K) (e : OBJECT_MATERIAL K)
    (h : s.m_pShaderManager = some t)
    (hf : s.m_objectMaterials.find? (fun m => decide (m.tag = tag)) = some e) :
    SetShaderMaterial tag material s = Except.ok (s.withTable (t.withMaterial e)) := by
  have hne : s.m_objectMaterials ≠ [] := by
    intro h0
    rw [h0] at hf
    simp at hf
  rw [SetShaderMaterial_withTable tag material s t h hne,
    FindMaterial_eq_find s tag material hne, hf]
  rfl

theorem materialTags_RenderScene {K : Type} [Field K] :
    materialTags (RenderScene.script : List (Cmd K)) =
      ["NORMAL", "NORMAL", "NORMAL", "NORMAL", "NORMAL", "NORMAL", "AluminumMaterial",
       "PlasticMaterial", "RubberMaterial", "PlasticMaterial", "PlasticMaterial",
       "RubberMaterial", "PlasticMaterial", "GlassMaterial", "GlassMaterial", "WaterMaterial",
       "NORMAL", "PlasticMaterial", "AluminumMaterial", "RubberMaterial", "PlasticMaterial",
       "PlasticMaterial"] := by
  rfl

/-- C18: starting from an empty material list, `DefineObjectMaterials` leaves
the list plastic, aluminum, normal, glass, water, rubber, normal; the tags
`RenderScene` passes to `SetShaderMaterial` are exactly `NORMAL`,
`AluminumMaterial`, `PlasticMaterial`, `RubberMaterial`, `GlassMaterial` and
`WaterMaterial`; and for each of them, with a shader program attached,
`SetShaderMaterial` writes the five material uniforms with the values defined
for the first entry of that tag, whatever the local material held before. -/
theorem C18_RenderScene_material_tags_defined {K : Type} [Field K] (s : SceneManager K)
    (sh : ShaderManager K) (hempty : s.m_objectMaterials = []) :
    (DefineObjectMaterials s).m_objectMaterials = DefineObjectMaterials.pushed ∧
    (∀ tag, tag ∈ materialTags (RenderScene.script : List (Cmd K)) ↔
      tag ∈ ["NORMAL", "AluminumMaterial", "PlasticMaterial", "RubberMaterial",
        "GlassMaterial", "WaterMaterial"]) ∧
    (∀ tag ∈ materialTags (RenderScene.script : List (Cmd K)),
      ∃ m ∈ (DefineObjectMaterials s).m_objectMaterials, m.tag = tag) ∧
    ∀ material : OBJECT_MATERIAL K,
      SetShaderMaterial "NORMAL" material ((DefineObjectMaterials s).withTable sh) =
        Except.ok ((DefineObjectMaterials s).withTable
          (sh.withMaterial DefineObjectMaterials.normal_Material_shade)) ∧
      SetShaderMaterial "AluminumMaterial" material ((DefineObjectMaterials s).withTable sh) =
        Except.ok ((DefineObjectMaterials s).withTable
          (sh.withMaterial DefineObjectMaterials.aluminumMaterial)) ∧
      SetShaderMaterial "PlasticMaterial" material ((DefineObjectMaterials s).withTable sh) =
        Except.ok ((DefineObjectMaterials s).withTable
          (sh.withMaterial DefineObjectMaterials.plasticMaterial)) ∧
      SetShaderMaterial "RubberMaterial" material ((DefineObjectMaterials s).withTable sh) =
        Except.ok ((DefineObjectMaterials s).withTable
          (sh.withMaterial DefineObjectMaterials.rubberMaterial)) ∧
      SetShaderMaterial "GlassMaterial" material ((DefineObjectMaterials s).withTable sh) =
        Except.ok ((DefineObjectMaterials s).withTable
          (sh.withMaterial DefineObjectMaterials.glassMaterial)) ∧
      SetShaderMaterial "WaterMaterial" material ((DefineObjectMaterials s).withTable sh) =
        Except.ok ((DefineObjectMaterials s).withTable
          (sh.withMaterial DefineObjectMaterials.waterMaterial)) := by
  have hlist : (DefineObjectMaterials s).m_objectMaterials = DefineObjectMaterials.pushed := by
    simp [DefineObjectMaterials, hempty]
  have htags : ∀ tag, tag ∈ materialTags (RenderScene.script : List (Cmd K)) ↔
      tag ∈ ["NORMAL", "AluminumMaterial", "PlasticMaterial", "RubberMaterial",
        "GlassMaterial", "WaterMaterial"] := by
    intro tag
    rw [materialTags_RenderScene]
    simp only [List.mem_cons, List.mem_singleton, List.not_mem_nil, or_false]
    tauto
  have hfind : ∀ (tag : String) (e : OBJECT_MATERIAL K),
      (DefineObjectMaterials.pushed : List (OBJECT_MATERIAL K)).find?
          (fun m => decide (m.tag = tag)) = some e →
      ∀ material, SetShaderMaterial tag material ((DefineObjectMaterials s).withTable sh) =
        Except.ok ((DefineObjectMaterials s).withTable (sh.withMaterial e)) := by
    intro tag e he material
    exact SetShaderMaterial_of_find tag material _ sh e rfl
      (by rw [show ((DefineObjectMaterials s).withTable sh).m_objectMaterials =
            (DefineObjectMaterials s).m_objectMaterials from rfl, hlist]; exact he)
  refine ⟨hlist, htags, ?_, ?_⟩
  · intro tag htag
    rw [hlist]
    have := (htags tag).mp htag
    simp only [List.mem_cons, List.mem_singleton, List.not_mem_nil, or_false] at this
    rcases this with h | h | h | h | h | h <;> subst h
    · exact ⟨DefineObjectMaterials.normal_Material_shade,
        by simp [DefineObjectMaterials.pushed], rfl⟩
    · exact ⟨DefineObjectMaterials.aluminumMaterial,
        by simp [DefineObjectMaterials.pushed], rfl⟩
    · exact ⟨DefineObjectMaterials.plasticMaterial,
        by simp [DefineObjectMaterials.pushed], rfl⟩
    · exact ⟨DefineObjectMaterials.rubberMaterial,
        by simp [DefineObjectMaterials.pushed], rfl⟩
    · exact ⟨DefineObjectMaterials.glassMaterial,
        by simp [DefineObjectMaterials.pushed], rfl⟩
    · exact ⟨DefineObjectMaterials.waterMaterial,
        by simp [DefineObjectMaterials.pushed], rfl⟩
  · intro material
    refine ⟨hfind _ _ ?_ material, hfind _ _ ?_ material, hfind _ _ ?_ material,
      hfind _ _ ?_ material, hfind _ _ ?_ material, hfind _ _ ?_ material⟩ <;>
    simp [DefineObjectMaterials.pushed, List.find?, DefineObjectMaterials.plasticMaterial,
      DefineObjectMaterials.aluminumMaterial, DefineObjectMaterials.normal_Material_shade,
      DefineObjectMaterials.glassMaterial, DefineObjectMaterials.waterMaterial,
      DefineObjectMaterials.rubberMaterial]

/-- C18 at the empty scene manager over the rationals. -/
theorem C18_RenderScene_material_tags_defined_witness :
    (SceneManager.empty ℚ none).m_objectMaterials = [] ∧
    (DefineObjectMaterials (SceneManager.empty ℚ none)).m_objectMaterials =
      DefineObjectMaterials.pushed :=
  ⟨rfl, (C18_RenderScene_material_tags_defined (SceneManager.empty ℚ none)
    (ShaderManager.unset ℚ) rfl).1⟩

/-! ## Lookups after a registration and after `BindGLTextures` -/

theorem FindTextureID_loop_ge {K : Type} (s : SceneManager K) (tag : String) (index : Nat)
    (h : s.m_loadedTextures ≤ index) : FindTextureID.loop s tag index = -1 := by
  rw [FindTextureID.loop]
  simp [Nat.not_lt.mpr h]

theorem FindTextureID_loop_hit {K : Type} (s : SceneManager K) (tag : String) (index : Nat)
    (h : index < s.m_loadedTextures)
    (ht : (s.m_textureIDs ⟨index, Nat.lt_of_lt_of_le h s.inBounds⟩).tag = tag) :
    FindTextureID.loop s tag index =
      GLuint.toInt (s.m_textureIDs ⟨index, Nat.lt_of_lt_of_le h s.inBounds⟩).ID := by
  rw [FindTextureID.loop]
  simp [h, ht]

theorem FindTextureID_loop_miss {K : Type} (s : SceneManager K) (tag : String) (index : Nat)
    (h : index < s.m_loadedTextures)
    (ht : (s.m_textureIDs ⟨index, Nat.lt_of_lt_of_le h s.inBounds⟩).tag ≠ tag) :
    FindTextureID.loop s tag index = FindTextureID.loop s tag (index + 1) := by
  rw [FindTextureID.loop]
  simp [h, ht]

/-- The loops of `FindTextureSlot` and `FindTextureID` stop at the same entry:
either both stop at a slot `i` that carries the tag, the one returning `i`
and the other the handle of slot `i` read as an `int`, or both return `-1`. -/
theorem FindTexture_loops_joint {K : Type} (s : SceneManager K) (tag : String) :
    ∀ (n index : Nat), s.m_loadedTextures - index = n →
      (∃ i : Fin 16, FindTextureSlot.loop s tag index = (i.val : Int) ∧
          FindTextureID.loop s tag index = GLuint.toInt (s.m_textureIDs i).ID ∧
          i.val < s.m_loadedTextures ∧ (s.m_textureIDs i).tag = tag) ∨
      (FindTextureSlot.loop s tag index = -1 ∧ FindTextureID.loop s tag index = -1 ∧
        ∀ j : Fin 16, index ≤ j.val → j.val < s.m_loadedTextures →
          (s.m_textureIDs j).tag ≠ tag) := by
  intro n
  induction n with
  | zero =>
    intro index hn
    right
    refine ⟨FindTextureSlot_loop_ge s tag index (by omega),
      FindTextureID_loop_ge s tag index (by omega), ?_⟩
    intro j h1 h2
    omega
  | succ n ih =>
    intro index hn
    have hlt : index < s.m_loadedTextures := by omega
    by_cases ht : (s.m_textureIDs ⟨index, Nat.lt_of_lt_of_le hlt s.inBounds⟩).tag = tag
    · left
      exact ⟨⟨index, Nat.lt_of_lt_of_le hlt s.inBounds⟩,
        FindTextureSlot_loop_hit s tag index hlt ht,
        FindTextureID_loop_hit s tag index hlt ht, hlt, ht⟩
    · rw [FindTextureSlot_loop_miss s tag index hlt ht,
        FindTextureID_loop_miss s tag index hlt ht]
      rcases ih (index + 1) (by omega) with h | ⟨h1, h2, h3⟩
      · exact Or.inl h
      · right
        refine ⟨h1, h2, ?_⟩
        intro j hj1 hj2
        by_cases hj : index + 1 ≤ j.val
        · exact h3 j hj hj2
        · have hjeq : j = ⟨index, Nat.lt_of_lt_of_le hlt s.inBounds⟩ :=
            Fin.ext (by simp; omega)
          rw [hjeq]
          exact ht

theorem FindTextureID_loop_congr {K : Type} (s1 s2 : SceneManager K) (tag : String)
    (hc : s1.m_loadedTextures = s2.m_loadedTextures) (hi : s1.m_textureIDs = s2.m_textureIDs) :
    ∀ (n index : Nat), s1.m_loadedTextures - index = n →
      FindTextureID.loop s1 tag index = FindTextureID.loop s2 tag index := by
  intro n
  induction n with
  | zero =>
    intro index hn
    rw [FindTextureID_loop_ge s1 tag index (by omega),
      FindTextureID_loop_ge s2 tag index (by omega)]
  | succ n ih =>
    intro index hn
    have h1 : index < s1.m_loadedTextures := by omega
    have h2 : index < s2.m_loadedTextures := by omega
    by_cases ht : (s1.m_textureIDs ⟨index, Nat.lt_of_lt_of_le h1 s1.inBounds⟩).tag = tag
    · have ht2 : (s2.m_textureIDs ⟨index, Nat.lt_of_lt_of_le h2 s2.inBounds⟩).tag = tag := by
        rw [← hi]; exact ht
      rw [FindTextureID_loop_hit s1 tag index h1 ht,
        FindTextureID_loop_hit s2 tag index h2 ht2, hi]
    · have ht2 : (s2.m_textureIDs ⟨index, Nat.lt_of_lt_of_le h2 s2.inBounds⟩).tag ≠ tag := by
        rw [← hi]; exact ht
      rw [FindTextureID_loop_miss s1 tag index h1 ht,
        FindTextureID_loop_miss s2 tag index h2 ht2]
      exact ih (index + 1) (by omega)

/-- `FindTextureID` depends on the count and the table only. -/
theorem FindTextureID_congr {K : Type} (s1 s2 : SceneManager K) (tag : String)
    (hc : s1.m_loadedTextures = s2.m_loadedTextures) (hi : s1.m_textureIDs = s2.m_textureIDs) :
    FindTextureID s1 tag = FindTextureID s2 tag :=
  FindTextureID_loop_congr s1 s2 tag hc hi _ 0 rfl

/-- C15: for every registry with count `n < 16`, every tag and every readable
3- or 4-channel image, `CreateGLTexture` succeeds and afterwards
`FindTextureSlot tag` lies in `[0, n + 1)`, below the new count.  The lookups
`FindTextureSlot` and `FindTextureID` return a value and write no member, and
the value is a function of the count and the entries alone: on every state
with the same count and entries, for every tag, they return the same value. -/
theorem C15_registered_tag_resolves_to_stable_unit {K : Type}
    (stbi_load : String → Option Image) (filename tag : String) (image : Image)
    (s : SceneManager K) (hn : s.m_loadedTextures < 16)
    (hread : stbi_load filename = some image)
    (hch : image.colorChannels = 3 ∨ image.colorChannels = 4) :
    ∃ s1, CreateGLTexture stbi_load filename tag s = Except.ok (true, s1) ∧
      s1.m_loadedTextures = s.m_loadedTextures + 1 ∧
      0 ≤ FindTextureSlot s1 tag ∧
      FindTextureSlot s1 tag < (s.m_loadedTextures : Int) + 1 ∧
      ∀ s2 : SceneManager K, s2.m_loadedTextures = s1.m_loadedTextures →
        s2.m_textureIDs = s1.m_textureIDs →
        ∀ tag2 : String, FindTextureSlot s2 tag2 = FindTextureSlot s1 tag2 ∧
          FindTextureID s2 tag2 = FindTextureID s1 tag2 := by
  obtain ⟨s1, hrun, hcount, hentry, -, -, -, -, -⟩ :=
    CreateGLTexture_registers stbi_load filename tag image s hn hread hch
  have hslot : 0 ≤ FindTextureSlot s1 tag ∧
      FindTextureSlot s1 tag < (s.m_loadedTextures : Int) + 1 := by
    rcases FindTextureSlot_loop_spec s1 tag s1.m_loadedTextures 0 rfl with
      ⟨i, h1, -, h3, -, -⟩ | ⟨-, h2⟩
    · rw [FindTextureSlot, h1]
      omega
    · have := h2 ⟨s.m_loadedTextures, hn⟩ (Nat.zero_le _) (by simp [hcount])
      rw [hentry] at this
      exact absurd rfl this
  refine ⟨s1, hrun, hcount, hslot.1, hslot.2, ?_⟩
  intro s2 hc hi tag2
  exact ⟨FindTextureSlot_congr s2 s1 tag2 hc hi, FindTextureID_congr s2 s1 tag2 hc hi⟩

/-- C15 at the empty registry (count 0) and the 3-channel image read from
`textures/Wood.jpg`: after the registration `Wood` resolves to a slot in
`[0, 1)`. -/
theorem C15_registered_tag_resolves_to_stable_unit_witness :
    (SceneManager.empty ℚ none).m_loadedTextures < 16 ∧
    sampleDecoder "textures/Wood.jpg" = some (sampleImage 3) ∧
    ((sampleImage 3).colorChannels = 3 ∨ (sampleImage 3).colorChannels = 4) ∧
    ∃ s1, CreateGLTexture sampleDecoder "textures/Wood.jpg" "Wood" (SceneManager.empty ℚ none)
        = Except.ok (true, s1) ∧
      0 ≤ FindTextureSlot s1 "Wood" ∧ FindTextureSlot s1 "Wood" < 0 + 1 :=
  ⟨by decide, rfl, Or.inl rfl,
    (C15_registered_tag_resolves_to_stable_unit sampleDecoder "textures/Wood.jpg" "Wood"
      (sampleImage 3) (SceneManager.empty ℚ none) (by decide) rfl (Or.inl rfl)).imp
      fun _ h => ⟨h.1, h.2.2.1, h.2.2.2.1⟩⟩

/-! ## `BindGLTextures` -/

theorem BindGLTextures_loop_lt {K : Type} (s : SceneManager K) (i : Nat)
    (h : i < s.m_loadedTextures) :
    BindGLTextures.loop s i =
      (let gl2 := glBindTexture (glActiveTexture s.gl i)
        (s.m_textureIDs ⟨i, Nat.lt_of_lt_of_le h s.inBounds⟩).ID
      BindGLTextures.loop { s with gl := gl2 } (i + 1)) := by
  rw [BindGLTextures.loop]
  simp [h]

theorem BindGLTextures_loop_ge {K : Type} (s : SceneManager K) (i : Nat)
    (h : s.m_loadedTextures ≤ i) : BindGLTextures.loop s i = s := by
  rw [BindGLTextures.loop]
  simp [Nat.not_lt.mpr h]

/-- What the loop of `BindGLTextures` does when entered at `i`: the registry,
the shader program, the materials, the live names and the texture objects are
as before; every unit from `i` up to the count is bound to the handle of its
entry; every other unit keeps its binding. -/
theorem BindGLTextures_loop_effect {K : Type} :
    ∀ (n : Nat) (s : SceneManager K) (i : Nat), s.m_loadedTextures - i = n →
      (BindGLTextures.loop s i).m_loadedTextures = s.m_loadedTextures ∧
      (BindGLTextures.loop s i).m_textureIDs = s.m_textureIDs ∧
      (BindGLTextures.loop s i).m_pShaderManager = s.m_pShaderManager ∧
      (BindGLTextures.loop s i).m_objectMaterials = s.m_objectMaterials ∧
      (BindGLTextures.loop s i).gl.textures = s.gl.textures ∧
      (BindGLTextures.loop s i).gl.objects = s.gl.objects ∧
      (∀ j : Fin 16, i ≤ j.val → j.val < s.m_loadedTextures →
        (BindGLTextures.loop s i).gl.bound j.val = (s.m_textureIDs j).ID) ∧
      (∀ u : Nat, u < i ∨ s.m_loadedTextures ≤ u →
        (BindGLTextures.loop s i).gl.bound u = s.gl.bound u) := by
  intro n
  induction n with
  | zero =>
    intro s i hn
    rw [BindGLTextures_loop_ge s i (by omega)]
    refine ⟨rfl, rfl, rfl, rfl, rfl, rfl, ?_, fun _ _ => rfl⟩
    intro j h1 h2
    omega
  | succ n ih =>
    intro s i hn
    have hlt : i < s.m_loadedTextures := by omega
    rw [BindGLTextures_loop_lt s i hlt]
    simp only
    generalize hgl : glBindTexture (glActiveTexture s.gl i)
      (s.m_textureIDs ⟨i, Nat.lt_of_lt_of_le hlt s.inBounds⟩).ID = gl2
    have hb : ∀ u : Nat, gl2.bound u =
        if u = i then (s.m_textureIDs ⟨i, Nat.lt_of_lt_of_le hlt s.inBounds⟩).ID
        else s.gl.bound u := by
      intro u
      rw [← hgl]
      rfl
    have ht : gl2.textures = s.gl.textures := by rw [← hgl]; rfl
    have ho : gl2.objects = s.gl.objects := by rw [← hgl]; rfl
    obtain ⟨h1, h2, h3, h4, h5, h6, h7, h8⟩ := ih { s with gl := gl2 } (i + 1)
      (by simp only; omega)
    refine ⟨h1, h2, h3, h4, h5.trans ht, h6.trans ho, ?_, ?_⟩
    · intro j hj1 hj2
      by_cases hj : i + 1 ≤ j.val
      · exact h7 j hj hj2
      · have hji : j.val = i := by omega
        have hjeq : j = ⟨i, Nat.lt_of_lt_of_le hlt s.inBounds⟩ := Fin.ext hji
        rw [h8 j.val (Or.inl (by omega))]
        simp only
        rw [hb, if_pos hji, hjeq]
    · intro u hu
      rw [h8 u (by simp only; omega)]
      have hne : u ≠ i := by omega
      simp only
      rw [hb, if_neg hne]

/-- `BindGLTextures` binds unit `i` to the handle of entry `i` for every
`i` below the count and leaves the other units and the registry alone. -/
theorem BindGLTextures_effect {K : Type} (s : SceneManager K) :
    (BindGLTextures s).m_loadedTextures = s.m_loadedTextures ∧
    (BindGLTextures s).m_textureIDs = s.m_textureIDs ∧
    (BindGLTextures s).m_pShaderManager = s.m_pShaderManager ∧
    (BindGLTextures s).m_objectMaterials = s.m_objectMaterials ∧
    (∀ j : Fin 16, j.val < s.m_loadedTextures →
      (BindGLTextures s).gl.bound j.val = (s.m_textureIDs j).ID) ∧
    (∀ u : Nat, s.m_loadedTextures ≤ u → (BindGLTextures s).gl.bound u = s.gl.bound u) := by
  obtain ⟨h1, h2, h3, h4, -, -, h7, h8⟩ := BindGLTextures_loop_effect _ s 0 rfl
  exact ⟨h1, h2, h3, h4, fun j hj => h7 j (Nat.zero_le _) hj, fun u hu => h8 u (Or.inr hu)⟩

theorem GLuint_toInt_small (id : Nat) (h : id < 2 ^ 31) : GLuint.toInt id = (id : Int) := by
  have h1 : id % 2 ^ 32 = id :=
    Nat.mod_eq_of_lt (Nat.lt_trans h (by norm_num))
  unfold GLuint.toInt
  rw [h1, if_pos h]

/-- C16 (the claim fails): a registry whose single entry `Wood` has the handle
4294967295.  After `BindGLTextures` unit 0 is bound to that handle and
`FindTextureSlot` returns 0, but `FindTextureID`, which returns the handle as
an `int`, returns `-1`: it is `-1` although `FindTextureSlot` is not, and it
is not the handle bound at unit 0. -/
theorem C16_high_handle_counterexample :
    (sceneHighHandle.m_textureIDs 0).tag = "Wood" ∧
    (BindGLTextures sceneHighHandle).gl.bound 0 = 4294967295 ∧
    FindTextureSlot (BindGLTextures sceneHighHandle) "Wood" = 0 ∧
    FindTextureID (BindGLTextures sceneHighHandle) "Wood" = -1 ∧
    (((BindGLTextures sceneHighHandle).gl.bound 0 : GLuint) : Int) ≠
      FindTextureID (BindGLTextures sceneHighHandle) "Wood" := by
  obtain ⟨h1, h2, -, -, h5, -⟩ := BindGLTextures_effect sceneHighHandle
  have hb : (BindGLTextures sceneHighHandle).gl.bound 0 = 4294967295 :=
    h5 0 (by decide)
  have hs : FindTextureSlot (BindGLTextures sceneHighHandle) "Wood" = 0 := by
    rw [FindTextureSlot_congr _ sceneHighHandle "Wood" h1 h2, FindTextureSlot]
    exact FindTextureSlot_loop_hit sceneHighHandle "Wood" 0 (by decide) rfl
  have hi : FindTextureID (BindGLTextures sceneHighHandle) "Wood" = -1 := by
    rw [FindTextureID_congr _ sceneHighHandle "Wood" h1 h2, FindTextureID,
      FindTextureID_loop_hit sceneHighHandle "Wood" 0 (by decide) rfl]
    simp [GLuint.toInt, sceneHighHandle]
  refine ⟨rfl, hb, hs, hi, ?_⟩
  rw [hb, hi]
  decide

/-- C16 (amended): on a registry all of whose handles are below 2^31, after
`BindGLTextures` the registry is as before, for every `i` below the count
unit `i` is bound to the handle of entry `i`, and the units from the count on
are untouched; for every registered tag the handle bound at unit
`FindTextureSlot tag` equals `FindTextureID tag`; and `FindTextureID tag` is
`-1` exactly when `FindTextureSlot tag` is `-1`. -/
theorem C16_BindGLTextures_binds_units_in_order {K : Type} (s : SceneManager K)
    (tag : String)
    (hsmall : ∀ i : Fin 16, i.val < s.m_loadedTextures → (s.m_textureIDs i).ID < 2 ^ 31) :
    (BindGLTextures s).m_loadedTextures = s.m_loadedTextures ∧
    (BindGLTextures s).m_textureIDs = s.m_textureIDs ∧
    (∀ i : Fin 16, i.val < s.m_loadedTextures →
      (BindGLTextures s).gl.bound i.val = (s.m_textureIDs i).ID) ∧
    (∀ u : Nat, s.m_loadedTextures ≤ u → (BindGLTextures s).gl.bound u = s.gl.bound u) ∧
    ((∃ i : Fin 16, i.val < s.m_loadedTextures ∧ (s.m_textureIDs i).tag = tag) →
      0 ≤ FindTextureSlot (BindGLTextures s) tag ∧
      (((BindGLTextures s).gl.bound (FindTextureSlot (BindGLTextures s) tag).toNat : GLuint)
        : Int) = FindTextureID (BindGLTextures s) tag) ∧
    (FindTextureID (BindGLTextures s) tag = -1 ↔ FindTextureSlot (BindGLTextures s) tag = -1) := by
  obtain ⟨h1, h2, -, -, h5, h6⟩ := BindGLTextures_effect s
  have hS : FindTextureSlot (BindGLTextures s) tag = FindTextureSlot s tag :=
    FindTextureSlot_congr _ s tag h1 h2
  have hI : FindTextureID (BindGLTextures s) tag = FindTextureID s tag :=
    FindTextureID_congr _ s tag h1 h2
  have key := FindTexture_loops_joint s tag s.m_loadedTextures 0 rfl
  refine ⟨h1, h2, h5, h6, ?_, ?_⟩
  · rintro ⟨i, hi, ht⟩
    rw [hS, hI]
    rcases key with ⟨m, k1, k2, k3, -⟩ | ⟨-, -, k3⟩
    · rw [FindTextureSlot, FindTextureID, k1, k2, GLuint_toInt_small _ (hsmall m k3)]
      refine ⟨by omega, ?_⟩
      rw [Int.toNat_ofNat, h5 m k3]
    · exact absurd ht (k3 i (Nat.zero_le _) hi)
  · rw [hS, hI]
    rcases key with ⟨m, k1, k2, k3, -⟩ | ⟨k1, k2, -⟩
    · rw [FindTextureSlot, FindTextureID, k1, k2, GLuint_toInt_small _ (hsmall m k3)]
      constructor <;> intro h <;> omega
    · rw [FindTextureSlot, FindTextureID, k1, k2]

/-- C16 (amended) at the registry holding `Wood` twice, handles 1 and 2: unit
0 is bound to handle 1, which is what `FindTextureID` returns for `Wood`. -/
theorem C16_BindGLTextures_binds_units_in_order_witness :
    (∀ i : Fin 16, i.val < sceneTwoWood.m_loadedTextures →
      (sceneTwoWood.m_textureIDs i).ID < 2 ^ 31) ∧
    (BindGLTextures sceneTwoWood).gl.bound 0 = 1 ∧
    (BindGLTextures sceneTwoWood).gl.bound 1 = 2 ∧
    (((BindGLTextures sceneTwoWood).gl.bound
        (FindTextureSlot (BindGLTextures sceneTwoWood) "Wood").toNat : GLuint) : Int) =
      FindTextureID (BindGLTextures sceneTwoWood) "Wood" := by
  have hsmall : ∀ i : Fin 16, i.val < sceneTwoWood.m_loadedTextures →
      (sceneTwoWood.m_textureIDs i).ID < 2 ^ 31 := by
    intro i hi
    rcases i with ⟨v, hv⟩
    have h2 : v < 2 := hi
    have hcases : v = 0 ∨ v = 1 := by omega
    rcases hcases with h | h <;> subst h <;> simp [sceneTwoWood]
  have h := C16_BindGLTextures_binds_units_in_order sceneTwoWood "Wood" hsmall
  exact ⟨hsmall, h.2.2.1 0 (by decide), h.2.2.1 1 (by decide),
    (h.2.2.2.2.1 ⟨0, by decide, rfl⟩).2⟩

/-! ## The textures `RenderScene` asks for -/

/-- A call of `CreateGLTexture` that returns `true` found a free slot, stored
the tag in the slot numbered by the old count, raised the count by one and
left the other slots alone. -/
theorem CreateGLTexture_true {K : Type} (stbi_load : String → Option Image)
    (filename tag : String) (s s1 : SceneManager K)
    (h : CreateGLTexture stbi_load filename tag s = Except.ok (true, s1)) :
    ∃ hn : s.m_loadedTextures < 16, s1.m_loadedTextures = s.m_loadedTextures + 1 ∧
      (s1.m_textureIDs ⟨s.m_loadedTextures, hn⟩).tag = tag ∧
      ∀ i : Fin 16, i.val ≠ s.m_loadedTextures → s1.m_textureIDs i = s.m_textureIDs i := by
  cases hr : stbi_load filename with
  | none =>
    simp [CreateGLTexture, hr] at h
  | some image =>
    by_cases hch : image.colorChannels = 3 ∨ image.colorChannels = 4
    · by_cases hn : s.m_loadedTextures < 16
      · obtain ⟨s2, hrun, hc, he, -, -, ho, -, -⟩ :=
          CreateGLTexture_registers stbi_load filename tag image s hn hr hch
        rw [hrun] at h
        have hs : s2 = s1 := by
          injection h with h
          injection h
        subst hs
        exact ⟨hn, hc, by rw [he], ho⟩
      · have hfull : s.m_loadedTextures = 16 := by
          have := s.inBounds
          omega
        rw [CreateGLTexture_full_faults stbi_load filename tag image s hfull hr hch] at h
        cases h
    · have h3 : image.colorChannels ≠ 3 := fun h3 => hch (Or.inl h3)
      have h4 : image.colorChannels ≠ 4 := fun h4 => hch (Or.inr h4)
      obtain ⟨gl, hrun⟩ := CreateGLTexture_rejects stbi_load filename tag image s hr h3 h4
      rw [hrun] at h
      simp at h

theorem holdsTags_nil {K : Type} (s : SceneManager K) (h : s.m_loadedTextures = 0) :
    s.holdsTags [] := by
  refine ⟨h, ?_⟩
  intro i t ht
  simp at ht

/-- A successful registration appends its tag to the tags the registry holds. -/
theorem holdsTags_step {K : Type} (stbi_load : String → Option Image)
    (filename tag : String) (tags : List String) (s s1 : SceneManager K)
    (hs : s.holdsTags tags)
    (h : CreateGLTexture stbi_load filename tag s = Except.ok (true, s1)) :
    s1.holdsTags (tags ++ [tag]) := by
  obtain ⟨hn, hc, he, ho⟩ := CreateGLTexture_true stbi_load filename tag s s1 h
  refine ⟨by rw [hc, hs.1]; simp, ?_⟩
  intro i t ht
  by_cases hi : i.val < tags.length
  · rw [List.getElem?_append_left hi] at ht
    rw [ho i (by rw [hs.1]; omega)]
    exact hs.2 i t ht
  · have hle : tags.length ≤ i.val := Nat.le_of_not_lt hi
    rw [List.getElem?_append_right hle] at ht
    have hz : i.val - tags.length = 0 := by
      by_contra hne
      obtain ⟨k, hk⟩ := Nat.exists_eq_succ_of_ne_zero hne
      rw [hk] at ht
      simp at ht
    rw [hz] at ht
    have htag : tag = t := by simpa using ht
    have hival : i.val = s.m_loadedTextures := by
      have := hs.1
      omega
    have hieq : i = ⟨s.m_loadedTextures, hn⟩ := Fin.ext hival
    rw [hieq, he, htag]

/-- On a registry that holds a list of pairwise distinct tags, `FindTextureSlot`
returns the position of the tag in the list. -/
theorem FindTextureSlot_of_holdsTags {K : Type} (s : SceneManager K) (tags : List String)
    (tag : String) (k : Nat) (hs : s.holdsTags tags) (hnd : tags.Nodup)
    (hk : tags[k]? = some tag) : FindTextureSlot s tag = (k : Int) := by
  have hklt : k < tags.length := by
    by_contra hge
    rw [List.getElem?_eq_none (Nat.le_of_not_lt hge)] at hk
    cases hk
  rcases FindTextureSlot_loop_spec s tag s.m_loadedTextures 0 rfl with
    ⟨i, h1, -, h3, h4, -⟩ | ⟨-, h2⟩
  · have hi : i.val < tags.length := by rw [← hs.1]; exact h3
    have hti : tags[i.val]? = some tag := by
      have h5 := hs.2 i tags[i.val] (List.getElem?_eq_getElem hi)
      rw [List.getElem?_eq_getElem hi, ← h5, h4]
    have hik : i.val = k := by
      rcases Nat.lt_trichotomy i.val k with hlt | heq | hgt
      · exact absurd (hti.trans hk.symm)
          (List.nodup_iff_getElem?_ne_getElem?.mp hnd i.val k hlt hklt)
      · exact heq
      · exact absurd (hk.trans hti.symm)
          (List.nodup_iff_getElem?_ne_getElem?.mp hnd k i.val hgt hi)
    rw [FindTextureSlot, h1, hik]
  · exfalso
    have hk16 : k < 16 := by
      have := s.inBounds
      have := hs.1
      omega
    exact h2 ⟨k, hk16⟩ (Nat.zero_le _) (by rw [hs.1]; exact hklt) (hs.2 ⟨k, hk16⟩ tag hk)

theorem textureTags_RenderScene {K : Type} [Field K] :
    textureTags (RenderScene.script : List (Cmd K)) =
      ["base", "Wood", "Wood", "Wood", "Wood", "Wood", "laptop", "Pod", "rubber", "Pod",
       "Pod", "rubber", "Pod", "jotter", "pen", "pen", "rubber", "pen", "case"] := by
  rfl

/-- The tags `RenderScene` passes to `SetShaderTexture`, without repetition. -/
theorem textureTags_RenderScene_mem {K : Type} [Field K] (tag : String) :
    tag ∈ textureTags (RenderScene.script : List (Cmd K)) ↔
      tag ∈ ["base", "Wood", "laptop", "Pod", "rubber", "jotter", "pen", "case"] := by
  rw [textureTags_RenderScene]
  simp only [List.mem_cons, List.mem_singleton, List.not_mem_nil, or_false]
  constructor
  · intro h
    rcases h with
      h | h | h | h | h | h | h | h | h | h | h | h | h | h | h | h | h | h | h <;>
    simp [h]
  · intro h
    rcases h with h | h | h | h | h | h | h | h <;> simp [h]

/-- The ten tags `LoadSceneTextures` registers are pairwise distinct. -/
theorem LoadSceneTextures_tags_nodup :
    ["Wood", "laptop", "white", "jotter", "Pod", "pen", "rubber", "glass", "base",
      "case"].Nodup := by
  decide

/-- Each tag `RenderScene` passes to `SetShaderTexture` is one of the ten tags
`LoadSceneTextures` registers. -/
theorem textureTags_registered (tag : String)
    (h : tag ∈ ["base", "Wood", "laptop", "Pod", "rubber", "jotter", "pen", "case"]) :
    tag ∈ ["Wood", "laptop", "white", "jotter", "Pod", "pen", "rubber", "glass", "base",
      "case"] := by
  simp only [List.mem_cons, List.mem_singleton, List.not_mem_nil, or_false] at h ⊢
  rcases h with h | h | h | h | h | h | h | h <;> simp [h]

/-- C19: starting from an empty texture registry, if all ten `CreateGLTexture`
calls of `LoadSceneTextures` return `true`, then `LoadSceneTextures` ends with
a registry of exactly 10 entries whose tags, in slot order, are `Wood`,
`laptop`, `white`, `jotter`, `Pod`, `pen`, `rubber`, `glass`, `base`, `case`;
these are pairwise distinct and `FindTextureSlot` returns for each tag its
position in the call order.  The tags `RenderScene` passes to
`SetShaderTexture` are exactly `base`, `Wood`, `laptop`, `Pod`, `rubber`,
`jotter`, `pen` and `case`, and each of them resolves to a slot in `[0, 10)`,
which is what `SetShaderTexture` writes to the sampler: never `-1`. -/
theorem C19_LoadSceneTextures_resolves_every_texture_tag {K : Type} [Field K]
    (stbi_load : String → Option Image)
    (s s1 s2 s3 s4 s5 s6 s7 s8 s9 s10 : SceneManager K)
    (h0 : s.m_loadedTextures = 0)
    (h1 : CreateGLTexture stbi_load "textures/Wood.jpg" "Wood" s = Except.ok (true, s1))
    (h2 : CreateGLTexture stbi_load "textures/mac.jpg" "laptop" s1 = Except.ok (true, s2))
    (h3 : CreateGLTexture stbi_load "textures/white.jpg" "white" s2 = Except.ok (true, s3))
    (h4 : CreateGLTexture stbi_load "textures/jotter.png" "jotter" s3 = Except.ok (true, s4))
    (h5 : CreateGLTexture stbi_load "textures/pod.jpg" "Pod" s4 = Except.ok (true, s5))
    (h6 : CreateGLTexture stbi_load "textures/pen.png" "pen" s5 = Except.ok (true, s6))
    (h7 : CreateGLTexture stbi_load "textures/rubber.jpg" "rubber" s6 = Except.ok (true, s7))
    (h8 : CreateGLTexture stbi_load "textures/glass.jpg" "glass" s7 = Except.ok (true, s8))
    (h9 : CreateGLTexture stbi_load "textures/base.jpg" "base" s8 = Except.ok (true, s9))
    (h10 : CreateGLTexture stbi_load "textures/case.png" "case" s9 = Except.ok (true, s10)) :
    LoadSceneTextures stbi_load s = Except.ok (BindGLTextures s10) ∧
    (BindGLTextures s10).m_loadedTextures = 10 ∧
    (BindGLTextures s10).m_loadedTextures ≤ 16 ∧
    (∀ (i : Fin 16) (t : String),
      ["Wood", "laptop", "white", "jotter", "Pod", "pen", "rubber", "glass", "base",
        "case"][i.val]? = some t →
      ((BindGLTextures s10).m_textureIDs i).tag = t ∧
        FindTextureSlot (BindGLTextures s10) t = (i.val : Int)) ∧
    ["Wood", "laptop", "white", "jotter", "Pod", "pen", "rubber", "glass", "base",
      "case"].Nodup ∧
    (∀ tag, tag ∈ textureTags (RenderScene.script : List (Cmd K)) ↔
      tag ∈ ["base", "Wood", "laptop", "Pod", "rubber", "jotter", "pen", "case"]) ∧
    ∀ tag ∈ textureTags (RenderScene.script : List (Cmd K)),
      ∃ k : Nat, k < 10 ∧ FindTextureSlot (BindGLTextures s10) tag = (k : Int) ∧
        FindTextureSlot (BindGLTextures s10) tag ≠ -1 ∧
        ∀ sh : ShaderManager K,
          SetShaderTexture tag ((BindGLTextures s10).withTable sh) =
            (BindGLTextures s10).withTable
              ((sh.write "bUseTexture" (UniformValue.int 1)).write "objectTexture"
                (UniformValue.sampler2D (k : Int))) := by
  have hrun : LoadSceneTextures stbi_load s = Except.ok (BindGLTextures s10) := by
    simp only [LoadSceneTextures, h1, h2, h3, h4, h5, h6, h7, h8, h9, h10, bind, Except.bind,
      pure, Except.pure]
  have hs10 : s10.holdsTags
      ["Wood", "laptop", "white", "jotter", "Pod", "pen", "rubber", "glass", "base",
        "case"] :=
    holdsTags_step stbi_load _ _ _ s9 s10
      (holdsTags_step stbi_load _ _ _ s8 s9
        (holdsTags_step stbi_load _ _ _ s7 s8
          (holdsTags_step stbi_load _ _ _ s6 s7
            (holdsTags_step stbi_load _ _ _ s5 s6
              (holdsTags_step stbi_load _ _ _ s4 s5
                (holdsTags_step stbi_load _ _ _ s3 s4
                  (holdsTags_step stbi_load _ _ _ s2 s3
                    (holdsTags_step stbi_load _ _ _ s1 s2
                      (holdsTags_step stbi_load _ _ _ s s1 (holdsTags_nil s h0) h1)
                      h2) h3) h4) h5) h6) h7) h8) h9) h10
  obtain ⟨hb1, hb2, -, -, -, -⟩ := BindGLTextures_effect s10
  have hsb : (BindGLTextures s10).holdsTags
      ["Wood", "laptop", "white", "jotter", "Pod", "pen", "rubber", "glass", "base",
        "case"] := by
    refine ⟨hb1.trans hs10.1, ?_⟩
    intro i t ht
    rw [hb2]
    exact hs10.2 i t ht
  have hnd := LoadSceneTextures_tags_nodup
  have hcount : (BindGLTextures s10).m_loadedTextures = 10 := hsb.1
  have htags : ∀ tag, tag ∈ textureTags (RenderScene.script : List (Cmd K)) ↔
      tag ∈ ["base", "Wood", "laptop", "Pod", "rubber", "jotter", "pen", "case"] :=
    textureTags_RenderScene_mem
  refine ⟨hrun, hcount, by rw [hcount]; decide, ?_, hnd, htags, ?_⟩
  · intro i t ht
    exact ⟨hsb.2 i t ht, FindTextureSlot_of_holdsTags _ _ t i.val hsb hnd ht⟩
  · intro tag htag
    have hmem := textureTags_registered tag ((htags tag).mp htag)
    obtain ⟨k, hklt, hk⟩ := List.getElem_of_mem hmem
    have hk2 : ["Wood", "laptop", "white", "jotter", "Pod", "pen", "rubber", "glass",
        "base", "case"][k]? = some tag := by
      rw [List.getElem?_eq_getElem hklt, hk]
    have hslot := FindTextureSlot_of_holdsTags _ _ tag k hsb hnd hk2
    refine ⟨k, hklt, hslot, by rw [hslot]; omega, ?_⟩
    intro sh
    rw [SetShaderTexture_withTable tag _ sh rfl,
      FindTextureSlot_congr ((BindGLTextures s10).withTable sh) (BindGLTextures s10) tag rfl rfl,
      hslot]
    rfl

/-- C19 at the empty scene manager and a decoder that reads a 3-channel image
from every path: the ten calls return `true`, `LoadSceneTextures` ends with 10
entries, and `case`, registered last, resolves to slot 9. -/
theorem C19_LoadSceneTextures_resolves_every_texture_tag_witness :
    (SceneManager.empty ℚ none).m_loadedTextures = 0 ∧
    ∃ s10 : SceneManager ℚ,
      LoadSceneTextures sceneDecoder (SceneManager.empty ℚ none) =
        Except.ok (BindGLTextures s10) ∧
      (BindGLTextures s10).m_loadedTextures = 10 ∧
      FindTextureSlot (BindGLTextures s10) "case" = 9 := by
  have step : ∀ (filename tag : String) (s : SceneManager ℚ), s.m_loadedTextures < 16 →
      ∃ s1, CreateGLTexture sceneDecoder filename tag s = Except.ok (true, s1) ∧
        s1.m_loadedTextures = s.m_loadedTextures + 1 := by
    intro filename tag s hn
    obtain ⟨s1, hrun, hc, -⟩ := CreateGLTexture_registers sceneDecoder filename tag
      (sampleImage 3) s hn rfl (Or.inl rfl)
    exact ⟨s1, hrun, hc⟩
  have c0 : (SceneManager.empty ℚ none).m_loadedTextures = 0 := rfl
  obtain ⟨s1, h1, c1⟩ := step "textures/Wood.jpg" "Wood" (SceneManager.empty ℚ none)
    (by omega)
  obtain ⟨s2, h2, c2⟩ := step "textures/mac.jpg" "laptop" s1 (by omega)
  obtain ⟨s3, h3, c3⟩ := step "textures/white.jpg" "white" s2 (by omega)
  obtain ⟨s4, h4, c4⟩ := step "textures/jotter.png" "jotter" s3 (by omega)
  obtain ⟨s5, h5, c5⟩ := step "textures/pod.jpg" "Pod" s4 (by omega)
  obtain ⟨s6, h6, c6⟩ := step "textures/pen.png" "pen" s5 (by omega)
  obtain ⟨s7, h7, c7⟩ := step "textures/rubber.jpg" "rubber" s6 (by omega)
  obtain ⟨s8, h8, c8⟩ := step "textures/glass.jpg" "glass" s7 (by omega)
  obtain ⟨s9, h9, c9⟩ := step "textures/base.jpg" "base" s8 (by omega)
  obtain ⟨s10, h10, -⟩ := step "textures/case.png" "case" s9 (by omega)
  have h := C19_LoadSceneTextures_resolves_every_texture_tag sceneDecoder
    (SceneManager.empty ℚ none) s1 s2 s3 s4 s5 s6 s7 s8 s9 s10 c0 h1 h2 h3 h4 h5 h6 h7 h8 h9 h10
  exact ⟨c0, s10, h.1, h.2.1, (h.2.2.2.1 9 "case" rfl).2⟩
